import Mathlib

/-!
# Health scoring engine of `src/api/performance-monitor.js`

A shallow embedding of `performComprehensiveMonitoring`,
`generateRecommendations`, `calculateSystemHealth`, `generateAlerts` and the
request handler `performMonitoring`, followed by the properties of the health
score, the status tier, the alerts, the recommendations and the bookkeeping
writes of the handler. The fleet report (`getMonitoringReport`,
`getTopPerformingAgents`, `calculatePerformanceTrends`), the endpoint
`handler`, `RecommendationEngine.findSimilarItems` of
`src/api/utils/huggingface.js` and the task handlers of
`src/api/sentiment-agent.js` and `src/api/recommendation-agent.js` are
embedded in the same way.

Modelling conventions.

* The four store reads at the top of `performComprehensiveMonitoring`
  (`agentDb.getAgentById`, `taskDb.getTasks`, `metricsDb.getMetrics`,
  `logDb.getLogs`) and the clock (`new Date()`) are the inputs of the embedded
  function: the agent row, the three lists and `now` in milliseconds.
* A JavaScript number is a `JSNum`: a finite value kept as an exact rational
  (rounding is abstracted), or one of `NaN`, `+Infinity`, `-Infinity`. The
  non-finite values are kept because the code relies on `0 / 0 || 0`.
* Counts (`.length`) are natural numbers, the running `healthScore` is an
  integer, timestamps are integers (milliseconds since the epoch).
* `status`, `level`, `type` and `severity` are strings, compared with `===`
  against string literals exactly as in the source.
-/

namespace PerformanceMonitor

/-! ## JavaScript numbers -/

/-- JavaScript number: a finite value, `NaN`, `+Infinity` or `-Infinity`. -/
inductive JSNum where
  | fin (q : ℚ)
  | nan
  | posInf
  | negInf
deriving DecidableEq

namespace JSNum

/-- JavaScript `a < b`: false as soon as one side is `NaN`. -/
def lt : JSNum → JSNum → Bool
  | fin a, fin b => decide (a < b)
  | fin _, posInf => true
  | negInf, fin _ => true
  | negInf, posInf => true
  | _, _ => false

/-- JavaScript `a > b`. -/
def gt (a b : JSNum) : Bool := lt b a

/-- JavaScript `a <= b`: false as soon as one side is `NaN`. -/
def le : JSNum → JSNum → Bool
  | fin a, fin b => decide (a ≤ b)
  | fin _, posInf => true
  | negInf, fin _ => true
  | negInf, posInf => true
  | negInf, negInf => true
  | posInf, posInf => true
  | _, _ => false

/-- JavaScript `a / b` on finite operands: `0 / 0` is `NaN`, any other
division by zero is an infinity. -/
def div (a b : ℚ) : JSNum :=
  if b ≠ 0 then fin (a / b)
  else if a = 0 then nan
  else if 0 < a then posInf
  else negInf

/-- JavaScript `x * c` for a finite constant `c`. -/
def mulConst : JSNum → ℚ → JSNum
  | fin a, c => fin (a * c)
  | nan, _ => nan
  | posInf, c => if c = 0 then nan else if 0 < c then posInf else negInf
  | negInf, c => if c = 0 then nan else if 0 < c then negInf else posInf

/-- JavaScript truthiness of a number: `0` and `NaN` are falsy. -/
def truthy : JSNum → Bool
  | fin a => decide (a ≠ 0)
  | nan => false
  | posInf => true
  | negInf => true

/-- JavaScript `x || d`. -/
def orElse (x d : JSNum) : JSNum := if x.truthy then x else d

/-- Whether the number is `NaN`. -/
def isNaN : JSNum → Bool
  | nan => true
  | _ => false

end JSNum

/-! ## Data model -/

/-- A row of `agents`, as far as the monitor reads it. -/
structure Agent where
  id : String
  name : String
  type : String
  status : String
  version : String
deriving DecidableEq

/-- A row of `agent_tasks`, as far as the monitor reads it. -/
structure Task where
  id : String
  tenant_id : String
  agent_id : String
  status : String
  created_at : Int
deriving DecidableEq

/-- A row of `agent_metrics`, as far as the monitor reads it. -/
structure Metric where
  tenant_id : String
  agent_id : String
  processing_time : ℚ
  success : Bool
  created_at : Int
deriving DecidableEq

/-- A row of `agent_logs`, as far as the monitor reads it. -/
structure LogEntry where
  tenant_id : String
  agent_id : String
  level : String
  message : String
deriving DecidableEq

/-- The `performance` object built at lines 207-234. -/
structure Performance where
  total_tasks : Nat
  completed_tasks : Nat
  failed_tasks : Nat
  pending_tasks : Nat
  processing_tasks : Nat
  success_rate : JSNum
  average_processing_time : JSNum
  error_rate : JSNum
  tasks_last_24h : Nat
  tasks_last_7d : Nat
  error_logs : Nat
  warning_logs : Nat
  info_logs : Nat
deriving DecidableEq

/-- One piece of a template literal: literal text, `x.toFixed(1)`, or the
default rendering of a number. Number formatting itself is not modelled. -/
inductive MessagePart where
  | text (s : String)
  | toFixed1 (x : JSNum)
  | number (x : JSNum)
deriving DecidableEq

/-- An entry of the `alerts` array. -/
structure Alert where
  type : String
  severity : String
  message : List MessagePart
  threshold : Nat
  current_value : JSNum
deriving DecidableEq

/-- The `agent_info` object of the returned report. -/
structure AgentInfo where
  id : String
  name : String
  type : String
  status : String
  version : String
deriving DecidableEq

/-- The object returned by `performComprehensiveMonitoring`. -/
structure MonitoringResult where
  agent_info : AgentInfo
  performance_metrics : Performance
  overall_health_score : Int
  health_status : String
  alerts : List Alert
  recommendations : List String
  monitoring_timestamp : Int
deriving DecidableEq

/-! ## The code -/

/-- Lines 207-234: the `performance` object, from the rows read from the
stores and the two window starts. -/
def performanceOf (recentTasks : List Task) (recentMetrics : List Metric)
    (recentLogs : List LogEntry) (last24Hours last7Days : Int) : Performance :=
  { total_tasks := recentTasks.length
    completed_tasks := (recentTasks.filter (fun t => t.status == "completed")).length
    failed_tasks := (recentTasks.filter (fun t => t.status == "failed")).length
    pending_tasks := (recentTasks.filter (fun t => t.status == "pending")).length
    processing_tasks := (recentTasks.filter (fun t => t.status == "processing")).length
    success_rate :=
      if recentTasks.length > 0 then
        JSNum.div (recentTasks.filter (fun t => t.status == "completed")).length
          recentTasks.length
      else JSNum.fin 0
    average_processing_time :=
      JSNum.orElse
        (JSNum.div (recentMetrics.foldl (fun acc m => acc + m.processing_time) 0)
          recentMetrics.length)
        (JSNum.fin 0)
    error_rate :=
      if recentTasks.length > 0 then
        JSNum.div (recentTasks.filter (fun t => t.status == "failed")).length
          recentTasks.length
      else JSNum.fin 0
    tasks_last_24h := (recentTasks.filter (fun t => decide (t.created_at > last24Hours))).length
    tasks_last_7d := (recentTasks.filter (fun t => decide (t.created_at > last7Days))).length
    error_logs := (recentLogs.filter (fun l => l.level == "error")).length
    warning_logs := (recentLogs.filter (fun l => l.level == "warning")).length
    info_logs := (recentLogs.filter (fun l => l.level == "info")).length }

/-- Lines 236-251: the running `healthScore`, before the floor at 0. -/
def healthScoreOf (performance : Performance) : Int :=
  let healthScore : Int := 100
  let healthScore :=
    if performance.error_rate.gt (JSNum.fin (1 / 10)) then healthScore - 20 else healthScore
  let healthScore :=
    if performance.error_rate.gt (JSNum.fin (2 / 10)) then healthScore - 30 else healthScore
  let healthScore :=
    if performance.average_processing_time.gt (JSNum.fin 5000) then healthScore - 15
    else healthScore
  let healthScore :=
    if performance.average_processing_time.gt (JSNum.fin 10000) then healthScore - 25
    else healthScore
  let healthScore := if performance.tasks_last_24h = 0 then healthScore - 10 else healthScore
  let healthScore := if performance.error_logs > 5 then healthScore - 15 else healthScore
  healthScore

/-- Lines 253-284: the `alerts` array, built by successive `push`. -/
def alertsOf (performance : Performance) : List Alert :=
  let alerts : List Alert := []
  let alerts :=
    if performance.error_rate.gt (JSNum.fin (2 / 10)) then
      alerts ++ [{ type := "error_rate"
                   severity := "high"
                   message := [MessagePart.text "High error rate detected: ",
                     MessagePart.toFixed1 (performance.error_rate.mulConst 100),
                     MessagePart.text "%"]
                   threshold := 20
                   current_value := performance.error_rate.mulConst 100 }]
    else alerts
  let alerts :=
    if performance.average_processing_time.gt (JSNum.fin 10000) then
      alerts ++ [{ type := "processing_time"
                   severity := "medium"
                   message := [MessagePart.text "Slow processing time: ",
                     MessagePart.number performance.average_processing_time,
                     MessagePart.text "ms"]
                   threshold := 10000
                   current_value := performance.average_processing_time }]
    else alerts
  let alerts :=
    if performance.tasks_last_24h = 0 then
      alerts ++ [{ type := "inactivity"
                   severity := "low"
                   message := [MessagePart.text "No tasks processed in the last 24 hours"]
                   threshold := 1
                   current_value := JSNum.fin 0 }]
    else alerts
  alerts

/-- Lines 303-323: `generateRecommendations(performance, healthScore)`. -/
def generateRecommendations (performance : Performance) (healthScore : Int) : List String :=
  let recommendations : List String := []
  let recommendations :=
    if performance.error_rate.gt (JSNum.fin (1 / 10)) then
      recommendations ++ ["Review error logs and fix recurring issues"]
    else recommendations
  let recommendations :=
    if performance.average_processing_time.gt (JSNum.fin 5000) then
      recommendations ++ ["Optimize processing algorithms or increase resources"]
    else recommendations
  let recommendations :=
    if performance.tasks_last_24h = 0 then
      recommendations ++ ["Check agent configuration and input sources"]
    else recommendations
  let recommendations :=
    if healthScore < 60 then
      recommendations ++ ["Consider agent restart or reconfiguration"]
    else recommendations
  recommendations

/-- Lines 179-301: `performComprehensiveMonitoring`, after its store reads.
`agent`, `recentTasks`, `recentMetrics` and `recentLogs` are what the four
reads returned, `now` is `new Date().getTime()`. -/
def performComprehensiveMonitoring (agent : Agent) (recentTasks : List Task)
    (recentMetrics : List Metric) (recentLogs : List LogEntry) (now : Int) :
    MonitoringResult :=
  let last24Hours : Int := now - 24 * 60 * 60 * 1000
  let last7Days : Int := now - 7 * 24 * 60 * 60 * 1000
  let performance := performanceOf recentTasks recentMetrics recentLogs last24Hours last7Days
  let healthScore := healthScoreOf performance
  let alerts := alertsOf performance
  { agent_info :=
      { id := agent.id, name := agent.name, type := agent.type
        status := agent.status, version := agent.version }
    performance_metrics := performance
    overall_health_score := max 0 healthScore
    health_status :=
      if healthScore ≥ 80 then "healthy" else if healthScore ≥ 60 then "warning" else "critical"
    alerts := alerts
    recommendations := generateRecommendations performance healthScore
    monitoring_timestamp := now }

/-- The object returned by `calculateSystemHealth`. -/
structure SystemHealth where
  overall_success_rate : JSNum
  average_processing_time : JSNum
  total_operations : Nat
  successful_operations : Nat
  failed_operations : Int
deriving DecidableEq

/-- Lines 378-389: `calculateSystemHealth(metrics)`. -/
def calculateSystemHealth (metrics : List Metric) : SystemHealth :=
  let successfulMetrics := metrics.filter (fun m => m.success)
  let totalMetrics := metrics.length
  { overall_success_rate :=
      if totalMetrics > 0 then JSNum.div successfulMetrics.length totalMetrics
      else JSNum.fin 0
    average_processing_time :=
      JSNum.orElse
        (JSNum.div (metrics.foldl (fun acc m => acc + m.processing_time) 0) totalMetrics)
        (JSNum.fin 0)
    total_operations := totalMetrics
    successful_operations := successfulMetrics.length
    failed_operations := (totalMetrics : Int) - (successfulMetrics.length : Int) }

/-! ## The request handler `performMonitoring`

The handler is embedded as a computation over the writes it performs on the
three stores. The inputs of one run are the request, the outcome of every
store call, the values read from the clock and the id the store gives to the
created task. A store write that throws leaves no row behind. -/

/-- A thrown JavaScript error value, as far as `formatError` reads it. -/
structure JSError where
  message : String
  code : Option String
  details : Option String
deriving DecidableEq

/-- The row passed to `taskDb.createTask` (lines 72-78). -/
structure NewTask where
  tenant_id : String
  agent_id : String
  status : String
  input_data_monitoring_type : String
  metadata_started_at : Int
deriving DecidableEq

/-- The `metadata` object of the completed update (lines 94-97):
`task.metadata` spread, plus `processing_time_ms`. -/
structure TaskMetadata where
  started_at : Int
  processing_time_ms : Int
deriving DecidableEq

/-- The `updates` object passed to `taskDb.updateTask` (lines 90-98, 141-145). -/
structure TaskUpdates where
  status : String
  output_data : Option MonitoringResult
  error_message : Option String
  completed_at : Int
  metadata : Option TaskMetadata
deriving DecidableEq

/-- The row passed to `metricsDb.recordMetrics` (lines 101-109, 148-156). -/
structure NewMetric where
  tenant_id : String
  agent_id : String
  metric_name : String
  metric_value : Int
  processing_time : Int
  success : Bool
  metadata_monitoring_type : Option String
  metadata_error : Option String
deriving DecidableEq

/-- The `metadata` object of a written log row. -/
inductive LogMetadata where
  | completed (task_id : String) (processing_time : Int) (health_score : Int)
  | failed (task_id : String) (error : String)
  | alert (alert_type : String) (alert_data : Alert)
deriving DecidableEq

/-- The row passed to `logDb.insertLog`. -/
structure NewLog where
  tenant_id : String
  agent_id : String
  level : String
  message : List MessagePart
  metadata : LogMetadata
deriving DecidableEq

/-- One write on the stores. -/
inductive StoreWrite where
  | createTask (row : NewTask)
  | updateTask (id : String) (updates : TaskUpdates)
  | recordMetrics (row : NewMetric)
  | insertLog (row : NewLog)
deriving DecidableEq

/-- The object returned by `formatError` (database.js, lines 278-285). -/
structure FormattedError where
  message : String
  code : Option String
  details : Option String
  timestamp : Int
deriving DecidableEq

/-- The JSON body of a response. -/
inductive ResponseBody where
  | error (error : String) (details : Option FormattedError)
  | success (task_id : String) (result : MonitoringResult) (processing_time_ms : Int)
      (message : String)
deriving DecidableEq

/-- The HTTP response: status code and JSON body. -/
structure Response where
  status : Nat
  body : ResponseBody
deriving DecidableEq

/-- What the four reads of `performComprehensiveMonitoring` returned. -/
structure StoreReads where
  agent : Agent
  recentTasks : List Task
  recentMetrics : List Metric
  recentLogs : List LogEntry
deriving DecidableEq

/-- The inputs of one run of `performMonitoring`.

`agent_id` and `monitoring_type` are the fields of `req.body` (`none` when
absent). `writeOutcome k` is the outcome of the store write call number `k` of
the run, counted from 0: `none` when it succeeds, `some e` when it throws `e`.
`reads` is the outcome of the reads of `performComprehensiveMonitoring`: the
first error thrown, or the four values read. The remaining fields are the
values of the clock where the handler reads it. -/
structure MonitoringRun where
  tenantId : String
  agent_id : Option String
  monitoring_type : Option String
  taskId : String
  writeOutcome : Nat → Option JSError
  reads : Except JSError StoreReads
  started_at : Int
  startTime : Int
  monitoringNow : Int
  workDone : Int
  completed_at : Int
  failed_at : Int
  failedMetricNow : Int
  errorTimestamp : Int

/-- The state of a run: the writes performed so far, in order, and the number
of store write calls made so far. -/
structure RunState where
  writes : List StoreWrite
  calls : Nat
deriving DecidableEq

/-- A piece of the handler: it returns or throws, and the writes performed
before a throw stay performed. -/
def Step (α : Type) : Type := RunState → Except JSError α × RunState

/-- Normal return of a value. -/
def Step.pure {α : Type} (a : α) : Step α := fun s => (Except.ok a, s)

/-- Sequencing: a throw in the first piece skips the second. -/
def Step.bind {α β : Type} (m : Step α) (f : α → Step β) : Step β := fun s =>
  match m s with
  | (Except.ok a, s1) => f a s1
  | (Except.error e, s1) => (Except.error e, s1)

/-- JavaScript `throw e`. -/
def Step.throw {α : Type} (e : JSError) : Step α := fun s => (Except.error e, s)

/-- JavaScript `try { body } catch (e) { handler(e) }`. -/
def Step.tryCatch {α : Type} (body : Step α) (handler : JSError → Step α) : Step α := fun s =>
  match body s with
  | (Except.ok a, s1) => (Except.ok a, s1)
  | (Except.error e, s1) => handler e s1

instance : Monad Step where
  pure := Step.pure
  bind := Step.bind

/-- One awaited store write: it throws when the store call fails and appends
the write otherwise. -/
def storeWrite (run : MonitoringRun) (w : StoreWrite) : Step Unit := fun s =>
  match run.writeOutcome s.calls with
  | none => (Except.ok (), { writes := s.writes ++ [w], calls := s.calls + 1 })
  | some e => (Except.error e, { writes := s.writes, calls := s.calls + 1 })

/-- The log row written for one alert (lines 327-333). -/
def alertLog (tenantId agentId : String) (alert : Alert) : NewLog :=
  { tenant_id := tenantId
    agent_id := agentId
    level := if alert.severity == "high" then "error" else "warning"
    message := MessagePart.text "ALERT: " :: alert.message
    metadata := LogMetadata.alert alert.type alert }

/-- Lines 325-335: `generateAlerts(tenantId, agentId, alerts)`. -/
def generateAlerts (run : MonitoringRun) (tenantId agentId : String) : List Alert → Step Unit
  | [] => Step.pure ()
  | alert :: alerts => do
    storeWrite run (StoreWrite.insertLog (alertLog tenantId agentId alert))
    generateAlerts run tenantId agentId alerts

/-- The awaited call `performComprehensiveMonitoring(req.tenantId, agent_id)`
of line 85: it throws when one of its reads throws. -/
def monitoringWork (run : MonitoringRun) : Step MonitoringResult :=
  match run.reads with
  | Except.error e => Step.throw e
  | Except.ok r =>
    Step.pure (performComprehensiveMonitoring r.agent r.recentTasks r.recentMetrics
      r.recentLogs run.monitoringNow)

/-- The function `formatError` of database.js. -/
def formatError (error : JSError) (timestamp : Int) : FormattedError :=
  { message := error.message, code := error.code, details := error.details
    timestamp := timestamp }

/-- Lines 62-168: the body of the outer `try` of `performMonitoring`. It
returns the response sent, or throws what the outer `catch` receives. -/
def performMonitoringBody (run : MonitoringRun) : Step Response :=
  let monitoring_type := run.monitoring_type.getD "comprehensive"
  match run.agent_id with
  | none => Step.pure { status := 400, body := ResponseBody.error "agent_id is required" none }
  | some agent_id =>
    if agent_id = "" then
      Step.pure { status := 400, body := ResponseBody.error "agent_id is required" none }
    else do
      storeWrite run (StoreWrite.createTask
        { tenant_id := run.tenantId
          agent_id := agent_id
          status := "processing"
          input_data_monitoring_type := monitoring_type
          metadata_started_at := run.started_at })
      let startTime := run.startTime
      Step.tryCatch
        (do
          let result ← monitoringWork run
          let processingTime := run.workDone - startTime
          storeWrite run (StoreWrite.updateTask run.taskId
            { status := "completed"
              output_data := some result
              error_message := none
              completed_at := run.completed_at
              metadata := some { started_at := run.started_at
                                 processing_time_ms := processingTime } })
          storeWrite run (StoreWrite.recordMetrics
            { tenant_id := run.tenantId
              agent_id := agent_id
              metric_name := "performance_monitoring"
              metric_value := result.overall_health_score
              processing_time := processingTime
              success := true
              metadata_monitoring_type := some monitoring_type
              metadata_error := none })
          storeWrite run (StoreWrite.insertLog
            { tenant_id := run.tenantId
              agent_id := agent_id
              level := "info"
              message := [MessagePart.text "Performance monitoring completed for task ",
                MessagePart.text run.taskId]
              metadata := LogMetadata.completed run.taskId processingTime
                result.overall_health_score })
          if result.alerts.length > 0 then
            generateAlerts run run.tenantId agent_id result.alerts
          Step.pure
            { status := 200
              body := ResponseBody.success run.taskId result processingTime
                "Performance monitoring completed successfully" })
        (fun processingError => do
          storeWrite run (StoreWrite.updateTask run.taskId
            { status := "failed"
              output_data := none
              error_message := some processingError.message
              completed_at := run.failed_at
              metadata := none })
          storeWrite run (StoreWrite.recordMetrics
            { tenant_id := run.tenantId
              agent_id := agent_id
              metric_name := "performance_monitoring_error"
              metric_value := 0
              processing_time := run.failedMetricNow - startTime
              success := false
              metadata_monitoring_type := none
              metadata_error := some processingError.message })
          storeWrite run (StoreWrite.insertLog
            { tenant_id := run.tenantId
              agent_id := agent_id
              level := "error"
              message := [MessagePart.text "Performance monitoring failed for task ",
                MessagePart.text run.taskId]
              metadata := LogMetadata.failed run.taskId processingError.message })
          Step.throw processingError)

/-- Lines 61-177: `performMonitoring(req, res)`; the result is the response
sent and the final state of the stores. -/
def performMonitoring (run : MonitoringRun) : Response × RunState :=
  match performMonitoringBody run { writes := [], calls := 0 } with
  | (Except.ok response, s) => (response, s)
  | (Except.error error, s) =>
    ({ status := 500
       body := ResponseBody.error "Failed to perform monitoring"
         (some (formatError error run.errorTimestamp)) }, s)

/-- The task updates among the writes, in order: the id of the updated task
and the `updates` object. -/
def taskUpdates : List StoreWrite → List (String × TaskUpdates)
  | [] => []
  | StoreWrite.updateTask id updates :: ws => (id, updates) :: taskUpdates ws
  | _ :: ws => taskUpdates ws

/-- The metric rows among the writes, in order. -/
def metricRows : List StoreWrite → List NewMetric
  | [] => []
  | StoreWrite.recordMetrics row :: ws => row :: metricRows ws
  | _ :: ws => metricRows ws

/-- The log rows among the writes, in order. -/
def logRows : List StoreWrite → List NewLog
  | [] => []
  | StoreWrite.insertLog row :: ws => row :: logRows ws
  | _ :: ws => logRows ws

/-- The write is a new row of tenant `tenantId` and agent `agent_id`, or an
update of the task `taskId`. -/
def StoreWrite.ownedBy (tenantId : String) (agent_id : Option String) (taskId : String) :
    StoreWrite → Prop
  | StoreWrite.createTask row => row.tenant_id = tenantId ∧ some row.agent_id = agent_id
  | StoreWrite.updateTask id _ => id = taskId
  | StoreWrite.recordMetrics row => row.tenant_id = tenantId ∧ some row.agent_id = agent_id
  | StoreWrite.insertLog row => row.tenant_id = tenantId ∧ some row.agent_id = agent_id

/-- Every write that the piece performs satisfies `P`, whatever the state it
starts from and whether it returns or throws. -/
def Step.appends {α : Type} (P : StoreWrite → Prop) (m : Step α) : Prop :=
  ∀ s, ∃ ws, (m s).2.writes = s.writes ++ ws ∧ ∀ w ∈ ws, P w

/-! ## Sorting and the recommendation engine (huggingface.js) -/

/-- JavaScript `a - b`. -/
def JSNum.sub : JSNum → JSNum → JSNum
  | JSNum.fin a, JSNum.fin b => JSNum.fin (a - b)
  | JSNum.nan, _ => JSNum.nan
  | _, JSNum.nan => JSNum.nan
  | JSNum.posInf, JSNum.posInf => JSNum.nan
  | JSNum.negInf, JSNum.negInf => JSNum.nan
  | JSNum.posInf, _ => JSNum.posInf
  | JSNum.negInf, _ => JSNum.negInf
  | JSNum.fin _, JSNum.posInf => JSNum.negInf
  | JSNum.fin _, JSNum.negInf => JSNum.posInf

/-- JavaScript `a >= b`: false as soon as one side is `NaN`. -/
def JSNum.ge (a b : JSNum) : Bool := JSNum.le b a

/-- `Array.prototype.sort(compareFn)`: the sort is stable and `a` is placed
after `b` only when `compareFn(a, b) > 0` (a `NaN` result counts as 0). For a
consistent comparator every stable sort gives the same array; insertion sort
is taken here. -/
def jsSort {α : Type} (compareFn : α → α → JSNum) (l : List α) : List α :=
  l.insertionSort (fun a b => (compareFn a b).gt (JSNum.fin 0) = false)

/-- An element of the `items` array, as far as `findSimilarItems` reads it;
`id` stands for the other fields, which are copied by the spread. -/
structure Item where
  id : String
  text : Option String
  content : Option String
deriving DecidableEq

/-- An element of `similarities`: `{...item, similarity, relevant}`. -/
structure ScoredItem where
  item : Item
  similarity : JSNum
  relevant : Bool
deriving DecidableEq

/-- The object returned by `findSimilarItems`. -/
structure SimilarItems where
  query : String
  recommendations : List ScoredItem
  total : Nat
  threshold : JSNum
  timestamp : Int
deriving DecidableEq

/-- The expression `item.text || item.content` (line 121). -/
def Item.textOrContent (item : Item) : Option String :=
  match item.text with
  | some t => if t = "" then item.content else some t
  | none => item.content

/-- Lines 119-133: the `similarities` array. `getEmbeddings` is the call to
the embedding service and `cosineSimilarity` the function of lines 81-87 on
its results; both are parameters of the embedding. A rejected embedding call
rejects the whole `Promise.all`; the first one in list order is reported. -/
def scoreItems {E : Type} (getEmbeddings : Option String → Except JSError E)
    (cosineSimilarity : E → E → JSNum) (queryEmbedding : E) (threshold : JSNum) :
    List Item → Except JSError (List ScoredItem)
  | [] => Except.ok []
  | item :: items =>
    match getEmbeddings item.textOrContent with
    | Except.error e => Except.error e
    | Except.ok itemEmbedding =>
      match scoreItems getEmbeddings cosineSimilarity queryEmbedding threshold items with
      | Except.error e => Except.error e
      | Except.ok rest =>
        Except.ok
          ({ item := item
             similarity := cosineSimilarity queryEmbedding itemEmbedding
             relevant := (cosineSimilarity queryEmbedding itemEmbedding).ge threshold } :: rest)

/-- Lines 115-149: `findSimilarItems(query, items, threshold = 0.7)`. -/
def findSimilarItems {E : Type} (getEmbeddings : Option String → Except JSError E)
    (cosineSimilarity : E → E → JSNum) (query : String) (items : List Item)
    (threshold : Option JSNum) (timestamp : Int) : Except JSError SimilarItems :=
  let threshold := threshold.getD (JSNum.fin (7 / 10))
  let wrap : JSError → JSError := fun error =>
    { message := "Recommendation generation failed: " ++ error.message
      code := none, details := none }
  match getEmbeddings (some query) with
  | Except.error e => Except.error (wrap e)
  | Except.ok queryEmbedding =>
    match scoreItems getEmbeddings cosineSimilarity queryEmbedding threshold items with
    | Except.error e => Except.error (wrap e)
    | Except.ok similarities =>
      let recommendations :=
        jsSort (fun a b => b.similarity.sub a.similarity)
          (similarities.filter (fun item => item.relevant))
      Except.ok
        { query := query
          recommendations := recommendations
          total := recommendations.length
          threshold := threshold
          timestamp := timestamp }

/-! ## Objects used as maps, and the fleet report (lines 391-442) -/

/-- A property key of an ordinary object: an array index, that is the
canonical decimal numeral of a natural number below 2^32 - 1, or any other
string. -/
inductive PropertyKey where
  | index (n : Nat)
  | name (s : String)
deriving DecidableEq

/-- The value of a run of decimal digits, `none` when a character is not a
digit. -/
def parseDigits : List Char → Nat → Option Nat
  | [], acc => some acc
  | c :: cs, acc => if c.isDigit then parseDigits cs (acc * 10 + (c.toNat - 48)) else none

/-- The array index that the string denotes, if it is the canonical numeral
of a natural number below 2^32 - 1. -/
def arrayIndex? (s : String) : Option Nat :=
  match parseDigits s.data 0 with
  | some n => if n < 4294967295 ∧ toString n = s then some n else none
  | none => none

/-- The property key denoted by a string. -/
def PropertyKey.ofString (s : String) : PropertyKey :=
  match arrayIndex? s with
  | some n => PropertyKey.index n
  | none => PropertyKey.name s

/-- The number of an array index key (0 for the other keys). -/
def PropertyKey.indexValue : PropertyKey → Nat
  | PropertyKey.index n => n
  | PropertyKey.name _ => 0

/-- Whether the key is an array index. -/
def PropertyKey.isIndex : PropertyKey → Bool
  | PropertyKey.index _ => true
  | PropertyKey.name _ => false

/-- An object used as a map: its own properties, in order of creation. -/
abbrev JSObject (α : Type) : Type := List (PropertyKey × α)

/-- The own property `o[k]`, `none` when there is none. -/
def JSObject.get {α : Type} : JSObject α → PropertyKey → Option α
  | [], _ => none
  | (k1, v1) :: o, k => if k1 = k then some v1 else JSObject.get o k

/-- The assignment `o[k] = v`: an existing property keeps its place, a new one
is created after the existing ones. -/
def JSObject.set {α : Type} : JSObject α → PropertyKey → α → JSObject α
  | [], k, v => [(k, v)]
  | (k1, v1) :: o, k, v => if k1 = k then (k, v) :: o else (k1, v1) :: JSObject.set o k v

/-- `Object.entries(o)`: the array index keys in ascending numeric order, then
the other keys in order of creation. -/
def JSObject.entries {α : Type} (o : JSObject α) : List (PropertyKey × α) :=
  (List.filter (fun p => p.1.isIndex) o).insertionSort
      (fun p q => p.1.indexValue ≤ q.1.indexValue) ++
    List.filter (fun p => !p.1.isIndex) o

/-- `Object.values(o)`. -/
def JSObject.values {α : Type} (o : JSObject α) : List α :=
  (JSObject.entries o).map Prod.snd

/-- A value of `agentStats` (lines 396-401). -/
structure AgentStats where
  agent_id : String
  total_operations : Nat
  successful_operations : Nat
  total_processing_time : ℚ
deriving DecidableEq

/-- Lines 404-408: the three updates of the statistics of one agent. -/
def AgentStats.record (stat : AgentStats) (metric : Metric) : AgentStats :=
  { agent_id := stat.agent_id
    total_operations := stat.total_operations + 1
    successful_operations :=
      if metric.success then stat.successful_operations + 1 else stat.successful_operations
    total_processing_time := stat.total_processing_time + metric.processing_time }

/-- Lines 394-409: one turn of the `forEach` over the metrics. `inherited id`
tells whether `id` names a property that every object inherits with a truthy
value (a member of `Object.prototype`): for such an id the test
`!agentStats[id]` fails without an own property, and the updates land on the
inherited value. -/
def recordAgentMetric (inherited : String → Bool) (agentStats : JSObject AgentStats)
    (metric : Metric) : JSObject AgentStats :=
  let key := PropertyKey.ofString metric.agent_id
  let agentStats :=
    match JSObject.get agentStats key with
    | some _ => agentStats
    | none =>
      if inherited metric.agent_id then agentStats
      else JSObject.set agentStats key
        { agent_id := metric.agent_id
          total_operations := 0
          successful_operations := 0
          total_processing_time := 0 }
  match JSObject.get agentStats key with
  | some stat => JSObject.set agentStats key (stat.record metric)
  | none => agentStats

/-- An element of the array returned by `getTopPerformingAgents`. -/
structure TopAgent where
  agent_id : String
  total_operations : Nat
  successful_operations : Nat
  total_processing_time : ℚ
  success_rate : JSNum
  average_processing_time : JSNum
  agent_name : String
deriving DecidableEq

/-- The expression `agents.find(a => a.id === id)?.name || 'Unknown'`. -/
def agentNameOf (agents : List Agent) (id : String) : String :=
  match agents.find? (fun a => a.id == id) with
  | some a => if a.name = "" then "Unknown" else a.name
  | none => "Unknown"

/-- Lines 412-417: the `map` callback of `getTopPerformingAgents`. -/
def toTopAgent (agents : List Agent) (stat : AgentStats) : TopAgent :=
  { agent_id := stat.agent_id
    total_operations := stat.total_operations
    successful_operations := stat.successful_operations
    total_processing_time := stat.total_processing_time
    success_rate := JSNum.div stat.successful_operations stat.total_operations
    average_processing_time := JSNum.div stat.total_processing_time stat.total_operations
    agent_name := agentNameOf agents stat.agent_id }

/-- Lines 391-420: `getTopPerformingAgents(metrics, agents)`. -/
def getTopPerformingAgents (inherited : String → Bool) (metrics : List Metric)
    (agents : List Agent) : List TopAgent :=
  let agentStats : JSObject AgentStats := metrics.foldl (recordAgentMetric inherited) []
  ((jsSort (fun a b => b.success_rate.sub a.success_rate)
    ((JSObject.values agentStats).map (toTopAgent agents))).take 5)

/-- `new Date(t).getHours()`: the hour of the day of the instant `t` in local
time; `localOffset t` is the offset of local time from UTC at `t`, in
milliseconds. -/
def getHours (localOffset : Int → Int) (t : Int) : Nat :=
  (((t + localOffset t) / 3600000) % 24).toNat

/-- A value of `hourlyMetrics` (line 429). -/
structure HourStats where
  total : Nat
  successful : Nat
deriving DecidableEq

/-- Lines 431-434: the updates of the statistics of one hour. -/
def HourStats.record (stats : HourStats) (metric : Metric) : HourStats :=
  { total := stats.total + 1
    successful := if metric.success then stats.successful + 1 else stats.successful }

/-- Lines 426-435: one turn of the `forEach` over the metrics. The key of an
hour is its numeral, an array index. -/
def recordHourMetric (localOffset : Int → Int) (hourlyMetrics : JSObject HourStats)
    (metric : Metric) : JSObject HourStats :=
  let hour := getHours localOffset metric.created_at
  let hourlyMetrics :=
    match JSObject.get hourlyMetrics (PropertyKey.index hour) with
    | some _ => hourlyMetrics
    | none => JSObject.set hourlyMetrics (PropertyKey.index hour) { total := 0, successful := 0 }
  match JSObject.get hourlyMetrics (PropertyKey.index hour) with
  | some stats => JSObject.set hourlyMetrics (PropertyKey.index hour) (stats.record metric)
  | none => hourlyMetrics

/-- An element of the array returned by `calculatePerformanceTrends`. -/
structure Trend where
  hour : Nat
  success_rate : JSNum
  total_operations : Nat
deriving DecidableEq

/-- Lines 422-442: `calculatePerformanceTrends(metrics)`; `parseInt` of the
numeral of an hour is the hour. -/
def calculatePerformanceTrends (localOffset : Int → Int) (metrics : List Metric) :
    List Trend :=
  let hourlyMetrics : JSObject HourStats := metrics.foldl (recordHourMetric localOffset) []
  (JSObject.entries hourlyMetrics).map (fun entry =>
    { hour := entry.1.indexValue
      success_rate := JSNum.div entry.2.successful entry.2.total
      total_operations := entry.2.total })

/-- The update of a map that both `forEach` bodies perform: create the value
of a new key from `init`, then apply `step` to the value of the key. -/
def JSObject.upsert {α : Type} (o : JSObject α) (k : PropertyKey) (init : α) (step : α → α) :
    JSObject α :=
  match JSObject.get o k with
  | some v => JSObject.set o k (step v)
  | none => JSObject.set o k (step init)

/-- What the fold of a `forEach` body that groups the elements of `ms` by
`key` has built in `o`: one property per key of an element that is not
skipped, in order of first occurrence, holding the fold of `step` over the
elements of that key. -/
def Grouped {M α : Type} (key : M → PropertyKey) (skip : M → Bool) (init : M → α)
    (step : α → M → α) (ms : List M) (o : JSObject α) : Prop :=
  (o.map Prod.fst).Nodup ∧
    (∀ k v, (k, v) ∈ o → ∃ m0 rest,
      ms.filter (fun m => decide (key m = k)) = m0 :: rest ∧ skip m0 = false ∧
        v = (m0 :: rest).foldl step (init m0)) ∧
    (∀ m ∈ ms, skip m = false → key m ∈ o.map Prod.fst) ∧
    (o.map Prod.fst).Pairwise
      (fun a b => (ms.map key).indexOf a < (ms.map key).indexOf b)

/-! ## The endpoint of the monitor (lines 15-59, 337-376, 444-496) -/

/-- JavaScript `s.includes(sub)`. -/
def includes (s sub : String) : Bool := decide (sub.data <:+: s.data)

/-- The `report` object of `getMonitoringReport` (lines 354-362). -/
structure MonitoringReport where
  tenant_id : String
  agents_count : Nat
  active_agents : Nat
  system_health : SystemHealth
  top_performing_agents : List TopAgent
  performance_trends : List Trend
  generated_at : Int
deriving DecidableEq

/-- A response of the endpoint: an empty response, an error body, or the data
of one of the routes. -/
inductive MonitorResponse where
  | ended (status : Nat)
  | error (status : Nat) (error : String) (details : Option FormattedError)
  | report (data : MonitoringReport)
  | agentStatus (data : MonitoringResult)
  | health (status : Nat) (error : Option String)
  | monitoring (response : Response)
deriving DecidableEq

/-- The HTTP status of a response; `res.json` without `res.status` answers 200. -/
def MonitorResponse.status : MonitorResponse → Nat
  | MonitorResponse.ended status => status
  | MonitorResponse.error status _ _ => status
  | MonitorResponse.report _ => 200
  | MonitorResponse.agentStatus _ => 200
  | MonitorResponse.health status _ => status
  | MonitorResponse.monitoring response => response.status

/-- The request, as far as the endpoint reads it. -/
structure MonitorRequest where
  method : String
  url : String
  authorization : Option String
  query_tenantId : Option String
  query_agentId : Option String
  body_agent_id : Option String
  body_monitoring_type : Option String

/-- The stores, the identity provider and the environment of one request.

`getAgents t` and `getMetrics t from` are the reads of `getMonitoringReport`
with the filter `tenant_id: t`; `healthReads` is the outcome of the two reads
of `healthCheck`; `statusReads id` is the outcome of the reads of
`performComprehensiveMonitoring('default', id)`. `verifyToken` takes the value
of the Authorization header and gives the id of the user, `getUserTenant` the
tenant of a user (`none` when the row has none). The remaining fields are the
inputs of `performMonitoring` that do not come from the request, the clock,
and the two parameters of the report functions. -/
structure MonitorEnv where
  getAgents : String → Except JSError (List Agent)
  getMetrics : String → Int → Except JSError (List Metric)
  healthReads : Except JSError Unit
  statusReads : String → Except JSError StoreReads
  verifyToken : String → Except JSError String
  getUserTenant : String → Except JSError (Option String)
  monitoringRun : MonitoringRun
  now : Int
  errorTimestamp : Int
  inherited : String → Bool
  localOffset : Int → Int

/-- Lines 337-376: `getMonitoringReport(req, res)`. -/
def getMonitoringReport (env : MonitorEnv) (req : MonitorRequest) : MonitorResponse :=
  let failed : JSError → MonitorResponse := fun error =>
    MonitorResponse.error 500 "Failed to generate monitoring report"
      (some (formatError error env.errorTimestamp))
  match req.query_tenantId with
  | none => MonitorResponse.error 400 "tenantId parameter is required" none
  | some tenantId =>
    if tenantId = "" then MonitorResponse.error 400 "tenantId parameter is required" none
    else
      match env.getAgents tenantId with
      | Except.error e => failed e
      | Except.ok agents =>
        match env.getMetrics tenantId (env.now - 24 * 60 * 60 * 1000) with
        | Except.error e => failed e
        | Except.ok systemMetrics =>
          MonitorResponse.report
            { tenant_id := tenantId
              agents_count := agents.length
              active_agents := (agents.filter (fun a => a.status == "active")).length
              system_health := calculateSystemHealth systemMetrics
              top_performing_agents :=
                getTopPerformingAgents env.inherited systemMetrics agents
              performance_trends := calculatePerformanceTrends env.localOffset systemMetrics
              generated_at := env.now }

/-- Lines 444-471: `healthCheck(req, res)`. -/
def healthCheck (env : MonitorEnv) : MonitorResponse :=
  match env.healthReads with
  | Except.ok _ => MonitorResponse.health 200 none
  | Except.error e => MonitorResponse.health 503 (some e.message)

/-- Lines 473-496: `getAgentStatus(req, res)`. -/
def getAgentStatus (env : MonitorEnv) (req : MonitorRequest) : MonitorResponse :=
  match req.query_agentId with
  | none => MonitorResponse.error 400 "agentId parameter is required" none
  | some agentId =>
    if agentId = "" then MonitorResponse.error 400 "agentId parameter is required" none
    else
      match env.statusReads agentId with
      | Except.error e =>
        MonitorResponse.error 500 "Failed to get agent status"
          (some (formatError e env.errorTimestamp))
      | Except.ok r =>
        MonitorResponse.agentStatus
          (performComprehensiveMonitoring r.agent r.recentTasks r.recentMetrics r.recentLogs
            env.now)

/-- Lines 88-118 of auth.js, as called at lines 34-46: `authenticate` followed
by `enforceTenantIsolation`. The result is the response that ends the request,
or the tenant put into `req.tenantId`. -/
def authenticateAndIsolate (env : MonitorEnv) (req : MonitorRequest) :
    Except MonitorResponse String :=
  match req.authorization with
  | none => Except.error (MonitorResponse.error 401 "Authorization header required" none)
  | some authHeader =>
    if authHeader = "" then
      Except.error (MonitorResponse.error 401 "Authorization header required" none)
    else
      match env.verifyToken authHeader with
      | Except.error e => Except.error (MonitorResponse.error 401 e.message none)
      | Except.ok userId =>
        match env.getUserTenant userId with
        | Except.error e => Except.error (MonitorResponse.error 401 e.message none)
        | Except.ok none =>
          Except.error (MonitorResponse.error 403 "Tenant context required" none)
        | Except.ok (some tenantId) =>
          if tenantId = "" then
            Except.error (MonitorResponse.error 403 "Tenant context required" none)
          else Except.ok tenantId

/-- Lines 15-59: the `handler` of the endpoint. -/
def handler (env : MonitorEnv) (req : MonitorRequest) : MonitorResponse :=
  if req.method = "OPTIONS" then MonitorResponse.ended 200
  else if req.method = "GET" then
    if includes req.url "/health" then healthCheck env
    else if includes req.url "/report" then getMonitoringReport env req
    else getAgentStatus env req
  else if req.method = "POST" then
    match authenticateAndIsolate env req with
    | Except.error response => response
    | Except.ok tenantId =>
      MonitorResponse.monitoring
        (performMonitoring
          { env.monitoringRun with
            tenantId := tenantId
            agent_id := req.body_agent_id
            monitoring_type := req.body_monitoring_type }).1
  else MonitorResponse.error 405 "Method not allowed" none

/-! ## The task handlers of the other agents (sentiment-agent.js,
recommendation-agent.js) -/

/-- One write of a task handler on the stores: the kind of row, its owner and
the fields that tell a success from a failure. -/
inductive HandlerWrite where
  | createTask (tenant_id agent_id status : String)
  | updateTask (id status : String) (error_message : Option String)
  | recordMetrics (tenant_id agent_id metric_name : String) (metric_value : Int)
      (success : Bool) (metadata_error : Option String)
  | insertLog (tenant_id agent_id level : String)
deriving DecidableEq

/-- The state of a run of a task handler: the writes performed so far and the
number of store write calls made so far. -/
structure HandlerState where
  writes : List HandlerWrite
  calls : Nat
deriving DecidableEq

/-- The response of a task handler: the status, and the `error` string and
`details.message` of an error body. -/
structure HandlerResponse where
  status : Nat
  error : Option String
  details_message : Option String
deriving DecidableEq

/-- A piece of a task handler: it returns or throws, and the writes performed
before a throw stay performed. -/
def Effect (α : Type) : Type := HandlerState → Except JSError α × HandlerState

/-- Normal return of a value. -/
def Effect.pure {α : Type} (a : α) : Effect α := fun s => (Except.ok a, s)

/-- Sequencing: a throw in the first piece skips the second. -/
def Effect.bind {α β : Type} (m : Effect α) (f : α → Effect β) : Effect β := fun s =>
  match m s with
  | (Except.ok a, s1) => f a s1
  | (Except.error e, s1) => (Except.error e, s1)

/-- JavaScript `throw e`. -/
def Effect.throw {α : Type} (e : JSError) : Effect α := fun s => (Except.error e, s)

/-- JavaScript `try { body } catch (e) { handler(e) }`. -/
def Effect.tryCatch {α : Type} (body : Effect α) (handler : JSError → Effect α) : Effect α :=
  fun s =>
    match body s with
    | (Except.ok a, s1) => (Except.ok a, s1)
    | (Except.error e, s1) => handler e s1

/-- An awaited call of an external service. -/
def Effect.await {α : Type} (outcome : Except JSError α) : Effect α :=
  match outcome with
  | Except.ok a => Effect.pure a
  | Except.error e => Effect.throw e

instance : Monad Effect where
  pure := Effect.pure
  bind := Effect.bind

/-- One awaited store write of a task handler. -/
def handlerWrite (writeOutcome : Nat → Option JSError) (w : HandlerWrite) : Effect Unit :=
  fun s =>
    match writeOutcome s.calls with
    | none => (Except.ok (), { writes := s.writes ++ [w], calls := s.calls + 1 })
    | some e => (Except.error e, { writes := s.writes, calls := s.calls + 1 })

/-- An error created by `new Error(message)` or by the runtime. -/
def newError (message : String) : JSError :=
  { message := message, code := none, details := none }

/-- The field `input_data` of the body of a sentiment request: `text`, and
`texts` when it is an array. -/
structure SentimentInput where
  text : Option String
  texts : Option (List String)
deriving DecidableEq

/-- What the analyzer returned: the object of `analyzeSentiment`, or the
object of `analyzeBatch` with the length of its `results`. -/
inductive SentimentResult where
  | single
  | batch (results_length : Nat)
deriving DecidableEq

/-- The inputs of one run of `processSentimentTask`: the request, the id of
the created task, the outcome of every store write call and the analyzer. -/
structure SentimentRun where
  tenantId : String
  agent_id : Option String
  input_data : Option SentimentInput
  batch_mode : Bool
  taskId : String
  writeOutcome : Nat → Option JSError
  analyzeSentiment : String → Except JSError Unit
  analyzeBatch : List String → Except JSError Nat

/-- Lines 65-167 of sentiment-agent.js: the body of the outer `try` of
`processSentimentTask`. -/
def processSentimentTaskBody (run : SentimentRun) : Effect HandlerResponse :=
  let invalid : HandlerResponse :=
    { status := 400, error := some "agent_id and input_data are required"
      details_message := none }
  match run.agent_id, run.input_data with
  | some agent_id, some input_data =>
    if agent_id = "" then Effect.pure invalid
    else do
      handlerWrite run.writeOutcome (HandlerWrite.createTask run.tenantId agent_id "processing")
      Effect.tryCatch
        (do
          let result ←
            match run.batch_mode, input_data.texts with
            | true, some texts => do
              let n ← Effect.await (run.analyzeBatch texts)
              Effect.pure (SentimentResult.batch n)
            | _, _ =>
              match input_data.text with
              | some text =>
                if text = "" then Effect.throw (newError "Invalid input data format")
                else do
                  Effect.await (run.analyzeSentiment text)
                  Effect.pure SentimentResult.single
              | none => Effect.throw (newError "Invalid input data format")
          handlerWrite run.writeOutcome (HandlerWrite.updateTask run.taskId "completed" none)
          let metric_value : Int ←
            match run.batch_mode, result with
            | true, SentimentResult.batch n => Effect.pure (n : Int)
            | true, SentimentResult.single =>
              Effect.throw
                (newError "Cannot read properties of undefined (reading 'length')")
            | false, _ => Effect.pure 1
          handlerWrite run.writeOutcome
            (HandlerWrite.recordMetrics run.tenantId agent_id "sentiment_analysis"
              metric_value true none)
          handlerWrite run.writeOutcome (HandlerWrite.insertLog run.tenantId agent_id "info")
          Effect.pure { status := 200, error := none, details_message := none })
        (fun processingError => do
          handlerWrite run.writeOutcome
            (HandlerWrite.updateTask run.taskId "failed" (some processingError.message))
          handlerWrite run.writeOutcome
            (HandlerWrite.recordMetrics run.tenantId agent_id "sentiment_analysis_error" 0
              false (some processingError.message))
          handlerWrite run.writeOutcome (HandlerWrite.insertLog run.tenantId agent_id "error")
          Effect.throw processingError)
  | _, _ => Effect.pure invalid

/-- Lines 64-176 of sentiment-agent.js: `processSentimentTask(req, res)`. -/
def processSentimentTask (run : SentimentRun) : HandlerResponse × HandlerState :=
  match processSentimentTaskBody run { writes := [], calls := 0 } with
  | (Except.ok response, s) => (response, s)
  | (Except.error error, s) =>
    ({ status := 500, error := some "Failed to process sentiment analysis"
       details_message := some error.message }, s)

/-- The field `input_data` of the body of a recommendation request. -/
structure RecommendationInput where
  query : Option String
  items : Option (List Item)
  threshold : Option JSNum
deriving DecidableEq

/-- The inputs of one run of `processRecommendationTask`: the request, the id
of the created task, the outcome of every store write call, the embedding
service and the clock. -/
structure RecommendationRun (E : Type) where
  tenantId : String
  agent_id : Option String
  input_data : Option RecommendationInput
  taskId : String
  writeOutcome : Nat → Option JSError
  getEmbeddings : Option String → Except JSError E
  cosineSimilarity : E → E → JSNum
  timestamp : Int

/-- Lines 63-185 of recommendation-agent.js: the body of the outer `try` of
`processRecommendationTask`. The result of `enhanceRecommendations`, which
adds fields to the recommendations, is not kept. -/
def processRecommendationTaskBody {E : Type} (run : RecommendationRun E) :
    Effect HandlerResponse :=
  match run.agent_id, run.input_data with
  | some agent_id, some input_data =>
    if agent_id = "" then
      Effect.pure { status := 400, error := some "agent_id and input_data are required"
                    details_message := none }
    else
      match input_data.query, input_data.items with
      | some query, some items =>
        if query = "" then
          Effect.pure { status := 400
                        error := some "query and items are required in input_data"
                        details_message := none }
        else do
          handlerWrite run.writeOutcome
            (HandlerWrite.createTask run.tenantId agent_id "processing")
          Effect.tryCatch
            (do
              let similarItems ← Effect.await
                (findSimilarItems run.getEmbeddings run.cosineSimilarity query items
                  input_data.threshold run.timestamp)
              let result := similarItems
              handlerWrite run.writeOutcome
                (HandlerWrite.updateTask run.taskId "completed" none)
              handlerWrite run.writeOutcome
                (HandlerWrite.recordMetrics run.tenantId agent_id "recommendation_generation"
                  (result.recommendations.length : Int) true none)
              handlerWrite run.writeOutcome
                (HandlerWrite.insertLog run.tenantId agent_id "info")
              Effect.pure { status := 200, error := none, details_message := none })
            (fun processingError => do
              handlerWrite run.writeOutcome
                (HandlerWrite.updateTask run.taskId "failed" (some processingError.message))
              handlerWrite run.writeOutcome
                (HandlerWrite.recordMetrics run.tenantId agent_id
                  "recommendation_generation_error" 0 false (some processingError.message))
              handlerWrite run.writeOutcome
                (HandlerWrite.insertLog run.tenantId agent_id "error")
              Effect.throw processingError)
      | _, _ =>
        Effect.pure { status := 400
                      error := some "query and items are required in input_data"
                      details_message := none }
  | _, _ =>
    Effect.pure { status := 400, error := some "agent_id and input_data are required"
                  details_message := none }

/-- Lines 62-194 of recommendation-agent.js: `processRecommendationTask(req, res)`. -/
def processRecommendationTask {E : Type} (run : RecommendationRun E) :
    HandlerResponse × HandlerState :=
  match processRecommendationTaskBody run { writes := [], calls := 0 } with
  | (Except.ok response, s) => (response, s)
  | (Except.error error, s) =>
    ({ status := 500, error := some "Failed to process recommendation generation"
       details_message := some error.message }, s)

/-! ## Sample store contents -/

/-- A sample agent row. -/
def sampleAgent : Agent :=
  { id := "a1", name := "monitor", type := "performance", status := "active", version := "1.0.0" }

/-- A sample task with the given status and creation time. -/
def sampleTask (status : String) (created_at : Int) : Task :=
  { id := "t", tenant_id := "tenant", agent_id := "a1", status := status
    created_at := created_at }

/-- A sample metric with the given processing time. -/
def sampleMetric (processing_time : ℚ) : Metric :=
  { tenant_id := "tenant", agent_id := "a1", processing_time := processing_time
    success := true, created_at := 172800000 }

/-- A sample log entry with the given level. -/
def sampleLog (level : String) : LogEntry :=
  { tenant_id := "tenant", agent_id := "a1", level := level, message := "m" }

/-- Two days after the epoch, in milliseconds: the evaluation time of the samples. -/
def sampleNow : Int := 172800000

/-- Four old tasks, one of them failed: error rate 0.25, nothing in the last 24h. -/
def tasksAllBad : List Task :=
  [sampleTask "failed" 0, sampleTask "completed" 0, sampleTask "completed" 0,
    sampleTask "completed" 0]

/-- Six error-level log entries. -/
def logsSixErrors : List LogEntry := List.replicate 6 (sampleLog "error")

/-- Twenty tasks, one of them failed, five of them in the last 24h: error rate 0.05. -/
def tasksAllGood : List Task :=
  sampleTask "failed" 0 :: (List.replicate 14 (sampleTask "completed" 0) ++
    List.replicate 5 (sampleTask "completed" 172000000))

/-- The report for error_rate 0.25, average 12000 ms, no recent task, six error logs. -/
def reportAllBad : MonitoringResult :=
  performComprehensiveMonitoring sampleAgent tasksAllBad [sampleMetric 12000] logsSixErrors
    sampleNow

/-- The report for error_rate 0.05, average 2000 ms, five recent tasks, no error log. -/
def reportAllGood : MonitoringResult :=
  performComprehensiveMonitoring sampleAgent tasksAllGood [sampleMetric 2000] [] sampleNow

/-- The report of an agent without any task, metric or log. -/
def reportIdle : MonitoringResult :=
  performComprehensiveMonitoring sampleAgent [] [] [] sampleNow

/-- The report of an agent without tasks but with one metric of 100 ms. -/
def reportMetricOnly : MonitoringResult :=
  performComprehensiveMonitoring sampleAgent [] [sampleMetric 100] [] sampleNow

/-- A sample error thrown by a store call. -/
def sampleError : JSError :=
  { message := "connection lost", code := some "08006", details := none }

/-- Sample reads: the task of the run itself and one metric of 12000 ms. -/
def sampleReads : StoreReads :=
  { agent := sampleAgent
    recentTasks := [sampleTask "processing" 172000000]
    recentMetrics := [sampleMetric 12000]
    recentLogs := [] }

/-- A run in which the work returns and every store write succeeds. -/
def runSuccess : MonitoringRun :=
  { tenantId := "tenant"
    agent_id := some "a1"
    monitoring_type := none
    taskId := "task-1"
    writeOutcome := fun _ => none
    reads := Except.ok sampleReads
    started_at := 172800000
    startTime := 172800001
    monitoringNow := 172800002
    workDone := 172800051
    completed_at := 172800052
    failed_at := 172800053
    failedMetricNow := 172800054
    errorTimestamp := 172800055 }

/-- A run in which a read of the work throws and every store write succeeds. -/
def runWorkThrows : MonitoringRun :=
  { runSuccess with reads := Except.error sampleError }

/-- A run in which the work returns and the metric write (the third store
write call) throws. -/
def runMetricWriteFails : MonitoringRun :=
  { runSuccess with writeOutcome := fun k => if k = 2 then some sampleError else none }

/-- The alert pushed for inactivity (lines 277-283). -/
def inactivityAlert : Alert :=
  { type := "inactivity"
    severity := "low"
    message := [MessagePart.text "No tasks processed in the last 24 hours"]
    threshold := 1
    current_value := JSNum.fin 0 }

/-- Twenty recent tasks, three of them failed: error rate 0.15. -/
def tasksSomeFailures : List Task :=
  List.replicate 3 (sampleTask "failed" 172000000) ++
    List.replicate 17 (sampleTask "completed" 172000000)

/-- The report for error_rate 0.15, average 2000 ms, twenty recent tasks, no error log. -/
def reportSomeFailures : MonitoringResult :=
  performComprehensiveMonitoring sampleAgent tasksSomeFailures [sampleMetric 2000] [] sampleNow

/-- A sample embedding service: the embedding of a text is the text. -/
def sampleEmbeddings : Option String → Except JSError (Option String) :=
  fun text => Except.ok text

/-- A sample similarity: 0.7 for the text `near`, 0.9 for the text `same`,
0.5 for every other text. -/
def sampleSimilarity : Option String → Option String → JSNum :=
  fun _ b =>
    if b = some "near" then JSNum.fin (7 / 10)
    else if b = some "same" then JSNum.fin (9 / 10)
    else JSNum.fin (5 / 10)

/-- Three sample items, of similarity 0.5, 0.7 and 0.9 under `sampleSimilarity`. -/
def sampleItems : List Item :=
  [{ id := "i1", text := some "far", content := none },
   { id := "i2", text := some "near", content := none },
   { id := "i3", text := none, content := some "same" }]

/-- What the sample call of `findSimilarItems` with threshold 0.7 returns. -/
def sampleSimilarItems : SimilarItems :=
  { query := "q"
    recommendations :=
      [{ item := { id := "i3", text := none, content := some "same" }
         similarity := JSNum.fin (9 / 10), relevant := true },
       { item := { id := "i2", text := some "near", content := none }
         similarity := JSNum.fin (7 / 10), relevant := true }]
    total := 2
    threshold := JSNum.fin (7 / 10)
    timestamp := 0 }

/-- A sample metric of the given agent, outcome and creation time. -/
def fleetMetric (agent_id : String) (success : Bool) (created_at : Int) : Metric :=
  { tenant_id := "tenant", agent_id := agent_id, processing_time := 100, success := success
    created_at := created_at }

/-- A sample agent row with the given id and name. -/
def fleetAgent (id name : String) : Agent :=
  { id := id, name := name, type := "sentiment", status := "active", version := "1.0.0" }

/-- A sample environment: the store holds one agent and one metric of the
tenant `tenant-b`, and the identity provider knows one token, of a user of the
tenant `tenant-a`. -/
def sampleEnv : MonitorEnv :=
  { getAgents := fun t => Except.ok (if t = "tenant-b" then [fleetAgent "b1" "Beta"] else [])
    getMetrics := fun t _ =>
      Except.ok (if t = "tenant-b" then [fleetMetric "b1" true 90000005] else [])
    healthReads := Except.ok ()
    statusReads := fun _ => Except.ok sampleReads
    verifyToken := fun h =>
      if h = "Bearer token-a" then Except.ok "user-a"
      else Except.error { message := "Token verification failed", code := none
                          details := none }
    getUserTenant := fun _ => Except.ok (some "tenant-a")
    monitoringRun := runSuccess
    now := 172800000
    errorTimestamp := 172800055
    inherited := fun _ => false
    localOffset := fun _ => 0 }

/-- A GET request for the report of `tenant-b` that carries no credential. -/
def reportRequestWithoutCredential : MonitorRequest :=
  { method := "GET"
    url := "/report"
    authorization := none
    query_tenantId := some "tenant-b"
    query_agentId := none
    body_agent_id := none
    body_monitoring_type := none }

/-- A GET request for the report of `tenant-b` with the credential of a user
of `tenant-a`. -/
def reportRequestOtherTenant : MonitorRequest :=
  { reportRequestWithoutCredential with authorization := some "Bearer token-a" }

/-- A POST request that carries no credential. -/
def postRequestWithoutCredential : MonitorRequest :=
  { method := "POST"
    url := "/"
    authorization := none
    query_tenantId := none
    query_agentId := none
    body_agent_id := some "a1"
    body_monitoring_type := none }

/-- A sentiment request with agent_id and input_data present, where
input_data has neither `text` nor `texts`; every store write succeeds. -/
def runMalformedSentiment : SentimentRun :=
  { tenantId := "tenant"
    agent_id := some "a1"
    input_data := some { text := none, texts := none }
    batch_mode := false
    taskId := "task-1"
    writeOutcome := fun _ => none
    analyzeSentiment := fun _ => Except.ok ()
    analyzeBatch := fun texts => Except.ok texts.length }

/-- A monitoring request whose body has no agent_id. -/
def runMonitoringWithoutAgent : MonitoringRun :=
  { runSuccess with agent_id := none }

/-- A sentiment request whose body has an agent_id and no input_data. -/
def runSentimentWithoutInput : SentimentRun :=
  { runMalformedSentiment with input_data := none }

/-- A recommendation request whose input_data has a query and no items. -/
def runRecommendationWithoutItems : RecommendationRun (Option String) :=
  { tenantId := "tenant"
    agent_id := some "a1"
    input_data := some { query := some "q", items := none, threshold := none }
    taskId := "task-1"
    writeOutcome := fun _ => none
    getEmbeddings := sampleEmbeddings
    cosineSimilarity := sampleSimilarity
    timestamp := 172800000 }


/-! ## Auxiliary facts -/

/-- The returned report is assembled from the four pieces of the code. -/
theorem performComprehensiveMonitoring_eq (agent : Agent) (recentTasks : List Task)
    (recentMetrics : List Metric) (recentLogs : List LogEntry) (now : Int) :
    performComprehensiveMonitoring agent recentTasks recentMetrics recentLogs now =
      { agent_info :=
          { id := agent.id, name := agent.name, type := agent.type
            status := agent.status, version := agent.version }
        performance_metrics :=
          performanceOf recentTasks recentMetrics recentLogs (now - 24 * 60 * 60 * 1000)
            (now - 7 * 24 * 60 * 60 * 1000)
        overall_health_score :=
          max 0 (healthScoreOf (performanceOf recentTasks recentMetrics recentLogs
            (now - 24 * 60 * 60 * 1000) (now - 7 * 24 * 60 * 60 * 1000)))
        health_status :=
          if healthScoreOf (performanceOf recentTasks recentMetrics recentLogs
              (now - 24 * 60 * 60 * 1000) (now - 7 * 24 * 60 * 60 * 1000)) ≥ 80 then "healthy"
          else if healthScoreOf (performanceOf recentTasks recentMetrics recentLogs
              (now - 24 * 60 * 60 * 1000) (now - 7 * 24 * 60 * 60 * 1000)) ≥ 60 then "warning"
          else "critical"
        alerts :=
          alertsOf (performanceOf recentTasks recentMetrics recentLogs
            (now - 24 * 60 * 60 * 1000) (now - 7 * 24 * 60 * 60 * 1000))
        recommendations :=
          generateRecommendations
            (performanceOf recentTasks recentMetrics recentLogs
              (now - 24 * 60 * 60 * 1000) (now - 7 * 24 * 60 * 60 * 1000))
            (healthScoreOf (performanceOf recentTasks recentMetrics recentLogs
              (now - 24 * 60 * 60 * 1000) (now - 7 * 24 * 60 * 60 * 1000)))
        monitoring_timestamp := now } := rfl

/-- The running score is 100 minus the deductions that apply. -/
theorem healthScoreOf_eq (p : Performance) :
    healthScoreOf p =
      100 - ((if p.error_rate.gt (JSNum.fin (1 / 10)) then 20 else 0)
        + (if p.error_rate.gt (JSNum.fin (2 / 10)) then 30 else 0)
        + (if p.average_processing_time.gt (JSNum.fin 5000) then 15 else 0)
        + (if p.average_processing_time.gt (JSNum.fin 10000) then 25 else 0)
        + (if p.tasks_last_24h = 0 then 10 else 0)
        + (if p.error_logs > 5 then 15 else 0)) := by
  unfold healthScoreOf
  split_ifs <;> norm_num

/-- The running score never exceeds 100 and never falls below -15. -/
theorem healthScoreOf_bounds (p : Performance) :
    -15 ≤ healthScoreOf p ∧ healthScoreOf p ≤ 100 := by
  rw [healthScoreOf_eq]
  split_ifs <;> norm_num

/-- Comparison of two finite numbers with `>`. -/
theorem JSNum.gt_fin_fin (a b : ℚ) : (JSNum.fin a).gt (JSNum.fin b) = decide (b < a) := rfl

/-- Comparison of two finite numbers with `<=`. -/
theorem JSNum.le_fin_fin (a b : ℚ) : (JSNum.fin a).le (JSNum.fin b) = decide (a ≤ b) := rfl

/-- A guarded quotient `n > 0 ? k / n : 0` is a finite number. -/
theorem guarded_ratio_fin (k n : Nat) :
    (if n > 0 then JSNum.div (k : ℚ) (n : ℚ) else JSNum.fin 0) =
      JSNum.fin (if n > 0 then (k : ℚ) / (n : ℚ) else 0) := by
  by_cases h : n > 0
  · have hn : (n : ℚ) ≠ 0 := by exact_mod_cast (Nat.pos_iff_ne_zero.mp h)
    simp [h, JSNum.div, hn]
  · simp [h]

/-- The `error_rate` of a computed snapshot is a finite number. -/
theorem performanceOf_error_rate_fin (recentTasks : List Task) (recentMetrics : List Metric)
    (recentLogs : List LogEntry) (last24Hours last7Days : Int) :
    ∃ q, (performanceOf recentTasks recentMetrics recentLogs last24Hours
      last7Days).error_rate = JSNum.fin q :=
  ⟨_, guarded_ratio_fin _ _⟩

/-- The `success_rate` of a computed snapshot is a finite number. -/
theorem performanceOf_success_rate_fin (recentTasks : List Task) (recentMetrics : List Metric)
    (recentLogs : List LogEntry) (last24Hours last7Days : Int) :
    ∃ q, (performanceOf recentTasks recentMetrics recentLogs last24Hours
      last7Days).success_rate = JSNum.fin q :=
  ⟨_, guarded_ratio_fin _ _⟩

/-- The expression `sum / length || 0` over a list of metrics is the plain
mean, and 0 for the empty list. -/
theorem mean_or_zero_eq (recentMetrics : List Metric) :
    JSNum.orElse
        (JSNum.div (recentMetrics.foldl (fun acc m => acc + m.processing_time) 0)
          recentMetrics.length)
        (JSNum.fin 0) =
      JSNum.fin (if recentMetrics = [] then 0
        else recentMetrics.foldl (fun acc m => acc + m.processing_time) 0 /
          recentMetrics.length) := by
  cases recentMetrics with
  | nil => simp [JSNum.div, JSNum.orElse, JSNum.truthy]
  | cons m ms =>
    have hn : (((m :: ms).length : Nat) : ℚ) ≠ 0 := by
      simp only [List.length_cons]; positivity
    rw [if_neg (List.cons_ne_nil m ms)]
    unfold JSNum.div JSNum.orElse
    rw [if_pos hn]
    generalize List.foldl (fun acc m => acc + m.processing_time) 0 (m :: ms) /
      (((m :: ms).length : Nat) : ℚ) = q
    by_cases h0 : q = 0 <;> simp [JSNum.truthy, h0]

/-- The `average_processing_time` of a computed snapshot is a finite number. -/
theorem performanceOf_average_processing_time_fin (recentTasks : List Task)
    (recentMetrics : List Metric) (recentLogs : List LogEntry) (last24Hours last7Days : Int) :
    ∃ q, (performanceOf recentTasks recentMetrics recentLogs last24Hours
      last7Days).average_processing_time = JSNum.fin q :=
  ⟨_, mean_or_zero_eq recentMetrics⟩

/-- The alerts, as the concatenation of the three optional entries. -/
theorem alertsOf_eq (p : Performance) :
    alertsOf p =
      (if p.error_rate.gt (JSNum.fin (2 / 10)) then
        [{ type := "error_rate", severity := "high"
           message := [MessagePart.text "High error rate detected: ",
             MessagePart.toFixed1 (p.error_rate.mulConst 100), MessagePart.text "%"]
           threshold := 20, current_value := p.error_rate.mulConst 100 }] else []) ++
      (if p.average_processing_time.gt (JSNum.fin 10000) then
        [{ type := "processing_time", severity := "medium"
           message := [MessagePart.text "Slow processing time: ",
             MessagePart.number p.average_processing_time, MessagePart.text "ms"]
           threshold := 10000, current_value := p.average_processing_time }] else []) ++
      (if p.tasks_last_24h = 0 then
        [{ type := "inactivity", severity := "low"
           message := [MessagePart.text "No tasks processed in the last 24 hours"]
           threshold := 1, current_value := JSNum.fin 0 }] else []) := by
  unfold alertsOf
  split_ifs <;> rfl

/-- The comparison `> c` with a finite constant is monotone along `<=`. -/
theorem JSNum.gt_of_le_of_gt (x y : JSNum) (c : ℚ) (hxy : x.le y = true)
    (hx : x.gt (JSNum.fin c) = true) : y.gt (JSNum.fin c) = true := by
  cases x <;> cases y <;> simp_all [JSNum.le, JSNum.gt, JSNum.lt]
  exact lt_of_lt_of_le hx hxy

/-- A number that is `<= c` is not `> d` for any finite `d` at or above `c`. -/
theorem JSNum.not_gt_of_le (x : JSNum) (c d : ℚ) (hcd : c ≤ d)
    (hx : x.le (JSNum.fin c) = true) : x.gt (JSNum.fin d) = false := by
  cases x <;> simp_all [JSNum.le, JSNum.gt, JSNum.lt]
  exact le_trans hx hcd

/-- A number that is `> d` is `> c` for any finite `c` at or below `d`. -/
theorem JSNum.gt_of_gt_of_le (x : JSNum) (c d : ℚ) (hcd : c ≤ d)
    (hx : x.gt (JSNum.fin d) = true) : x.gt (JSNum.fin c) = true := by
  cases x <;> simp_all [JSNum.gt, JSNum.lt]
  exact lt_of_le_of_lt hcd hx

/-- A deduction guarded by a weaker condition is at most the one guarded by
a stronger condition. -/
theorem deduction_mono (a b : Bool) (k : Int) (hk : 0 ≤ k) (h : a = true → b = true) :
    (if a then k else 0) ≤ (if b then k else 0) := by
  cases a <;> cases b <;> simp_all

/-- The running score does not increase when error rate, average processing
time and error logs grow and the 24h activity is unchanged. -/
theorem healthScoreOf_antitone (p q : Performance)
    (ht : p.tasks_last_24h = q.tasks_last_24h)
    (he : p.error_rate.le q.error_rate = true)
    (ha : p.average_processing_time.le q.average_processing_time = true)
    (hl : p.error_logs ≤ q.error_logs) :
    healthScoreOf q ≤ healthScoreOf p := by
  rw [healthScoreOf_eq, healthScoreOf_eq, ht]
  have h1 := deduction_mono (p.error_rate.gt (JSNum.fin (1 / 10)))
    (q.error_rate.gt (JSNum.fin (1 / 10))) 20 (by norm_num)
    (JSNum.gt_of_le_of_gt _ _ _ he)
  have h2 := deduction_mono (p.error_rate.gt (JSNum.fin (2 / 10)))
    (q.error_rate.gt (JSNum.fin (2 / 10))) 30 (by norm_num)
    (JSNum.gt_of_le_of_gt _ _ _ he)
  have h3 := deduction_mono (p.average_processing_time.gt (JSNum.fin 5000))
    (q.average_processing_time.gt (JSNum.fin 5000)) 15 (by norm_num)
    (JSNum.gt_of_le_of_gt _ _ _ ha)
  have h4 := deduction_mono (p.average_processing_time.gt (JSNum.fin 10000))
    (q.average_processing_time.gt (JSNum.fin 10000)) 25 (by norm_num)
    (JSNum.gt_of_le_of_gt _ _ _ ha)
  have h5 := deduction_mono (decide (p.error_logs > 5)) (decide (q.error_logs > 5)) 15
    (by norm_num) (by simp only [decide_eq_true_eq]; omega)
  simp only [decide_eq_true_eq] at h5
  linarith

/-- The `reduce` that adds up the processing times, started at `a`, is `a`
plus the sum of the processing times. -/
theorem foldl_processing_time_eq_sum (recentMetrics : List Metric) (a : ℚ) :
    recentMetrics.foldl (fun acc m => acc + m.processing_time) a =
      a + (recentMetrics.map Metric.processing_time).sum := by
  induction recentMetrics generalizing a with
  | nil => simp
  | cons m ms ih => simp [List.foldl_cons, ih, add_assoc]

/-- The recommendations, as the concatenation of the four optional entries. -/
theorem generateRecommendations_eq (p : Performance) (s : Int) :
    generateRecommendations p s =
      (if p.error_rate.gt (JSNum.fin (1 / 10)) then
        ["Review error logs and fix recurring issues"] else []) ++
      (if p.average_processing_time.gt (JSNum.fin 5000) then
        ["Optimize processing algorithms or increase resources"] else []) ++
      (if p.tasks_last_24h = 0 then
        ["Check agent configuration and input sources"] else []) ++
      (if s < 60 then ["Consider agent restart or reconfiguration"] else []) := by
  unfold generateRecommendations
  split_ifs <;> rfl

/-! ## Health score -/

/-- C1: the `overall_health_score` returned by `performComprehensiveMonitoring`
is `max(0, 100 - D)`, where `D` adds 20 if error_rate > 0.1, 30 if
error_rate > 0.2, 15 if average_processing_time > 5000, 25 if
average_processing_time > 10000, 10 if tasks_last_24h = 0 and 15 if
error_logs > 5, all read from the returned performance snapshot. -/
theorem health_score_is_floored_deduction (agent : Agent) (recentTasks : List Task)
    (recentMetrics : List Metric) (recentLogs : List LogEntry) (now : Int) :
    let r := performComprehensiveMonitoring agent recentTasks recentMetrics recentLogs now
    let p := r.performance_metrics
    r.overall_health_score =
      max 0 (100 - ((if p.error_rate.gt (JSNum.fin (1 / 10)) then 20 else 0)
        + (if p.error_rate.gt (JSNum.fin (2 / 10)) then 30 else 0)
        + (if p.average_processing_time.gt (JSNum.fin 5000) then 15 else 0)
        + (if p.average_processing_time.gt (JSNum.fin 10000) then 25 else 0)
        + (if p.tasks_last_24h = 0 then 10 else 0)
        + (if p.error_logs > 5 then 15 else 0))) := by
  intro r p
  show max 0 (healthScoreOf p) = _
  rw [healthScoreOf_eq]

/-- C2: whatever tasks, metrics and logs are given, the returned
`overall_health_score` lies in the closed interval from 0 to 100. -/
theorem health_score_in_range (agent : Agent) (recentTasks : List Task)
    (recentMetrics : List Metric) (recentLogs : List LogEntry) (now : Int) :
    0 ≤ (performComprehensiveMonitoring agent recentTasks recentMetrics recentLogs
          now).overall_health_score ∧
      (performComprehensiveMonitoring agent recentTasks recentMetrics recentLogs
          now).overall_health_score ≤ 100 := by
  rw [performComprehensiveMonitoring_eq]
  have h := healthScoreOf_bounds (performanceOf recentTasks recentMetrics recentLogs
    (now - 24 * 60 * 60 * 1000) (now - 7 * 24 * 60 * 60 * 1000))
  constructor
  · exact le_max_left _ _
  · exact max_le (by norm_num) h.2

/-- C3: the returned `health_status` is a function of the returned (floored)
score: healthy iff the score is at least 80, warning iff it lies between 60
and 79, critical iff it is below 60. -/
theorem health_status_follows_returned_score (agent : Agent) (recentTasks : List Task)
    (recentMetrics : List Metric) (recentLogs : List LogEntry) (now : Int) :
    let r := performComprehensiveMonitoring agent recentTasks recentMetrics recentLogs now
    (r.health_status = "healthy" ↔ 80 ≤ r.overall_health_score) ∧
      (r.health_status = "warning" ↔
        60 ≤ r.overall_health_score ∧ r.overall_health_score ≤ 79) ∧
      (r.health_status = "critical" ↔ r.overall_health_score < 60) := by
  intro r
  show ((if healthScoreOf r.performance_metrics ≥ 80 then "healthy"
      else if healthScoreOf r.performance_metrics ≥ 60 then "warning" else "critical")
        = "healthy" ↔ 80 ≤ max 0 (healthScoreOf r.performance_metrics)) ∧
    ((if healthScoreOf r.performance_metrics ≥ 80 then "healthy"
      else if healthScoreOf r.performance_metrics ≥ 60 then "warning" else "critical")
        = "warning" ↔ 60 ≤ max 0 (healthScoreOf r.performance_metrics) ∧
          max 0 (healthScoreOf r.performance_metrics) ≤ 79) ∧
    ((if healthScoreOf r.performance_metrics ≥ 80 then "healthy"
      else if healthScoreOf r.performance_metrics ≥ 60 then "warning" else "critical")
        = "critical" ↔ max 0 (healthScoreOf r.performance_metrics) < 60)
  generalize healthScoreOf r.performance_metrics = s
  have e1 : ("warning" : String) ≠ "healthy" := by decide
  have e2 : ("critical" : String) ≠ "healthy" := by decide
  have e3 : ("critical" : String) ≠ "warning" := by decide
  refine ⟨?_, ?_, ?_⟩
  · split_ifs with h1 h2
    · simp; omega
    · simp [e1]; omega
    · simp [e2]; omega
  · split_ifs with h1 h2
    · simp [e1.symm]; omega
    · simp; omega
    · simp [e3]; omega
  · split_ifs with h1 h2
    · simp [e2.symm]; omega
    · simp [e3.symm]; omega
    · simp; omega

/-! ## Alerts and recommendations -/

/-- C4: the returned alerts list is empty iff none of the three alert
thresholds is breached: error_rate <= 0.2, average_processing_time <= 10000
and tasks_last_24h is not 0, all read from the returned snapshot. -/
theorem alerts_empty_iff_no_threshold_breached (agent : Agent) (recentTasks : List Task)
    (recentMetrics : List Metric) (recentLogs : List LogEntry) (now : Int) :
    let r := performComprehensiveMonitoring agent recentTasks recentMetrics recentLogs now
    let p := r.performance_metrics
    r.alerts = [] ↔
      (p.error_rate.le (JSNum.fin (2 / 10)) = true ∧
        p.average_processing_time.le (JSNum.fin 10000) = true ∧
        p.tasks_last_24h ≠ 0) := by
  intro r p
  obtain ⟨e, he⟩ : ∃ q, p.error_rate = JSNum.fin q :=
    performanceOf_error_rate_fin recentTasks recentMetrics recentLogs _ _
  obtain ⟨a, ha⟩ : ∃ q, p.average_processing_time = JSNum.fin q :=
    performanceOf_average_processing_time_fin recentTasks recentMetrics recentLogs _ _
  show alertsOf p = [] ↔ _
  rw [alertsOf_eq, he, ha]
  simp only [JSNum.gt_fin_fin, JSNum.le_fin_fin, decide_eq_true_eq, List.append_eq_nil,
    ite_eq_right_iff, List.cons_ne_nil, imp_false, not_lt, ne_eq, and_assoc]

/-- C5: the returned alerts list is, in this order, the error_rate alert
(high, threshold 20, current value error_rate*100) when error_rate > 0.2, the
processing_time alert (medium, threshold 10000, current value the average)
when average_processing_time > 10000, the inactivity alert (low, threshold 1,
current value 0) when tasks_last_24h = 0, and nothing else; it has at most
three entries and no type occurs twice. -/
theorem alerts_exact_list (agent : Agent) (recentTasks : List Task)
    (recentMetrics : List Metric) (recentLogs : List LogEntry) (now : Int) :
    let r := performComprehensiveMonitoring agent recentTasks recentMetrics recentLogs now
    let p := r.performance_metrics
    (∃ m1 m2 m3,
      r.alerts =
        (if p.error_rate.gt (JSNum.fin (2 / 10)) then
          [{ type := "error_rate", severity := "high", message := m1, threshold := 20
             current_value := p.error_rate.mulConst 100 }] else []) ++
        (if p.average_processing_time.gt (JSNum.fin 10000) then
          [{ type := "processing_time", severity := "medium", message := m2
             threshold := 10000, current_value := p.average_processing_time }] else []) ++
        (if p.tasks_last_24h = 0 then
          [{ type := "inactivity", severity := "low", message := m3, threshold := 1
             current_value := JSNum.fin 0 }] else [])) ∧
      r.alerts.length ≤ 3 ∧ (r.alerts.map Alert.type).Nodup := by
  intro r p
  have h : r.alerts = alertsOf p := rfl
  rw [h, alertsOf_eq]
  refine ⟨⟨_, _, _, rfl⟩, ?_, ?_⟩
  · split_ifs <;> simp
  · split_ifs <;> simp

/-- C6: `generateRecommendations` returns exactly, in this order and each
independently of the others, the error-log advice iff error_rate > 0.1, the
optimisation advice iff average_processing_time > 5000, the configuration
advice iff tasks_last_24h = 0, and the restart advice iff the health score is
below 60. -/
theorem generateRecommendations_exact_list (performance : Performance) (healthScore : Int) :
    generateRecommendations performance healthScore =
      (if performance.error_rate.gt (JSNum.fin (1 / 10)) then
        ["Review error logs and fix recurring issues"] else []) ++
      (if performance.average_processing_time.gt (JSNum.fin 5000) then
        ["Optimize processing algorithms or increase resources"] else []) ++
      (if performance.tasks_last_24h = 0 then
        ["Check agent configuration and input sources"] else []) ++
      (if healthScore < 60 then
        ["Consider agent restart or reconfiguration"] else []) := by
  unfold generateRecommendations
  split_ifs <;> rfl

/-! ## The sample snapshots -/

/-- The snapshot of `reportAllBad`: error rate 1/4. -/
theorem reportAllBad_error_rate :
    reportAllBad.performance_metrics.error_rate = JSNum.fin (1 / 4) := by
  simp [reportAllBad, performComprehensiveMonitoring, performanceOf, tasksAllBad, sampleTask,
    JSNum.div]

/-- The snapshot of `reportAllBad`: average processing time 12000. -/
theorem reportAllBad_average :
    reportAllBad.performance_metrics.average_processing_time = JSNum.fin 12000 := by
  simp [reportAllBad, performComprehensiveMonitoring, performanceOf, sampleMetric, JSNum.div,
    JSNum.orElse, JSNum.truthy]

/-- The snapshot of `reportAllGood`: error rate 1/20. -/
theorem reportAllGood_error_rate :
    reportAllGood.performance_metrics.error_rate = JSNum.fin (1 / 20) := by
  simp [reportAllGood, performComprehensiveMonitoring, performanceOf, tasksAllGood, sampleTask,
    JSNum.div]

/-- The snapshot of `reportAllGood`: average processing time 2000. -/
theorem reportAllGood_average :
    reportAllGood.performance_metrics.average_processing_time = JSNum.fin 2000 := by
  simp [reportAllGood, performComprehensiveMonitoring, performanceOf, sampleMetric, JSNum.div,
    JSNum.orElse, JSNum.truthy]

/-- The snapshot of `reportIdle`: error rate 0. -/
theorem reportIdle_error_rate :
    reportIdle.performance_metrics.error_rate = JSNum.fin 0 := by
  simp [reportIdle, performComprehensiveMonitoring, performanceOf]

/-- The snapshot of `reportIdle`: average processing time 0. -/
theorem reportIdle_average :
    reportIdle.performance_metrics.average_processing_time = JSNum.fin 0 := by
  simp [reportIdle, performComprehensiveMonitoring, performanceOf, JSNum.div, JSNum.orElse,
    JSNum.truthy]

/-- The snapshot of `reportMetricOnly`: average processing time 100. -/
theorem reportMetricOnly_average :
    reportMetricOnly.performance_metrics.average_processing_time = JSNum.fin 100 := by
  simp [reportMetricOnly, performComprehensiveMonitoring, performanceOf, sampleMetric,
    JSNum.div, JSNum.orElse, JSNum.truthy]

/-! ## Monotonicity and the two worked examples -/

/-- C7: the health score is monotonically non-increasing: for two returned
snapshots with the same tasks_last_24h, where error_rate,
average_processing_time and error_logs of the second are at least those of
the first, the second score is at most the first, and it is never below 0. -/
theorem health_score_monotone (agent1 agent2 : Agent) (tasks1 tasks2 : List Task)
    (metrics1 metrics2 : List Metric) (logs1 logs2 : List LogEntry) (now1 now2 : Int) :
    let r1 := performComprehensiveMonitoring agent1 tasks1 metrics1 logs1 now1
    let r2 := performComprehensiveMonitoring agent2 tasks2 metrics2 logs2 now2
    let p := r1.performance_metrics
    let q := r2.performance_metrics
    p.tasks_last_24h = q.tasks_last_24h →
    p.error_rate.le q.error_rate = true →
    p.average_processing_time.le q.average_processing_time = true →
    p.error_logs ≤ q.error_logs →
    r2.overall_health_score ≤ r1.overall_health_score ∧ 0 ≤ r2.overall_health_score := by
  intro r1 r2 p q ht he ha hl
  have h := healthScoreOf_antitone p q ht he ha hl
  constructor
  · show max 0 (healthScoreOf q) ≤ max 0 (healthScoreOf p)
    exact max_le_max le_rfl h
  · show 0 ≤ max 0 (healthScoreOf q)
    exact le_max_left _ _

/-- C8: when all six deduction conditions hold in the returned snapshot
(error_rate > 0.2, average_processing_time > 10000, tasks_last_24h = 0,
error_logs > 5), the deductions sum to 115, the score is 0, the status is
critical and exactly three alerts are generated: error_rate high,
processing_time medium, inactivity low. -/
theorem all_deductions_example (agent : Agent) (recentTasks : List Task)
    (recentMetrics : List Metric) (recentLogs : List LogEntry) (now : Int) :
    let r := performComprehensiveMonitoring agent recentTasks recentMetrics recentLogs now
    let p := r.performance_metrics
    p.error_rate.gt (JSNum.fin (2 / 10)) = true →
    p.average_processing_time.gt (JSNum.fin 10000) = true →
    p.tasks_last_24h = 0 →
    p.error_logs > 5 →
    100 - healthScoreOf p = 115 ∧ r.overall_health_score = 0 ∧
      r.health_status = "critical" ∧ r.alerts.length = 3 ∧
      r.alerts.map (fun a => (a.type, a.severity)) =
        [("error_rate", "high"), ("processing_time", "medium"), ("inactivity", "low")] := by
  intro r p he ha ht hl
  have he1 := JSNum.gt_of_gt_of_le p.error_rate (1 / 10) (2 / 10) (by norm_num) he
  have ha1 := JSNum.gt_of_gt_of_le p.average_processing_time 5000 10000 (by norm_num) ha
  have hs : healthScoreOf p = -15 := by
    rw [healthScoreOf_eq, if_pos he1, if_pos he, if_pos ha1, if_pos ha, if_pos ht, if_pos hl]
    norm_num
  have hal : r.alerts = alertsOf p := rfl
  refine ⟨by rw [hs]; norm_num, ?_, ?_, ?_, ?_⟩
  · show max 0 (healthScoreOf p) = 0
    rw [hs]; rfl
  · show (if healthScoreOf p ≥ 80 then "healthy"
      else if healthScoreOf p ≥ 60 then "warning" else "critical") = "critical"
    rw [hs]; rfl
  · rw [hal, alertsOf_eq, if_pos he, if_pos ha, if_pos ht]; rfl
  · rw [hal, alertsOf_eq, if_pos he, if_pos ha, if_pos ht]; rfl

/-- C9: when no deduction condition holds in the returned snapshot
(error_rate <= 0.1, average_processing_time <= 5000, tasks_last_24h > 0,
error_logs <= 5), the score is 100, the status is healthy, and both the
alerts list and the recommendations list are empty. -/
theorem no_deduction_example (agent : Agent) (recentTasks : List Task)
    (recentMetrics : List Metric) (recentLogs : List LogEntry) (now : Int) :
    let r := performComprehensiveMonitoring agent recentTasks recentMetrics recentLogs now
    let p := r.performance_metrics
    p.error_rate.le (JSNum.fin (1 / 10)) = true →
    p.average_processing_time.le (JSNum.fin 5000) = true →
    p.tasks_last_24h > 0 →
    p.error_logs ≤ 5 →
    r.overall_health_score = 100 ∧ r.health_status = "healthy" ∧
      r.alerts = [] ∧ r.recommendations = [] := by
  intro r p he ha ht hl
  have he1 := JSNum.not_gt_of_le p.error_rate (1 / 10) (1 / 10) le_rfl he
  have he2 := JSNum.not_gt_of_le p.error_rate (1 / 10) (2 / 10) (by norm_num) he
  have ha1 := JSNum.not_gt_of_le p.average_processing_time 5000 5000 le_rfl ha
  have ha2 := JSNum.not_gt_of_le p.average_processing_time 5000 10000 (by norm_num) ha
  have ht0 : p.tasks_last_24h ≠ 0 := Nat.pos_iff_ne_zero.mp ht
  have hl0 : ¬ p.error_logs > 5 := Nat.not_lt.mpr hl
  have hs : healthScoreOf p = 100 := by
    rw [healthScoreOf_eq, if_neg ht0, if_neg hl0]
    simp only [he1, he2, ha1, ha2, Bool.false_eq_true, if_false]
    norm_num
  refine ⟨?_, ?_, ?_, ?_⟩
  · show max 0 (healthScoreOf p) = 100
    rw [hs]; rfl
  · show (if healthScoreOf p ≥ 80 then "healthy"
      else if healthScoreOf p ≥ 60 then "warning" else "critical") = "healthy"
    rw [hs]; rfl
  · show alertsOf p = []
    rw [alertsOf_eq, if_neg ht0]
    simp only [he2, ha2, Bool.false_eq_true, if_false]
    rfl
  · show generateRecommendations p (healthScoreOf p) = []
    rw [generateRecommendations_eq, hs, if_neg ht0]
    simp only [he1, ha1, Bool.false_eq_true, if_false]
    rfl

/-- Witness of C7: the idle agent against the agent with error rate 0.25,
average 12000 ms and six error logs, both without a task in the last 24h. -/
theorem health_score_monotone_witness :
    reportAllBad.overall_health_score ≤ reportIdle.overall_health_score ∧
      0 ≤ reportAllBad.overall_health_score :=
  health_score_monotone sampleAgent sampleAgent [] tasksAllBad [] [sampleMetric 12000] []
    logsSixErrors sampleNow sampleNow (by decide)
    (by
      show reportIdle.performance_metrics.error_rate.le
        reportAllBad.performance_metrics.error_rate = true
      rw [reportIdle_error_rate, reportAllBad_error_rate, JSNum.le_fin_fin]
      norm_num)
    (by
      show reportIdle.performance_metrics.average_processing_time.le
        reportAllBad.performance_metrics.average_processing_time = true
      rw [reportIdle_average, reportAllBad_average, JSNum.le_fin_fin]
      norm_num)
    (by decide)

/-- Witness of C8: error_rate 0.25, average 12000 ms, no task in the last
24h and six error logs. -/
theorem all_deductions_example_witness :
    100 - healthScoreOf reportAllBad.performance_metrics = 115 ∧
      reportAllBad.overall_health_score = 0 ∧
      reportAllBad.health_status = "critical" ∧ reportAllBad.alerts.length = 3 ∧
      reportAllBad.alerts.map (fun a => (a.type, a.severity)) =
        [("error_rate", "high"), ("processing_time", "medium"), ("inactivity", "low")] :=
  all_deductions_example sampleAgent tasksAllBad [sampleMetric 12000] logsSixErrors sampleNow
    (by
      show reportAllBad.performance_metrics.error_rate.gt (JSNum.fin (2 / 10)) = true
      rw [reportAllBad_error_rate, JSNum.gt_fin_fin]
      norm_num)
    (by
      show reportAllBad.performance_metrics.average_processing_time.gt (JSNum.fin 10000) = true
      rw [reportAllBad_average, JSNum.gt_fin_fin]
      norm_num)
    (by decide) (by decide)

/-- Witness of C9: error_rate 0.05, average 2000 ms, five tasks in the last
24h and no error log. -/
theorem no_deduction_example_witness :
    reportAllGood.overall_health_score = 100 ∧ reportAllGood.health_status = "healthy" ∧
      reportAllGood.alerts = [] ∧ reportAllGood.recommendations = [] :=
  no_deduction_example sampleAgent tasksAllGood [sampleMetric 2000] [] sampleNow
    (by
      show reportAllGood.performance_metrics.error_rate.le (JSNum.fin (1 / 10)) = true
      rw [reportAllGood_error_rate, JSNum.le_fin_fin]
      norm_num)
    (by
      show reportAllGood.performance_metrics.average_processing_time.le (JSNum.fin 5000) = true
      rw [reportAllGood_average, JSNum.le_fin_fin]
      norm_num)
    (by decide) (by decide)

/-! ## Agents without tasks -/

/-- Counterexample to C10 as stated: an agent with no task and one metric of
100 ms in the window has total_tasks = 0 and average_processing_time = 100. -/
theorem empty_tasks_average_not_zero :
    reportMetricOnly.performance_metrics.total_tasks = 0 ∧
      reportMetricOnly.performance_metrics.average_processing_time = JSNum.fin 100 ∧
      reportMetricOnly.performance_metrics.average_processing_time ≠ JSNum.fin 0 := by
  refine ⟨by decide, reportMetricOnly_average, ?_⟩
  rw [reportMetricOnly_average]
  intro h
  injection h with h
  norm_num at h

/-- C10, amended: for an agent whose task list is empty (total_tasks = 0),
whatever metrics and logs exist, success_rate = 0 and error_rate = 0; the
average_processing_time is the mean processing_time of the metrics in the
window, hence 0 when there is no such metric; and none of the three is NaN. -/
theorem empty_tasks_rates_zero (agent : Agent) (recentTasks : List Task)
    (recentMetrics : List Metric) (recentLogs : List LogEntry) (now : Int) :
    let p := (performComprehensiveMonitoring agent recentTasks recentMetrics recentLogs
      now).performance_metrics
    p.total_tasks = 0 →
    p.success_rate = JSNum.fin 0 ∧ p.error_rate = JSNum.fin 0 ∧
      p.average_processing_time =
        JSNum.fin (if recentMetrics = [] then 0
          else (recentMetrics.map Metric.processing_time).sum / recentMetrics.length) ∧
      (recentMetrics = [] → p.average_processing_time = JSNum.fin 0) ∧
      p.success_rate.isNaN = false ∧ p.error_rate.isNaN = false ∧
      p.average_processing_time.isNaN = false := by
  intro p h0
  have hlen : recentTasks.length = 0 := h0
  have hs : p.success_rate = JSNum.fin 0 := by
    show (if recentTasks.length > 0 then _ else JSNum.fin 0) = JSNum.fin 0
    rw [hlen]; rfl
  have he : p.error_rate = JSNum.fin 0 := by
    show (if recentTasks.length > 0 then _ else JSNum.fin 0) = JSNum.fin 0
    rw [hlen]; rfl
  have ha : p.average_processing_time =
      JSNum.fin (if recentMetrics = [] then 0
        else (recentMetrics.map Metric.processing_time).sum / recentMetrics.length) := by
    show JSNum.orElse _ _ = _
    rw [mean_or_zero_eq, foldl_processing_time_eq_sum, zero_add]
  refine ⟨hs, he, ha, ?_, ?_, ?_, ?_⟩
  · intro hm
    rw [ha, if_pos hm]
  · rw [hs]; rfl
  · rw [he]; rfl
  · rw [ha]; rfl

/-- Witness of C10, amended: no task, one metric of 100 ms. -/
theorem empty_tasks_rates_zero_witness :
    reportMetricOnly.performance_metrics.success_rate = JSNum.fin 0 ∧
      reportMetricOnly.performance_metrics.error_rate = JSNum.fin 0 ∧
      reportMetricOnly.performance_metrics.average_processing_time =
        JSNum.fin (if [sampleMetric 100] = [] then 0
          else (([sampleMetric 100] : List Metric).map Metric.processing_time).sum /
            ([sampleMetric 100] : List Metric).length) ∧
      (([sampleMetric 100] : List Metric) = [] →
        reportMetricOnly.performance_metrics.average_processing_time = JSNum.fin 0) ∧
      reportMetricOnly.performance_metrics.success_rate.isNaN = false ∧
      reportMetricOnly.performance_metrics.error_rate.isNaN = false ∧
      reportMetricOnly.performance_metrics.average_processing_time.isNaN = false :=
  empty_tasks_rates_zero sampleAgent [] [sampleMetric 100] [] sampleNow (by decide)

/-! ## Counts, rates and means -/

/-- The number of rows that pass a `filter` on one string field is the number
of occurrences of the literal among the values of that field. -/
theorem length_filter_eq_count {α : Type} (f : α → String) (lit : String) (l : List α) :
    (l.filter (fun x => f x == lit)).length = (l.map f).count lit := by
  induction l with
  | nil => rfl
  | cons x xs ih =>
    by_cases h : f x = lit
    · simp [List.filter_cons, h, ih]
    · rw [List.map_cons, List.count_cons_of_ne (fun e => h e.symm), ← ih]
      simp [List.filter_cons, h]

/-- C11: `total_tasks` is the length of the task list, the four status
counters are the numbers of tasks with that status, `success_rate` is
completed_tasks / total_tasks and `error_rate` is failed_tasks / total_tasks
when total_tasks > 0, and both rates are 0 when total_tasks = 0. -/
theorem task_counts_and_rates (agent : Agent) (recentTasks : List Task)
    (recentMetrics : List Metric) (recentLogs : List LogEntry) (now : Int) :
    let p := (performComprehensiveMonitoring agent recentTasks recentMetrics recentLogs
      now).performance_metrics
    p.total_tasks = recentTasks.length ∧
      p.completed_tasks = (recentTasks.map Task.status).count "completed" ∧
      p.failed_tasks = (recentTasks.map Task.status).count "failed" ∧
      p.pending_tasks = (recentTasks.map Task.status).count "pending" ∧
      p.processing_tasks = (recentTasks.map Task.status).count "processing" ∧
      p.success_rate =
        (if p.total_tasks > 0 then JSNum.fin ((p.completed_tasks : ℚ) / (p.total_tasks : ℚ))
          else JSNum.fin 0) ∧
      p.error_rate =
        (if p.total_tasks > 0 then JSNum.fin ((p.failed_tasks : ℚ) / (p.total_tasks : ℚ))
          else JSNum.fin 0) := by
  intro p
  refine ⟨rfl, length_filter_eq_count Task.status _ _, length_filter_eq_count Task.status _ _,
    length_filter_eq_count Task.status _ _, length_filter_eq_count Task.status _ _, ?_, ?_⟩
  · show (if recentTasks.length > 0 then JSNum.div _ _ else JSNum.fin 0) = _
    rw [guarded_ratio_fin]
    show _ = (if recentTasks.length > 0 then _ else _)
    split_ifs <;> rfl
  · show (if recentTasks.length > 0 then JSNum.div _ _ else JSNum.fin 0) = _
    rw [guarded_ratio_fin]
    show _ = (if recentTasks.length > 0 then _ else _)
    split_ifs <;> rfl

/-- C12: `average_processing_time` is the arithmetic mean of the
processing_time values of the metrics (their sum divided by their number)
and 0 for the empty list, in the snapshot and in `calculateSystemHealth`. -/
theorem average_processing_time_is_mean (agent : Agent) (recentTasks : List Task)
    (recentMetrics : List Metric) (recentLogs : List LogEntry) (now : Int) :
    (performComprehensiveMonitoring agent recentTasks recentMetrics recentLogs
        now).performance_metrics.average_processing_time =
        JSNum.fin (if recentMetrics = [] then 0
          else (recentMetrics.map Metric.processing_time).sum / (recentMetrics.length : ℚ)) ∧
      (performComprehensiveMonitoring agent recentTasks [] recentLogs
        now).performance_metrics.average_processing_time = JSNum.fin 0 ∧
      (calculateSystemHealth recentMetrics).average_processing_time =
        JSNum.fin (if recentMetrics = [] then 0
          else (recentMetrics.map Metric.processing_time).sum / (recentMetrics.length : ℚ)) ∧
      (calculateSystemHealth []).average_processing_time = JSNum.fin 0 := by
  have h : ∀ ms : List Metric,
      JSNum.orElse
          (JSNum.div (ms.foldl (fun acc m => acc + m.processing_time) 0) ms.length)
          (JSNum.fin 0) =
        JSNum.fin (if ms = [] then 0
          else (ms.map Metric.processing_time).sum / (ms.length : ℚ)) := by
    intro ms
    rw [mean_or_zero_eq, foldl_processing_time_eq_sum, zero_add]
  exact ⟨h recentMetrics, h [], h recentMetrics, h []⟩

/-- C20: `calculateSystemHealth` returns the number of metrics as
total_operations, the number of metrics with `success` set as
successful_operations, their difference as failed_operations, and
successful_operations / total_operations as overall_success_rate, which is 0
for the empty list. -/
theorem calculateSystemHealth_counts (metrics : List Metric) :
    let h := calculateSystemHealth metrics
    h.total_operations = metrics.length ∧
      h.successful_operations = (metrics.map Metric.success).count true ∧
      h.failed_operations = (h.total_operations : Int) - (h.successful_operations : Int) ∧
      0 ≤ h.failed_operations ∧
      h.overall_success_rate =
        (if h.total_operations > 0 then
          JSNum.fin ((h.successful_operations : ℚ) / (h.total_operations : ℚ))
          else JSNum.fin 0) ∧
      (calculateSystemHealth []).overall_success_rate = JSNum.fin 0 := by
  intro h
  refine ⟨rfl, ?_, rfl, ?_, ?_, rfl⟩
  · show (metrics.filter (fun m => m.success)).length = _
    induction metrics with
    | nil => rfl
    | cons m ms ih => cases hm : m.success <;> simp [List.filter_cons, hm, ih]
  · show 0 ≤ (metrics.length : Int) - ((metrics.filter (fun m => m.success)).length : Int)
    have := List.length_filter_le (fun m : Metric => m.success) metrics
    omega
  · show (if metrics.length > 0 then JSNum.div _ _ else JSNum.fin 0) = _
    rw [guarded_ratio_fin]
    show _ = (if metrics.length > 0 then _ else _)
    split_ifs <;> rfl

/-- C19, evaluated: one log entry of level `warn` leaves `warning_logs` at 0,
although the list holds one entry of level `warn`. -/
theorem warn_level_logs_not_counted :
    (performComprehensiveMonitoring sampleAgent [] [] [sampleLog "warn"]
        sampleNow).performance_metrics.warning_logs = 0 ∧
      (([sampleLog "warn"] : List LogEntry).map LogEntry.level).count "warn" = 1 := by
  decide

/-! ## The handler: auxiliary facts -/

/-- The `>>=` of the handler pieces is `Step.bind`. -/
theorem Step.bind_eq {α β : Type} (m : Step α) (f : α → Step β) :
    (m >>= f) = Step.bind m f := rfl

/-- The `pure` of the handler pieces is `Step.pure`. -/
theorem Step.pure_eq {α : Type} (a : α) : (Pure.pure a : Step α) = Step.pure a := rfl

/-- A store write whose call succeeds appends the write. -/
theorem storeWrite_ok (run : MonitoringRun) (w : StoreWrite) (s : RunState)
    (h : run.writeOutcome s.calls = none) :
    storeWrite run w s =
      (Except.ok (), { writes := s.writes ++ [w], calls := s.calls + 1 }) := by
  unfold storeWrite
  rw [h]

/-- A store write whose call throws leaves the writes as they were. -/
theorem storeWrite_fail (run : MonitoringRun) (w : StoreWrite) (s : RunState) (e : JSError)
    (h : run.writeOutcome s.calls = some e) :
    storeWrite run w s = (Except.error e, { writes := s.writes, calls := s.calls + 1 }) := by
  unfold storeWrite
  rw [h]

/-- When no later store call fails, `generateAlerts` returns after writing one
log row per alert, in list order. -/
theorem generateAlerts_ok (run : MonitoringRun) (tenantId agentId : String)
    (alerts : List Alert) (s : RunState)
    (h : ∀ k, s.calls ≤ k → run.writeOutcome k = none) :
    generateAlerts run tenantId agentId alerts s =
      (Except.ok (),
        { writes := s.writes ++
            alerts.map (fun alert => StoreWrite.insertLog (alertLog tenantId agentId alert))
          calls := s.calls + alerts.length }) := by
  induction alerts generalizing s with
  | nil => simp [generateAlerts, Step.pure]
  | cons a as ih =>
    simp only [generateAlerts, Step.bind_eq, Step.bind]
    rw [storeWrite_ok run _ s (h _ le_rfl)]
    simp only
    rw [ih]
    · simp [Nat.add_assoc, Nat.add_comm 1]
    · intro k hk
      exact h k (by simp at hk; omega)

/-- The run in which the work throws `e` and every store write succeeds. -/
theorem performMonitoring_of_work_throws (run : MonitoringRun) (agent_id : String)
    (e : JSError) (hid : run.agent_id = some agent_id) (hne : agent_id ≠ "")
    (hreads : run.reads = Except.error e) (hw : ∀ k, run.writeOutcome k = none) :
    performMonitoring run =
      ({ status := 500
         body := ResponseBody.error "Failed to perform monitoring"
           (some (formatError e run.errorTimestamp)) },
       { writes :=
           [StoreWrite.createTask
              { tenant_id := run.tenantId
                agent_id := agent_id
                status := "processing"
                input_data_monitoring_type := run.monitoring_type.getD "comprehensive"
                metadata_started_at := run.started_at },
            StoreWrite.updateTask run.taskId
              { status := "failed"
                output_data := none
                error_message := some e.message
                completed_at := run.failed_at
                metadata := none },
            StoreWrite.recordMetrics
              { tenant_id := run.tenantId
                agent_id := agent_id
                metric_name := "performance_monitoring_error"
                metric_value := 0
                processing_time := run.failedMetricNow - run.startTime
                success := false
                metadata_monitoring_type := none
                metadata_error := some e.message },
            StoreWrite.insertLog
              { tenant_id := run.tenantId
                agent_id := agent_id
                level := "error"
                message := [MessagePart.text "Performance monitoring failed for task ",
                  MessagePart.text run.taskId]
                metadata := LogMetadata.failed run.taskId e.message }]
         calls := 4 }) := by
  simp [performMonitoring, performMonitoringBody, hid, hne, hreads, hw, Step.bind_eq, Step.bind, Step.tryCatch,
    storeWrite, monitoringWork, Step.throw, Step.pure]

/-- The run in which the work returns and every store write succeeds. -/
theorem performMonitoring_of_work_returns (run : MonitoringRun) (agent_id : String)
    (r : StoreReads) (hid : run.agent_id = some agent_id) (hne : agent_id ≠ "")
    (hreads : run.reads = Except.ok r) (hw : ∀ k, run.writeOutcome k = none) :
    performMonitoring run =
      ({ status := 200
         body := ResponseBody.success run.taskId
           (performComprehensiveMonitoring r.agent r.recentTasks r.recentMetrics r.recentLogs
             run.monitoringNow)
           (run.workDone - run.startTime) "Performance monitoring completed successfully" },
       { writes :=
           [StoreWrite.createTask
              { tenant_id := run.tenantId
                agent_id := agent_id
                status := "processing"
                input_data_monitoring_type := run.monitoring_type.getD "comprehensive"
                metadata_started_at := run.started_at },
            StoreWrite.updateTask run.taskId
              { status := "completed"
                output_data := some (performComprehensiveMonitoring r.agent r.recentTasks
                  r.recentMetrics r.recentLogs run.monitoringNow)
                error_message := none
                completed_at := run.completed_at
                metadata := some { started_at := run.started_at
                                   processing_time_ms := run.workDone - run.startTime } },
            StoreWrite.recordMetrics
              { tenant_id := run.tenantId
                agent_id := agent_id
                metric_name := "performance_monitoring"
                metric_value := (performComprehensiveMonitoring r.agent r.recentTasks
                  r.recentMetrics r.recentLogs run.monitoringNow).overall_health_score
                processing_time := run.workDone - run.startTime
                success := true
                metadata_monitoring_type := some (run.monitoring_type.getD "comprehensive")
                metadata_error := none },
            StoreWrite.insertLog
              { tenant_id := run.tenantId
                agent_id := agent_id
                level := "info"
                message := [MessagePart.text "Performance monitoring completed for task ",
                  MessagePart.text run.taskId]
                metadata := LogMetadata.completed run.taskId (run.workDone - run.startTime)
                  (performComprehensiveMonitoring r.agent r.recentTasks r.recentMetrics
                    r.recentLogs run.monitoringNow).overall_health_score }] ++
            (performComprehensiveMonitoring r.agent r.recentTasks r.recentMetrics r.recentLogs
              run.monitoringNow).alerts.map
              (fun alert => StoreWrite.insertLog (alertLog run.tenantId agent_id alert))
         calls := 4 + (performComprehensiveMonitoring r.agent r.recentTasks r.recentMetrics
           r.recentLogs run.monitoringNow).alerts.length }) := by
  generalize hres : performComprehensiveMonitoring r.agent r.recentTasks r.recentMetrics
    r.recentLogs run.monitoringNow = result
  by_cases hal : result.alerts.length > 0
  · simp [performMonitoring, performMonitoringBody, hid, hne, hreads, hw, Step.bind_eq, Step.bind, Step.tryCatch,
      storeWrite, monitoringWork, Step.throw, Step.pure, hres, hal, generateAlerts_ok]
  · have hnil : result.alerts = [] := List.length_eq_zero.mp (by omega)
    simp [performMonitoring, performMonitoringBody, hid, hne, hreads, hw, Step.bind_eq, Step.bind, Step.tryCatch,
      storeWrite, monitoringWork, Step.throw, Step.pure, Step.pure_eq, hres, hnil]

/-- The log rows among a list of alert log writes are the alert logs. -/
theorem logRows_map_alertLog (tenantId agentId : String) (alerts : List Alert) :
    logRows (alerts.map (fun alert => StoreWrite.insertLog (alertLog tenantId agentId alert))) =
      alerts.map (alertLog tenantId agentId) := by
  induction alerts with
  | nil => rfl
  | cons a as ih => simp [logRows, ih]

/-- There is no task update among a list of alert log writes. -/
theorem taskUpdates_map_alertLog (tenantId agentId : String) (alerts : List Alert) :
    taskUpdates
      (alerts.map (fun alert => StoreWrite.insertLog (alertLog tenantId agentId alert))) = [] := by
  induction alerts with
  | nil => rfl
  | cons a as ih => simp [taskUpdates, ih]

/-- There is no metric row among a list of alert log writes. -/
theorem metricRows_map_alertLog (tenantId agentId : String) (alerts : List Alert) :
    metricRows
      (alerts.map (fun alert => StoreWrite.insertLog (alertLog tenantId agentId alert))) = [] := by
  induction alerts with
  | nil => rfl
  | cons a as ih => simp [metricRows, ih]

/-- The sample reads give exactly one alert, the one for slow processing. -/
theorem sampleReads_alerts :
    ((performComprehensiveMonitoring sampleReads.agent sampleReads.recentTasks
      sampleReads.recentMetrics sampleReads.recentLogs
      runSuccess.monitoringNow).alerts.map Alert.type) = ["processing_time"] := by
  simp [performComprehensiveMonitoring, alertsOf, performanceOf, sampleReads, sampleTask,
    sampleMetric, runSuccess, JSNum.div, JSNum.orElse, JSNum.truthy, JSNum.gt, JSNum.lt]
  norm_num

/-! ## The handler: the two paths -/

/-- C13: when the monitoring work throws an error with message m after the
task was created and every store write succeeds, the handler performs exactly
one task update, setting status failed and error_message m, exactly one
metric write with success false, metric_value 0 and metadata.error m, and
exactly one log write, of level error; the response has status 500 and its
details.message is m. -/
theorem failure_path_bookkeeping (run : MonitoringRun) (agent_id : String) (e : JSError)
    (hid : run.agent_id = some agent_id) (hne : agent_id ≠ "")
    (hreads : run.reads = Except.error e) (hw : ∀ k, run.writeOutcome k = none) :
    (∃ u, taskUpdates (performMonitoring run).2.writes = [(run.taskId, u)] ∧
        u.status = "failed" ∧ u.error_message = some e.message) ∧
      (∃ m, metricRows (performMonitoring run).2.writes = [m] ∧
        m.success = false ∧ m.metric_value = 0 ∧ m.metadata_error = some e.message) ∧
      (∃ l, logRows (performMonitoring run).2.writes = [l] ∧ l.level = "error") ∧
      (performMonitoring run).1.status = 500 ∧
      (∃ d, (performMonitoring run).1.body =
          ResponseBody.error "Failed to perform monitoring" (some d) ∧
        d.message = e.message) := by
  rw [performMonitoring_of_work_throws run agent_id e hid hne hreads hw]
  exact ⟨⟨_, rfl, rfl, rfl⟩, ⟨_, rfl, rfl, rfl, rfl⟩, ⟨_, rfl, rfl⟩, rfl, ⟨_, rfl, rfl⟩⟩

/-- Witness of C13: the sample run whose work throws `connection lost`. -/
theorem failure_path_bookkeeping_witness :
    (∃ u, taskUpdates (performMonitoring runWorkThrows).2.writes =
          [(runWorkThrows.taskId, u)] ∧
        u.status = "failed" ∧ u.error_message = some sampleError.message) ∧
      (∃ m, metricRows (performMonitoring runWorkThrows).2.writes = [m] ∧
        m.success = false ∧ m.metric_value = 0 ∧
        m.metadata_error = some sampleError.message) ∧
      (∃ l, logRows (performMonitoring runWorkThrows).2.writes = [l] ∧ l.level = "error") ∧
      (performMonitoring runWorkThrows).1.status = 500 ∧
      (∃ d, (performMonitoring runWorkThrows).1.body =
          ResponseBody.error "Failed to perform monitoring" (some d) ∧
        d.message = sampleError.message) :=
  failure_path_bookkeeping runWorkThrows "a1" sampleError rfl (by decide) rfl (fun _ => rfl)

/-- C14: when the monitoring work returns result r and every store write
succeeds, the writes after the task creation begin with, in this order, the
task update (status completed, output_data r, metadata.processing_time_ms the
elapsed time), the metric write (success true, metric_value
r.overall_health_score) and the log write of level info whose message names
the task id; the response carries the task id, r and the same elapsed time as
the task update and the metric. -/
theorem success_path_bookkeeping (run : MonitoringRun) (agent_id : String) (r : StoreReads)
    (hid : run.agent_id = some agent_id) (hne : agent_id ≠ "")
    (hreads : run.reads = Except.ok r) (hw : ∀ k, run.writeOutcome k = none) :
    ∃ created u m l rest,
      (performMonitoring run).2.writes =
          StoreWrite.createTask created :: StoreWrite.updateTask run.taskId u ::
            StoreWrite.recordMetrics m :: StoreWrite.insertLog l :: rest ∧
        u.status = "completed" ∧
        u.output_data = some (performComprehensiveMonitoring r.agent r.recentTasks
          r.recentMetrics r.recentLogs run.monitoringNow) ∧
        u.metadata.map TaskMetadata.processing_time_ms = some (run.workDone - run.startTime) ∧
        m.success = true ∧
        m.metric_value = (performComprehensiveMonitoring r.agent r.recentTasks
          r.recentMetrics r.recentLogs run.monitoringNow).overall_health_score ∧
        m.processing_time = run.workDone - run.startTime ∧
        l.level = "info" ∧ MessagePart.text run.taskId ∈ l.message ∧
        (performMonitoring run).1 =
          { status := 200
            body := ResponseBody.success run.taskId
              (performComprehensiveMonitoring r.agent r.recentTasks r.recentMetrics
                r.recentLogs run.monitoringNow)
              (run.workDone - run.startTime)
              "Performance monitoring completed successfully" } := by
  rw [performMonitoring_of_work_returns run agent_id r hid hne hreads hw]
  refine ⟨_, _, _, _, _, rfl, rfl, rfl, rfl, rfl, rfl, rfl, rfl, ?_, rfl⟩
  simp

/-- Witness of C14: the sample run whose work returns. -/
theorem success_path_bookkeeping_witness :
    ∃ created u m l rest,
      (performMonitoring runSuccess).2.writes =
          StoreWrite.createTask created :: StoreWrite.updateTask runSuccess.taskId u ::
            StoreWrite.recordMetrics m :: StoreWrite.insertLog l :: rest ∧
        u.status = "completed" ∧
        u.output_data = some (performComprehensiveMonitoring sampleReads.agent
          sampleReads.recentTasks sampleReads.recentMetrics sampleReads.recentLogs
          runSuccess.monitoringNow) ∧
        u.metadata.map TaskMetadata.processing_time_ms =
          some (runSuccess.workDone - runSuccess.startTime) ∧
        m.success = true ∧
        m.metric_value = (performComprehensiveMonitoring sampleReads.agent
          sampleReads.recentTasks sampleReads.recentMetrics sampleReads.recentLogs
          runSuccess.monitoringNow).overall_health_score ∧
        m.processing_time = runSuccess.workDone - runSuccess.startTime ∧
        l.level = "info" ∧ MessagePart.text runSuccess.taskId ∈ l.message ∧
        (performMonitoring runSuccess).1 =
          { status := 200
            body := ResponseBody.success runSuccess.taskId
              (performComprehensiveMonitoring sampleReads.agent sampleReads.recentTasks
                sampleReads.recentMetrics sampleReads.recentLogs runSuccess.monitoringNow)
              (runSuccess.workDone - runSuccess.startTime)
              "Performance monitoring completed successfully" } :=
  success_path_bookkeeping runSuccess "a1" sampleReads rfl (by decide) rfl (fun _ => rfl)

/-! ## The handler: how many rows a run writes -/

/-- C15, as stated, fails: in the sample run the work returns a report with
one alert and every store write succeeds, and two log rows are written. -/
theorem successful_run_with_alert_writes_two_logs :
    runSuccess.agent_id = some "a1" ∧ (∀ k, runSuccess.writeOutcome k = none) ∧
      (logRows (performMonitoring runSuccess).2.writes).length = 2 := by
  refine ⟨rfl, fun _ => rfl, ?_⟩
  rw [performMonitoring_of_work_returns runSuccess "a1" sampleReads rfl (by decide) rfl
    (fun _ => rfl)]
  have h := congrArg List.length sampleReads_alerts
  simp only [List.length_map, List.length_singleton] at h
  simp [logRows, logRows_map_alertLog, h]

/-- C15, amended: in every run that passes validation and in which every
store write succeeds, whether the work returns or throws, exactly one
terminal task state (completed or failed) and exactly one metric row are
written; the number of log rows is one plus the number of alerts of the
report when the work returns, and one when it throws. -/
theorem bookkeeping_row_counts (run : MonitoringRun) (agent_id : String)
    (hid : run.agent_id = some agent_id) (hne : agent_id ≠ "")
    (hw : ∀ k, run.writeOutcome k = none) :
    (∃ u, taskUpdates (performMonitoring run).2.writes = [(run.taskId, u)] ∧
        (u.status = "completed" ∨ u.status = "failed")) ∧
      (metricRows (performMonitoring run).2.writes).length = 1 ∧
      (∀ r, run.reads = Except.ok r →
        (logRows (performMonitoring run).2.writes).length =
          1 + (performComprehensiveMonitoring r.agent r.recentTasks r.recentMetrics
            r.recentLogs run.monitoringNow).alerts.length) ∧
      (∀ e, run.reads = Except.error e →
        (logRows (performMonitoring run).2.writes).length = 1) := by
  rcases hreads : run.reads with e | r
  · rw [performMonitoring_of_work_throws run agent_id e hid hne hreads hw]
    refine ⟨⟨_, rfl, Or.inr rfl⟩, rfl, ?_, ?_⟩
    · intro r hr; cases hr
    · intro _ _; rfl
  · rw [performMonitoring_of_work_returns run agent_id r hid hne hreads hw]
    refine ⟨?_, ?_, ?_, ?_⟩
    · refine ⟨{ status := "completed"
                output_data := some (performComprehensiveMonitoring r.agent r.recentTasks
                  r.recentMetrics r.recentLogs run.monitoringNow)
                error_message := none
                completed_at := run.completed_at
                metadata := some { started_at := run.started_at
                                   processing_time_ms := run.workDone - run.startTime } },
        ?_, Or.inl rfl⟩
      simp [taskUpdates, taskUpdates_map_alertLog]
    · simp [metricRows, metricRows_map_alertLog]
    · intro r1 hr
      cases hr
      simp [logRows, logRows_map_alertLog]
      omega
    · intro e he; cases he

/-- Witness of C15, amended: the sample run whose work returns one alert. -/
theorem bookkeeping_row_counts_witness :
    (∃ u, taskUpdates (performMonitoring runSuccess).2.writes = [(runSuccess.taskId, u)] ∧
        (u.status = "completed" ∨ u.status = "failed")) ∧
      (metricRows (performMonitoring runSuccess).2.writes).length = 1 ∧
      (∀ r, runSuccess.reads = Except.ok r →
        (logRows (performMonitoring runSuccess).2.writes).length =
          1 + (performComprehensiveMonitoring r.agent r.recentTasks r.recentMetrics
            r.recentLogs runSuccess.monitoringNow).alerts.length) ∧
      (∀ e, runSuccess.reads = Except.error e →
        (logRows (performMonitoring runSuccess).2.writes).length = 1) :=
  bookkeeping_row_counts runSuccess "a1" rfl (by decide) (fun _ => rfl)

/-! ## The handler: alert logs -/

/-- C18, evaluated: for the inactivity alert, of severity low,
`generateAlerts` writes one log row whose level is the string `warning`,
which is not the string `warn`; its message is `ALERT: ` followed by the
message of the alert. -/
theorem alert_log_level_is_warning :
    (generateAlerts runSuccess "tenant" "a1" [inactivityAlert]
        { writes := [], calls := 0 }).2.writes =
        [StoreWrite.insertLog
          { tenant_id := "tenant"
            agent_id := "a1"
            level := "warning"
            message := [MessagePart.text "ALERT: ",
              MessagePart.text "No tasks processed in the last 24 hours"]
            metadata := LogMetadata.alert "inactivity" inactivityAlert }] ∧
      ("warning" : String) ≠ "warn" := by
  refine ⟨?_, by decide⟩
  rw [generateAlerts_ok runSuccess "tenant" "a1" [inactivityAlert] _ (fun _ _ => rfl)]
  rfl

/-! ## The handler: terminal task states -/

/-- C16, as stated, fails: in the sample run whose metric write throws after
the task was marked completed, the task is updated a second time, to failed. -/
theorem completed_task_updated_again :
    (taskUpdates (performMonitoring runMetricWriteFails).2.writes).map
      (fun u => u.2.status) = ["completed", "failed"] := by
  simp [performMonitoring, performMonitoringBody, runMetricWriteFails, runSuccess,
    Step.bind_eq, Step.bind, Step.tryCatch, storeWrite, monitoringWork, Step.throw, Step.pure,
    taskUpdates]

/-- C16, amended: in every run in which the monitoring work throws, or in
which no store write after the first task update attempt fails (the task
creation and that update may fail), the created task is updated at most once,
and an update sets a terminal status, completed or failed. -/
theorem task_terminal_at_most_once (run : MonitoringRun)
    (h : (∃ e, run.reads = Except.error e) ∨ ∀ k, 2 ≤ k → run.writeOutcome k = none) :
    (taskUpdates (performMonitoring run).2.writes).length ≤ 1 ∧
      ∀ u ∈ taskUpdates (performMonitoring run).2.writes,
        u.1 = run.taskId ∧ (u.2.status = "completed" ∨ u.2.status = "failed") := by
  rcases hid : run.agent_id with _ | agent_id
  · simp [performMonitoring, performMonitoringBody, hid, Step.pure, taskUpdates]
  by_cases hne : agent_id = ""
  · simp [performMonitoring, performMonitoringBody, hid, hne, Step.pure, taskUpdates]
  rcases h0 : run.writeOutcome 0 with _ | e0
  swap
  · simp [performMonitoring, performMonitoringBody, hid, hne, h0, Step.bind_eq, Step.bind,
      Step.tryCatch, storeWrite, taskUpdates]
  rcases hreads : run.reads with e | r
  · rcases h1 : run.writeOutcome 1 with _ | e1 <;>
    rcases h2 : run.writeOutcome 2 with _ | e2 <;>
    rcases h3 : run.writeOutcome 3 with _ | e3 <;>
    simp [performMonitoring, performMonitoringBody, hid, hne, h0, h1, h2, h3, hreads,
      Step.bind_eq, Step.bind, Step.tryCatch, storeWrite, monitoringWork, Step.throw,
      Step.pure, taskUpdates]
  · have hk : ∀ k, 2 ≤ k → run.writeOutcome k = none := by
      rcases h with ⟨e, he⟩ | hk
      · rw [hreads] at he; cases he
      · exact hk
    have h2 := hk 2 le_rfl
    have h3 := hk 3 (by norm_num)
    have h4 := hk 4 (by norm_num)
    have hga : ∀ (alerts : List Alert) (s : RunState), 2 ≤ s.calls →
        generateAlerts run run.tenantId agent_id alerts s =
          (Except.ok (),
            { writes := s.writes ++ alerts.map
                (fun alert => StoreWrite.insertLog (alertLog run.tenantId agent_id alert))
              calls := s.calls + alerts.length }) :=
      fun alerts s hs => generateAlerts_ok run _ _ alerts s (fun k hks => hk k (by omega))
    generalize hres : performComprehensiveMonitoring r.agent r.recentTasks r.recentMetrics
      r.recentLogs run.monitoringNow = result
    rcases h1 : run.writeOutcome 1 with _ | e1
    · by_cases hal : result.alerts.length > 0
      · simp [performMonitoring, performMonitoringBody, hid, hne, h0, h1, h2, h3, hreads,
          Step.bind_eq, Step.bind, Step.tryCatch, storeWrite, monitoringWork, Step.throw,
          Step.pure, taskUpdates, hres, hal, hga, taskUpdates_map_alertLog]
      · simp [performMonitoring, performMonitoringBody, hid, hne, h0, h1, h2, h3, hreads,
          Step.bind_eq, Step.bind, Step.tryCatch, storeWrite, monitoringWork, Step.throw,
          Step.pure, Step.pure_eq, taskUpdates, hres, hal]
    · simp [performMonitoring, performMonitoringBody, hid, hne, h0, h1, h2, h3, h4, hreads,
        Step.bind_eq, Step.bind, Step.tryCatch, storeWrite, monitoringWork, Step.throw,
        Step.pure, taskUpdates, hres]

/-- Witness of C16, amended: the sample run in which every write succeeds. -/
theorem task_terminal_at_most_once_witness :
    (taskUpdates (performMonitoring runSuccess).2.writes).length ≤ 1 ∧
      ∀ u ∈ taskUpdates (performMonitoring runSuccess).2.writes,
        u.1 = runSuccess.taskId ∧ (u.2.status = "completed" ∨ u.2.status = "failed") :=
  task_terminal_at_most_once runSuccess (Or.inr (fun _ _ => rfl))

/-! ## The handler: tenant and agent of the written rows -/

/-- Returning a value writes nothing. -/
theorem Step.appends_pure {α : Type} (P : StoreWrite → Prop) (a : α) :
    Step.appends P (Step.pure a) :=
  fun s => ⟨[], by simp [Step.pure], by simp⟩

/-- Throwing writes nothing. -/
theorem Step.appends_throw {α : Type} (P : StoreWrite → Prop) (e : JSError) :
    Step.appends P (Step.throw e : Step α) :=
  fun s => ⟨[], by simp [Step.throw], by simp⟩

/-- A store write appends at most the write itself. -/
theorem Step.appends_storeWrite (P : StoreWrite → Prop) (run : MonitoringRun) (w : StoreWrite)
    (hw : P w) : Step.appends P (storeWrite run w) := by
  intro s
  rcases h : run.writeOutcome s.calls with _ | e
  · exact ⟨[w], by rw [storeWrite_ok run w s h], by simpa using hw⟩
  · exact ⟨[], by rw [storeWrite_fail run w s e h]; simp, by simp⟩

/-- Sequencing keeps the property of the writes. -/
theorem Step.appends_bind {α β : Type} (P : StoreWrite → Prop) (m : Step α) (f : α → Step β)
    (hm : Step.appends P m) (hf : ∀ a, Step.appends P (f a)) :
    Step.appends P (m >>= f) := by
  intro s
  obtain ⟨ws, h1, h2⟩ := hm s
  rw [Step.bind_eq]
  unfold Step.bind
  rcases hms : m s with ⟨_ | a, s1⟩
  · rw [hms] at h1
    exact ⟨ws, h1, h2⟩
  · rw [hms] at h1
    obtain ⟨ws2, h3, h4⟩ := hf a s1
    refine ⟨ws ++ ws2, ?_, ?_⟩
    · simp only [h3]
      simp only at h1
      rw [h1, List.append_assoc]
    · intro w hw
      rcases List.mem_append.mp hw with hw | hw
      · exact h2 w hw
      · exact h4 w hw

/-- A `try`/`catch` keeps the property of the writes. -/
theorem Step.appends_tryCatch {α : Type} (P : StoreWrite → Prop) (body : Step α)
    (handler : JSError → Step α) (hb : Step.appends P body)
    (hh : ∀ e, Step.appends P (handler e)) :
    Step.appends P (Step.tryCatch body handler) := by
  intro s
  obtain ⟨ws, h1, h2⟩ := hb s
  unfold Step.tryCatch
  rcases hms : body s with ⟨e | a, s1⟩
  · rw [hms] at h1
    obtain ⟨ws2, h3, h4⟩ := hh e s1
    refine ⟨ws ++ ws2, ?_, ?_⟩
    · simp only [h3]
      simp only at h1
      rw [h1, List.append_assoc]
    · intro w hw
      rcases List.mem_append.mp hw with hw | hw
      · exact h2 w hw
      · exact h4 w hw
  · rw [hms] at h1
    exact ⟨ws, h1, h2⟩

/-- Every row that `generateAlerts` writes carries the tenant and the agent
it was called with. -/
theorem generateAlerts_appends (run : MonitoringRun) (tenantId agentId taskId : String)
    (alerts : List Alert) :
    Step.appends (StoreWrite.ownedBy tenantId (some agentId) taskId)
      (generateAlerts run tenantId agentId alerts) := by
  induction alerts with
  | nil => exact Step.appends_pure _ _
  | cons a as ih =>
    unfold generateAlerts
    exact Step.appends_bind _ _ _
      (Step.appends_storeWrite _ _ _ ⟨rfl, rfl⟩) (fun _ => ih)

/-- The work performs no store write. -/
theorem monitoringWork_appends (P : StoreWrite → Prop) (run : MonitoringRun) :
    Step.appends P (monitoringWork run) := by
  unfold monitoringWork
  rcases run.reads with e | r
  · exact Step.appends_throw _ _
  · exact Step.appends_pure _ _

/-- Every write of the body of the handler is a row of the tenant and the
agent of the request, or an update of the created task. -/
theorem performMonitoringBody_appends (run : MonitoringRun) :
    Step.appends (StoreWrite.ownedBy run.tenantId run.agent_id run.taskId)
      (performMonitoringBody run) := by
  unfold performMonitoringBody
  rcases hid : run.agent_id with _ | agent_id
  · exact Step.appends_pure _ _
  by_cases hne : agent_id = ""
  · simp only [hne, if_true]
    exact Step.appends_pure _ _
  simp only [hne, if_false]
  refine Step.appends_bind _ _ _ (Step.appends_storeWrite _ _ _ ⟨rfl, rfl⟩) (fun _ => ?_)
  refine Step.appends_tryCatch _ _ _ ?_ (fun e => ?_)
  · refine Step.appends_bind _ _ _ (monitoringWork_appends _ _) (fun result => ?_)
    refine Step.appends_bind _ _ _ (Step.appends_storeWrite _ _ _ rfl) (fun _ => ?_)
    refine Step.appends_bind _ _ _ (Step.appends_storeWrite _ _ _ ⟨rfl, rfl⟩) (fun _ => ?_)
    refine Step.appends_bind _ _ _ (Step.appends_storeWrite _ _ _ ⟨rfl, rfl⟩) (fun _ => ?_)
    by_cases hal : result.alerts.length > 0
    · simp only [hal, if_true]
      exact Step.appends_bind _ _ _
        (generateAlerts_appends run run.tenantId agent_id run.taskId result.alerts)
        (fun _ => Step.appends_pure _ _)
    · simp only [hal, if_false]
      exact Step.appends_bind _ _ _ (Step.appends_pure _ _) (fun _ => Step.appends_pure _ _)
  · refine Step.appends_bind _ _ _ (Step.appends_storeWrite _ _ _ rfl) (fun _ => ?_)
    refine Step.appends_bind _ _ _ (Step.appends_storeWrite _ _ _ ⟨rfl, rfl⟩) (fun _ => ?_)
    refine Step.appends_bind _ _ _ (Step.appends_storeWrite _ _ _ ⟨rfl, rfl⟩) (fun _ => ?_)
    exact Step.appends_throw _ _

/-- C17: in every run, every row written by `performMonitoring` (the created
task, the metric, the info or error log and every alert log) carries the
tenant of the requester and the agent_id of the request body; the task
updates address the created task. -/
theorem written_rows_carry_tenant_and_agent (run : MonitoringRun) :
    ∀ w ∈ (performMonitoring run).2.writes,
      StoreWrite.ownedBy run.tenantId run.agent_id run.taskId w := by
  obtain ⟨ws, h1, h2⟩ := performMonitoringBody_appends run { writes := [], calls := 0 }
  have hw : (performMonitoring run).2.writes = ws := by
    unfold performMonitoring
    rcases hb : performMonitoringBody run { writes := [], calls := 0 } with ⟨e | a, s1⟩ <;>
      simpa [hb] using h1
  rw [hw]
  exact h2

/-- Witness of C17: the metric row written by the sample run whose work
throws. -/
theorem written_rows_carry_tenant_and_agent_witness :
    StoreWrite.ownedBy runWorkThrows.tenantId runWorkThrows.agent_id runWorkThrows.taskId
      (StoreWrite.recordMetrics
        { tenant_id := "tenant"
          agent_id := "a1"
          metric_name := "performance_monitoring_error"
          metric_value := 0
          processing_time := 53
          success := false
          metadata_monitoring_type := none
          metadata_error := some "connection lost" }) :=
  written_rows_carry_tenant_and_agent runWorkThrows _ (by
    rw [performMonitoring_of_work_throws runWorkThrows "a1" sampleError rfl (by decide) rfl
      (fun _ => rfl)]
    exact List.mem_cons_of_mem _ (List.mem_cons_of_mem _ (List.mem_cons_self _ _)))

/-! ## Alerts against deductions, activity windows, recommendations -/

/-- The snapshot of `reportSomeFailures`: error rate 3/20. -/
theorem reportSomeFailures_error_rate :
    reportSomeFailures.performance_metrics.error_rate = JSNum.fin (3 / 20) := by
  simp [reportSomeFailures, performComprehensiveMonitoring, performanceOf, tasksSomeFailures,
    sampleTask, JSNum.div]

/-- The snapshot of `reportSomeFailures`: average processing time 2000. -/
theorem reportSomeFailures_average :
    reportSomeFailures.performance_metrics.average_processing_time = JSNum.fin 2000 := by
  simp [reportSomeFailures, performComprehensiveMonitoring, performanceOf, sampleMetric,
    JSNum.div, JSNum.orElse, JSNum.truthy]

/-- An alert is pushed only under a condition that also deducts at least 10
points. -/
theorem healthScoreOf_le_of_alerts_ne_nil (p : Performance) (h : alertsOf p ≠ []) :
    healthScoreOf p ≤ 90 := by
  rw [alertsOf_eq] at h
  rw [healthScoreOf_eq]
  by_cases h1 : p.error_rate.gt (JSNum.fin (2 / 10)) = true
  · rw [if_pos h1]; split_ifs <;> norm_num
  by_cases h2 : p.average_processing_time.gt (JSNum.fin 10000) = true
  · rw [if_pos h2]; split_ifs <;> norm_num
  by_cases h3 : p.tasks_last_24h = 0
  · rw [if_pos h3]; split_ifs <;> norm_num
  · rw [if_neg h1, if_neg h2, if_neg h3] at h
    exact absurd rfl h

/-- C28, as stated, fails: with error_rate 0.15 the deduction of 20 applies
and the score is 80, although the alerts list is empty. -/
theorem deduction_without_alert :
    reportSomeFailures.alerts = [] ∧ reportSomeFailures.overall_health_score = 80 := by
  have he := reportSomeFailures_error_rate
  have ha := reportSomeFailures_average
  have ht : reportSomeFailures.performance_metrics.tasks_last_24h = 20 := by decide
  have hl : reportSomeFailures.performance_metrics.error_logs = 0 := by decide
  constructor
  · show alertsOf reportSomeFailures.performance_metrics = []
    rw [alertsOf_eq, he, ha, ht]
    simp only [JSNum.gt_fin_fin]
    norm_num
  · show max 0 (healthScoreOf reportSomeFailures.performance_metrics) = 80
    rw [healthScoreOf_eq, he, ha, ht, hl]
    simp only [JSNum.gt_fin_fin]
    norm_num

/-- C28, amended: when no deduction applies, that is when the health score is
100, the alerts list is empty; and a non-empty alerts list goes with a score
of at most 90. The converse does not hold: the deductions for error_rate >
0.1, average_processing_time > 5000 and error_logs > 5 raise no alert. -/
theorem no_deduction_implies_no_alert (agent : Agent) (recentTasks : List Task)
    (recentMetrics : List Metric) (recentLogs : List LogEntry) (now : Int) :
    ((performComprehensiveMonitoring agent recentTasks recentMetrics recentLogs
        now).overall_health_score = 100 →
      (performComprehensiveMonitoring agent recentTasks recentMetrics recentLogs
        now).alerts = []) ∧
    ((performComprehensiveMonitoring agent recentTasks recentMetrics recentLogs
        now).alerts ≠ [] →
      (performComprehensiveMonitoring agent recentTasks recentMetrics recentLogs
        now).overall_health_score ≤ 90) := by
  rw [performComprehensiveMonitoring_eq]
  generalize performanceOf recentTasks recentMetrics recentLogs _ _ = p
  have key : alertsOf p ≠ [] → max 0 (healthScoreOf p) ≤ 90 := fun h =>
    max_le (by norm_num) (healthScoreOf_le_of_alerts_ne_nil p h)
  refine ⟨fun h => ?_, key⟩
  by_contra hne
  have := key hne
  simp only at h
  omega

/-- C29: the snapshot satisfies tasks_last_24h <= tasks_last_7d <=
total_tasks, where tasks_last_24h and tasks_last_7d count the tasks whose
created_at is strictly later than now minus 24 hours and now minus 7 days. -/
theorem activity_windows_nested (agent : Agent) (recentTasks : List Task)
    (recentMetrics : List Metric) (recentLogs : List LogEntry) (now : Int) :
    (performComprehensiveMonitoring agent recentTasks recentMetrics recentLogs
        now).performance_metrics.tasks_last_24h =
        recentTasks.countP (fun t => decide (now - 24 * 3600000 < t.created_at)) ∧
      (performComprehensiveMonitoring agent recentTasks recentMetrics recentLogs
        now).performance_metrics.tasks_last_7d =
        recentTasks.countP (fun t => decide (now - 7 * 24 * 3600000 < t.created_at)) ∧
      (performComprehensiveMonitoring agent recentTasks recentMetrics recentLogs
        now).performance_metrics.tasks_last_24h ≤
        (performComprehensiveMonitoring agent recentTasks recentMetrics recentLogs
          now).performance_metrics.tasks_last_7d ∧
      (performComprehensiveMonitoring agent recentTasks recentMetrics recentLogs
        now).performance_metrics.tasks_last_7d ≤
        (performComprehensiveMonitoring agent recentTasks recentMetrics recentLogs
          now).performance_metrics.total_tasks := by
  rw [performComprehensiveMonitoring_eq]
  simp only [performanceOf, ← List.countP_eq_length_filter]
  refine ⟨?_, ?_, ?_, List.countP_le_length _⟩
  · congr 1
  · congr 1
  · apply List.countP_mono_left
    intro t _ h
    simp only [gt_iff_lt, decide_eq_true_eq] at h ⊢
    omega

/-- C30: in every returned report a non-empty alerts list comes with a
non-empty recommendations list, and the recommendation to restart or
reconfigure the agent is present iff the health status is critical. -/
theorem alerts_imply_recommendations (agent : Agent) (recentTasks : List Task)
    (recentMetrics : List Metric) (recentLogs : List LogEntry) (now : Int) :
    ((performComprehensiveMonitoring agent recentTasks recentMetrics recentLogs
        now).alerts ≠ [] →
      (performComprehensiveMonitoring agent recentTasks recentMetrics recentLogs
        now).recommendations ≠ []) ∧
    ("Consider agent restart or reconfiguration" ∈
        (performComprehensiveMonitoring agent recentTasks recentMetrics recentLogs
          now).recommendations ↔
      (performComprehensiveMonitoring agent recentTasks recentMetrics recentLogs
        now).health_status = "critical") := by
  rw [performComprehensiveMonitoring_eq]
  generalize performanceOf recentTasks recentMetrics recentLogs _ _ = p
  simp only
  rw [generateRecommendations_eq, alertsOf_eq]
  constructor
  · intro h
    by_cases h1 : p.error_rate.gt (JSNum.fin (2 / 10)) = true
    · have := JSNum.gt_of_gt_of_le p.error_rate (1 / 10) (2 / 10) (by norm_num) h1
      rw [if_pos this]; simp
    by_cases h2 : p.average_processing_time.gt (JSNum.fin 10000) = true
    · have := JSNum.gt_of_gt_of_le p.average_processing_time 5000 10000 (by norm_num) h2
      rw [if_pos this]; simp
    by_cases h3 : p.tasks_last_24h = 0
    · rw [if_pos h3]; simp
    · rw [if_neg h1, if_neg h2, if_neg h3] at h
      exact absurd rfl h
  · generalize healthScoreOf p = sc
    have e1 : ("healthy" : String) ≠ "critical" := by decide
    have e2 : ("warning" : String) ≠ "critical" := by decide
    have d1 : ("Consider agent restart or reconfiguration" : String) ≠
        "Review error logs and fix recurring issues" := by decide
    have d2 : ("Consider agent restart or reconfiguration" : String) ≠
        "Optimize processing algorithms or increase resources" := by decide
    have d3 : ("Consider agent restart or reconfiguration" : String) ≠
        "Check agent configuration and input sources" := by decide
    by_cases hs : sc < 60
    · have h80 : ¬ sc ≥ 80 := by omega
      have h60 : ¬ sc ≥ 60 := by omega
      simp [hs, h80, h60]
    · have h60 : sc ≥ 60 := by omega
      rw [if_neg hs]
      by_cases h80 : sc ≥ 80
      · simp only [h80, if_true, e1, iff_false]
        split_ifs <;> simp [d1, d2, d3]
      · simp only [h80, h60, if_true, if_false, e2, iff_false]
        split_ifs <;> simp [d1, d2, d3]

/-- Witness of C28, amended: the report with error_rate 0.05, average 2000 ms
and five recent tasks has score 100 and no alert. -/
theorem no_deduction_implies_no_alert_witness : reportAllGood.alerts = [] :=
  (no_deduction_implies_no_alert sampleAgent tasksAllGood [sampleMetric 2000] [] sampleNow).1
    (by
      show max 0 (healthScoreOf reportAllGood.performance_metrics) = 100
      have ht : reportAllGood.performance_metrics.tasks_last_24h = 5 := by decide
      have hl : reportAllGood.performance_metrics.error_logs = 0 := by decide
      rw [healthScoreOf_eq, reportAllGood_error_rate, reportAllGood_average, ht, hl]
      simp only [JSNum.gt_fin_fin]
      norm_num)

/-- Witness of C30: the report with three alerts has recommendations. -/
theorem alerts_imply_recommendations_witness : reportAllBad.recommendations ≠ [] :=
  (alerts_imply_recommendations sampleAgent tasksAllBad [sampleMetric 12000] logsSixErrors
    sampleNow).1
    (by
      show alertsOf reportAllBad.performance_metrics ≠ []
      have ht : reportAllBad.performance_metrics.tasks_last_24h = 0 := by decide
      rw [alertsOf_eq, if_pos ht]
      simp)

/-! ## Sorting: auxiliary facts -/

/-- Inserting into a sorted list keeps it sorted, when the relation is total
and transitive on the elements at hand. -/
theorem pairwise_orderedInsert_of_local {α : Type} (r : α → α → Prop) [DecidableRel r]
    (a : α) (l : List α) (hs : l.Pairwise r) (htot : ∀ b ∈ l, r a b ∨ r b a)
    (htr : ∀ b ∈ l, ∀ c ∈ l, r a b → r b c → r a c) :
    (l.orderedInsert r a).Pairwise r := by
  induction l with
  | nil => simp
  | cons b t ih =>
    rw [List.pairwise_cons] at hs
    by_cases hab : r a b
    · rw [List.orderedInsert, if_pos hab, List.pairwise_cons, List.pairwise_cons]
      refine ⟨?_, hs⟩
      intro c hc
      rcases List.mem_cons.mp hc with rfl | hc
      · exact hab
      · exact htr b (List.mem_cons_self _ _) c (List.mem_cons_of_mem _ hc) hab (hs.1 c hc)
    · rw [List.orderedInsert, if_neg hab, List.pairwise_cons]
      refine ⟨?_, ih hs.2 (fun c hc => htot c (List.mem_cons_of_mem _ hc))
        (fun c hc d hd => htr c (List.mem_cons_of_mem _ hc) d (List.mem_cons_of_mem _ hd))⟩
      intro c hc
      rcases (List.mem_orderedInsert r).mp hc with rfl | hc
      · exact (htot b (List.mem_cons_self _ _)).resolve_left hab
      · exact hs.1 c hc

/-- Insertion sort sorts, when the relation is total and transitive on the
elements of the list. -/
theorem pairwise_insertionSort_of_local {α : Type} (r : α → α → Prop) [DecidableRel r]
    (l : List α) (htot : ∀ a ∈ l, ∀ b ∈ l, r a b ∨ r b a)
    (htr : ∀ a ∈ l, ∀ b ∈ l, ∀ c ∈ l, r a b → r b c → r a c) :
    (l.insertionSort r).Pairwise r := by
  induction l with
  | nil => simp
  | cons a t ih =>
    rw [List.insertionSort]
    have hmem : ∀ x, x ∈ t.insertionSort r → x ∈ t := fun x hx =>
      (List.mem_insertionSort r).mp hx
    refine pairwise_orderedInsert_of_local r a _
      (ih (fun x hx y hy => htot x (List.mem_cons_of_mem _ hx) y (List.mem_cons_of_mem _ hy))
        (fun x hx y hy z hz => htr x (List.mem_cons_of_mem _ hx) y (List.mem_cons_of_mem _ hy)
          z (List.mem_cons_of_mem _ hz)))
      (fun b hb => htot a (List.mem_cons_self _ _) b (List.mem_cons_of_mem _ (hmem b hb)))
      (fun b hb c hc => htr a (List.mem_cons_self _ _) b (List.mem_cons_of_mem _ (hmem b hb))
        c (List.mem_cons_of_mem _ (hmem c hc)))

/-- On numbers that are not `NaN`, the comparator `b - a` is positive exactly
when `a < b`, that is exactly when `b <= a` fails. -/
theorem JSNum.sub_gt_zero_eq_false_iff (a b : JSNum) (ha : a.isNaN = false)
    (hb : b.isNaN = false) :
    (b.sub a).gt (JSNum.fin 0) = false ↔ b.le a = true := by
  cases a <;> cases b <;>
    simp_all [JSNum.sub, JSNum.gt, JSNum.lt, JSNum.le, JSNum.isNaN]

/-- The relation `<=` is transitive. -/
theorem JSNum.le_transitive (a b c : JSNum) (hab : a.le b = true) (hbc : b.le c = true) :
    a.le c = true := by
  cases a <;> cases b <;> cases c <;> simp_all [JSNum.le]
  exact le_trans hab hbc

/-- The relation `<=` is total on numbers that are not `NaN`. -/
theorem JSNum.le_or_le (a b : JSNum) (ha : a.isNaN = false) (hb : b.isNaN = false) :
    a.le b = true ∨ b.le a = true := by
  cases a <;> cases b <;> simp_all [JSNum.le, JSNum.isNaN]
  exact le_total _ _

/-- A number that is `>=` some number is not `NaN`. -/
theorem JSNum.isNaN_eq_false_of_ge (a b : JSNum) (h : a.ge b = true) : a.isNaN = false := by
  cases a <;> cases b <;> simp_all [JSNum.ge, JSNum.le, JSNum.isNaN]

/-! ## The recommendation engine -/

/-- What `scoreItems` returns: one element per item, in order, with the
similarity of that item and the flag `similarity >= threshold`. -/
theorem scoreItems_ok {E : Type} (getEmbeddings : Option String → Except JSError E)
    (cosineSimilarity : E → E → JSNum) (queryEmbedding : E) (threshold : JSNum)
    (items : List Item) (scored : List ScoredItem)
    (h : scoreItems getEmbeddings cosineSimilarity queryEmbedding threshold items =
      Except.ok scored) :
    scored.map ScoredItem.item = items ∧
      ∀ s ∈ scored,
        (∃ e, getEmbeddings s.item.textOrContent = Except.ok e ∧
          s.similarity = cosineSimilarity queryEmbedding e) ∧
        s.relevant = s.similarity.ge threshold := by
  induction items generalizing scored with
  | nil =>
    simp only [scoreItems, Except.ok.injEq] at h
    subst h
    simp
  | cons item items ih =>
    unfold scoreItems at h
    rcases he : getEmbeddings item.textOrContent with e | ie
    · rw [he] at h; cases h
    · rw [he] at h
      rcases hr : scoreItems getEmbeddings cosineSimilarity queryEmbedding threshold items
        with e | rest
      · rw [hr] at h; cases h
      · rw [hr] at h
        simp only [Except.ok.injEq] at h
        subst h
        obtain ⟨h1, h2⟩ := ih rest hr
        refine ⟨by simp [h1], ?_⟩
        intro s hs
        rcases List.mem_cons.mp hs with rfl | hs
        · exact ⟨⟨ie, he, rfl⟩, rfl⟩
        · exact h2 s hs

/-- When every embedding call succeeds, `scoreItems` returns. -/
theorem scoreItems_returns {E : Type} (getEmbeddings : Option String → Except JSError E)
    (cosineSimilarity : E → E → JSNum) (queryEmbedding : E) (threshold : JSNum)
    (items : List Item)
    (h : ∀ item ∈ items, ∃ e, getEmbeddings item.textOrContent = Except.ok e) :
    ∃ scored, scoreItems getEmbeddings cosineSimilarity queryEmbedding threshold items =
      Except.ok scored := by
  induction items with
  | nil => exact ⟨[], rfl⟩
  | cons item items ih =>
    obtain ⟨e, he⟩ := h item (List.mem_cons_self _ _)
    obtain ⟨rest, hr⟩ := ih (fun i hi => h i (List.mem_cons_of_mem _ hi))
    exact ⟨_, by rw [scoreItems, he, hr]⟩

/-- The sort of `findSimilarItems` orders by descending similarity, when no
similarity in the list is `NaN`. -/
theorem jsSort_similarity_descending (l : List ScoredItem)
    (h : ∀ s ∈ l, s.similarity.isNaN = false) :
    (jsSort (fun a b : ScoredItem => b.similarity.sub a.similarity) l).Pairwise
      (fun a b => b.similarity.le a.similarity = true) := by
  have hsorted := pairwise_insertionSort_of_local
    (fun a b : ScoredItem => (b.similarity.sub a.similarity).gt (JSNum.fin 0) = false) l
    (fun a ha b hb => by
      show (b.similarity.sub a.similarity).gt (JSNum.fin 0) = false ∨
        (a.similarity.sub b.similarity).gt (JSNum.fin 0) = false
      rw [JSNum.sub_gt_zero_eq_false_iff _ _ (h a ha) (h b hb),
        JSNum.sub_gt_zero_eq_false_iff _ _ (h b hb) (h a ha)]
      exact JSNum.le_or_le _ _ (h b hb) (h a ha))
    (fun a ha b hb c hc hab hbc => by
      show (c.similarity.sub a.similarity).gt (JSNum.fin 0) = false
      have hab1 : (b.similarity.sub a.similarity).gt (JSNum.fin 0) = false := hab
      have hbc1 : (c.similarity.sub b.similarity).gt (JSNum.fin 0) = false := hbc
      rw [JSNum.sub_gt_zero_eq_false_iff _ _ (h a ha) (h b hb)] at hab1
      rw [JSNum.sub_gt_zero_eq_false_iff _ _ (h b hb) (h c hc)] at hbc1
      rw [JSNum.sub_gt_zero_eq_false_iff _ _ (h a ha) (h c hc)]
      exact JSNum.le_transitive _ _ _ hbc1 hab1)
  refine List.Pairwise.imp_of_mem ?_ hsorted
  intro a b ha hb hab
  have ha1 : a ∈ l := (List.mem_insertionSort _).mp ha
  have hb1 : b ∈ l := (List.mem_insertionSort _).mp hb
  exact (JSNum.sub_gt_zero_eq_false_iff _ _ (h a ha1) (h b hb1)).mp hab

/-- What `findSimilarItems` returns: the scored items whose similarity is >=
threshold, in descending order of similarity, and their number. -/
theorem findSimilarItems_ok {E : Type}
    (getEmbeddings : Option String → Except JSError E) (cosineSimilarity : E → E → JSNum)
    (query : String) (items : List Item) (threshold : Option JSNum) (timestamp : Int)
    (r : SimilarItems)
    (h : findSimilarItems getEmbeddings cosineSimilarity query items threshold timestamp =
      Except.ok r) :
    ∃ (queryEmbedding : E) (scored : List ScoredItem),
      getEmbeddings (some query) = Except.ok queryEmbedding ∧
      scored.map ScoredItem.item = items ∧
      (∀ s ∈ scored, ∃ e, getEmbeddings s.item.textOrContent = Except.ok e ∧
        s.similarity = cosineSimilarity queryEmbedding e) ∧
      r.recommendations.Perm
        (scored.filter (fun s => s.similarity.ge (threshold.getD (JSNum.fin (7 / 10))))) ∧
      (∀ s ∈ scored, ∀ q, s.similarity = JSNum.fin q →
        threshold.getD (JSNum.fin (7 / 10)) = JSNum.fin q → s ∈ r.recommendations) ∧
      r.recommendations.Pairwise (fun a b => b.similarity.le a.similarity = true) ∧
      r.total = r.recommendations.length := by
  unfold findSimilarItems at h
  rcases hq : getEmbeddings (some query) with e | queryEmbedding
  · rw [hq] at h; cases h
  rw [hq] at h
  rcases hs : scoreItems getEmbeddings cosineSimilarity queryEmbedding
    (threshold.getD (JSNum.fin (7 / 10))) items with e | scored
  · simp only [hs] at h; cases h
  simp only [hs, Except.ok.injEq] at h
  subst h
  obtain ⟨h1, h2⟩ := scoreItems_ok getEmbeddings cosineSimilarity queryEmbedding _ items
    scored hs
  have hfilter : scored.filter (fun item => item.relevant) =
      scored.filter (fun s => s.similarity.ge (threshold.getD (JSNum.fin (7 / 10)))) :=
    List.filter_congr (fun s hmem => (h2 s hmem).2)
  have hperm : (jsSort (fun a b : ScoredItem => b.similarity.sub a.similarity)
      (scored.filter (fun item => item.relevant))).Perm
      (scored.filter (fun s => s.similarity.ge (threshold.getD (JSNum.fin (7 / 10))))) := by
    rw [← hfilter]
    exact List.perm_insertionSort _ _
  refine ⟨queryEmbedding, scored, rfl, h1, fun s hs => (h2 s hs).1, hperm, ?_, ?_, rfl⟩
  · intro s hs q hsq hthr
    refine hperm.mem_iff.mpr (List.mem_filter.mpr ⟨hs, ?_⟩)
    rw [hsq, hthr]
    simp [JSNum.ge, JSNum.le]
  · apply jsSort_similarity_descending
    intro s hs
    rw [hfilter] at hs
    exact JSNum.isNaN_eq_false_of_ge _ _ (List.mem_filter.mp hs).2

/-- When the embedding calls succeed, `findSimilarItems` returns. -/
theorem findSimilarItems_returns {E : Type}
    (getEmbeddings : Option String → Except JSError E) (cosineSimilarity : E → E → JSNum)
    (query : String) (items : List Item) (threshold : Option JSNum) (timestamp : Int)
    (hq : ∃ e, getEmbeddings (some query) = Except.ok e)
    (hi : ∀ item ∈ items, ∃ e, getEmbeddings item.textOrContent = Except.ok e) :
    ∃ r, findSimilarItems getEmbeddings cosineSimilarity query items threshold timestamp =
      Except.ok r := by
  obtain ⟨qe, hqe⟩ := hq
  obtain ⟨scored, hs⟩ := scoreItems_returns getEmbeddings cosineSimilarity qe
    (threshold.getD (JSNum.fin (7 / 10))) items hi
  simp only [findSimilarItems, hqe, hs]
  exact ⟨_, rfl⟩

/-- The sample call of `findSimilarItems` with threshold 0.7 returns the item
of similarity 0.9 and then the item of similarity exactly 0.7. -/
theorem sampleItems_findSimilarItems :
    findSimilarItems sampleEmbeddings sampleSimilarity "q" sampleItems
        (some (JSNum.fin (7 / 10))) 0 = Except.ok sampleSimilarItems := by
  simp [findSimilarItems, scoreItems, sampleEmbeddings, sampleSimilarity, sampleItems,
    sampleSimilarItems, Item.textOrContent, jsSort, JSNum.ge, JSNum.le, JSNum.sub, JSNum.gt,
    JSNum.lt]
  norm_num

/-- C24: when `findSimilarItems` returns, its recommendations are exactly the
items whose cosine similarity to the query is >= threshold, an item whose
similarity equals the threshold included, ordered by descending similarity,
and `total` is their number; and it returns whenever the embedding calls
succeed. -/
theorem findSimilarItems_returns_relevant_sorted {E : Type}
    (getEmbeddings : Option String → Except JSError E) (cosineSimilarity : E → E → JSNum)
    (query : String) (items : List Item) (threshold : Option JSNum) (timestamp : Int) :
    (∀ r, findSimilarItems getEmbeddings cosineSimilarity query items threshold timestamp =
        Except.ok r →
      ∃ (queryEmbedding : E) (scored : List ScoredItem),
        getEmbeddings (some query) = Except.ok queryEmbedding ∧
        scored.map ScoredItem.item = items ∧
        (∀ s ∈ scored, ∃ e, getEmbeddings s.item.textOrContent = Except.ok e ∧
          s.similarity = cosineSimilarity queryEmbedding e) ∧
        r.recommendations.Perm
          (scored.filter (fun s => s.similarity.ge (threshold.getD (JSNum.fin (7 / 10))))) ∧
        (∀ s ∈ scored, ∀ q, s.similarity = JSNum.fin q →
          threshold.getD (JSNum.fin (7 / 10)) = JSNum.fin q → s ∈ r.recommendations) ∧
        r.recommendations.Pairwise (fun a b => b.similarity.le a.similarity = true) ∧
        r.total = r.recommendations.length) ∧
    ((∃ e, getEmbeddings (some query) = Except.ok e) →
      (∀ item ∈ items, ∃ e, getEmbeddings item.textOrContent = Except.ok e) →
      ∃ r, findSimilarItems getEmbeddings cosineSimilarity query items threshold timestamp =
        Except.ok r) :=
  ⟨fun r h => findSimilarItems_ok getEmbeddings cosineSimilarity query items threshold
      timestamp r h,
    findSimilarItems_returns getEmbeddings cosineSimilarity query items threshold timestamp⟩

/-- Witness of C24: the sample call, in which one item has similarity exactly
equal to the threshold 0.7. -/
theorem findSimilarItems_returns_relevant_sorted_witness :
    ∃ (queryEmbedding : Option String) (scored : List ScoredItem),
      sampleEmbeddings (some "q") = Except.ok queryEmbedding ∧
      scored.map ScoredItem.item = sampleItems ∧
      (∀ s ∈ scored, ∃ e, sampleEmbeddings s.item.textOrContent = Except.ok e ∧
        s.similarity = sampleSimilarity queryEmbedding e) ∧
      sampleSimilarItems.recommendations.Perm
        (scored.filter
          (fun s => s.similarity.ge ((some (JSNum.fin (7 / 10))).getD (JSNum.fin (7 / 10))))) ∧
      (∀ s ∈ scored, ∀ q, s.similarity = JSNum.fin q →
        (some (JSNum.fin (7 / 10))).getD (JSNum.fin (7 / 10)) = JSNum.fin q →
        s ∈ sampleSimilarItems.recommendations) ∧
      sampleSimilarItems.recommendations.Pairwise
        (fun a b => b.similarity.le a.similarity = true) ∧
      sampleSimilarItems.total = sampleSimilarItems.recommendations.length :=
  (findSimilarItems_returns_relevant_sorted sampleEmbeddings sampleSimilarity "q" sampleItems
    (some (JSNum.fin (7 / 10))) 0).1 sampleSimilarItems sampleItems_findSimilarItems

/-! ## Objects used as maps: auxiliary facts -/

/-- A key without own property is not among the keys. -/
theorem JSObject.get_eq_none_iff {α : Type} (o : JSObject α) (k : PropertyKey) :
    JSObject.get o k = none ↔ k ∉ o.map Prod.fst := by
  induction o with
  | nil => simp [JSObject.get]
  | cons p o ih =>
    obtain ⟨k1, v1⟩ := p
    by_cases h : k1 = k
    · simp [JSObject.get, h]
    · have h2 : ¬ k = k1 := fun e => h e.symm
      simp [JSObject.get, h, h2, ih]

/-- The value read under a key is a property of the object. -/
theorem JSObject.mem_of_get_eq_some {α : Type} (o : JSObject α) (k : PropertyKey) (v : α)
    (h : JSObject.get o k = some v) : (k, v) ∈ o := by
  induction o with
  | nil => simp [JSObject.get] at h
  | cons p o ih =>
    obtain ⟨k1, v1⟩ := p
    by_cases hk : k1 = k
    · simp only [JSObject.get, hk, if_true, Option.some.injEq] at h
      subst hk; subst h
      exact List.mem_cons_self _ _
    · simp only [JSObject.get, hk, if_false] at h
      exact List.mem_cons_of_mem _ (ih h)

/-- Assigning to a key without own property creates the property last. -/
theorem JSObject.set_of_get_eq_none {α : Type} (o : JSObject α) (k : PropertyKey) (v : α)
    (h : JSObject.get o k = none) : JSObject.set o k v = o ++ [(k, v)] := by
  induction o with
  | nil => rfl
  | cons p o ih =>
    obtain ⟨k1, v1⟩ := p
    by_cases hk : k1 = k
    · simp [JSObject.get, hk] at h
    · simp only [JSObject.get, hk, if_false] at h
      simp [JSObject.set, hk, ih h]

/-- Assigning to an existing key keeps the keys and their order. -/
theorem JSObject.keys_set_of_mem {α : Type} (o : JSObject α) (k : PropertyKey) (v : α)
    (h : k ∈ o.map Prod.fst) : (JSObject.set o k v).map Prod.fst = o.map Prod.fst := by
  induction o with
  | nil => simp at h
  | cons p o ih =>
    obtain ⟨k1, v1⟩ := p
    by_cases hk : k1 = k
    · simp [JSObject.set, hk]
    · have h2 : k ∈ o.map Prod.fst := by
        rcases List.mem_cons.mp h with h1 | h1
        · exact absurd h1.symm hk
        · exact h1
      simp [JSObject.set, hk, ih h2]

/-- The properties after an assignment: the assigned one, and the properties
of the other keys. -/
theorem JSObject.mem_set {α : Type} (o : JSObject α) (hn : (o.map Prod.fst).Nodup)
    (k : PropertyKey) (v : α) (k1 : PropertyKey) (v1 : α)
    (h : (k1, v1) ∈ JSObject.set o k v) :
    (k1 = k ∧ v1 = v) ∨ (k1 ≠ k ∧ (k1, v1) ∈ o) := by
  induction o with
  | nil =>
    simp only [JSObject.set, List.mem_singleton, Prod.mk.injEq] at h
    exact Or.inl h
  | cons p o ih =>
    obtain ⟨k2, v2⟩ := p
    rw [List.map_cons, List.nodup_cons] at hn
    by_cases hk : k2 = k
    · simp only [JSObject.set, hk, if_true, List.mem_cons, Prod.mk.injEq] at h
      rcases h with h | h
      · exact Or.inl h
      · refine Or.inr ⟨?_, List.mem_cons_of_mem _ h⟩
        intro e
        apply hn.1
        rw [hk, ← e]
        exact List.mem_map.mpr ⟨(k1, v1), h, rfl⟩
    · simp only [JSObject.set, hk, if_false, List.mem_cons, Prod.mk.injEq] at h
      rcases h with h | h
      · exact Or.inr ⟨by rw [h.1]; exact hk, by rw [h.1, h.2]; exact List.mem_cons_self _ _⟩
      · rcases ih hn.2 h with h1 | h1
        · exact Or.inl h1
        · exact Or.inr ⟨h1.1, List.mem_cons_of_mem _ h1.2⟩

/-- An empty object groups the empty list. -/
theorem Grouped.nil {M α : Type} (key : M → PropertyKey) (skip : M → Bool) (init : M → α)
    (step : α → M → α) : Grouped key skip init step [] ([] : JSObject α) := by
  refine ⟨by simp, ?_, ?_, by simp⟩
  · intro k v h; cases h
  · intro m h; cases h

/-- One turn of a grouping `forEach` keeps the object grouped. -/
theorem Grouped.step {M α : Type} (key : M → PropertyKey) (skip : M → Bool) (init : M → α)
    (step : α → M → α) (hskip : ∀ m m1, key m = key m1 → skip m = skip m1)
    (ms : List M) (o : JSObject α) (m : M) (h : Grouped key skip init step ms o) :
    Grouped key skip init step (ms ++ [m])
      (if skip m = true ∧ (JSObject.get o (key m)).isNone = true then o
        else JSObject.upsert o (key m) (init m) (fun v => step v m)) := by
  obtain ⟨hn, hval, hcomp, hord⟩ := h
  have F1 : ∀ k ∈ o.map Prod.fst, k ∈ ms.map key := by
    intro k hk
    obtain ⟨⟨k1, v⟩, hmem, rfl⟩ := List.mem_map.mp hk
    obtain ⟨m0, rest, hf, _, _⟩ := hval k1 v hmem
    have hm0 : m0 ∈ ms.filter (fun m => decide (key m = k1)) := by
      rw [hf]; exact List.mem_cons_self _ _
    rw [List.mem_filter] at hm0
    exact List.mem_map.mpr ⟨m0, hm0.1, by simpa using hm0.2⟩
  have F2 : ∀ k ∈ ms.map key,
      ((ms ++ [m]).map key).indexOf k = (ms.map key).indexOf k := by
    intro k hk
    rw [List.map_append, List.indexOf_append_of_mem hk]
  have hord1 : (o.map Prod.fst).Pairwise
      (fun a b => ((ms ++ [m]).map key).indexOf a < ((ms ++ [m]).map key).indexOf b) := by
    refine List.Pairwise.imp_of_mem ?_ hord
    intro a b ha hb hab
    rw [F2 a (F1 a ha), F2 b (F1 b hb)]
    exact hab
  have F3 : ∀ k, k ≠ key m →
      (ms ++ [m]).filter (fun m => decide (key m = k)) =
        ms.filter (fun m => decide (key m = k)) := by
    intro k hk
    have : ¬ key m = k := fun e => hk e.symm
    simp [List.filter_append, List.filter_cons, this]
  have hvalOld : ∀ k v, (k, v) ∈ o → k ≠ key m → ∃ m0 rest,
      (ms ++ [m]).filter (fun m => decide (key m = k)) = m0 :: rest ∧ skip m0 = false ∧
        v = (m0 :: rest).foldl step (init m0) := by
    intro k v hkv hk
    rw [F3 k hk]
    exact hval k v hkv
  by_cases hA : skip m = true ∧ (JSObject.get o (key m)).isNone = true
  · rw [if_pos hA]
    have hnot : key m ∉ o.map Prod.fst :=
      (JSObject.get_eq_none_iff o (key m)).mp (Option.isNone_iff_eq_none.mp hA.2)
    refine ⟨hn, ?_, ?_, hord1⟩
    · intro k v hkv
      refine hvalOld k v hkv ?_
      intro e
      exact hnot (e ▸ List.mem_map.mpr ⟨(k, v), hkv, rfl⟩)
    · intro m1 hm1 hs1
      rcases List.mem_append.mp hm1 with hm1 | hm1
      · exact hcomp m1 hm1 hs1
      · rw [List.mem_singleton] at hm1
        rw [hm1, hA.1] at hs1
        cases hs1
  · rw [if_neg hA]
    unfold JSObject.upsert
    rcases hget : JSObject.get o (key m) with _ | v0
    · -- a new key
      have hs : skip m = false := by
        cases hsm : skip m
        · rfl
        · exact absurd ⟨hsm, by rw [hget]; rfl⟩ hA
      have hnot : key m ∉ o.map Prod.fst := (JSObject.get_eq_none_iff o (key m)).mp hget
      have F4 : ∀ m1 ∈ ms, key m1 ≠ key m := by
        intro m1 hm1 e
        have hs1 : skip m1 = false := by rw [hskip m1 m e]; exact hs
        exact hnot (e ▸ hcomp m1 hm1 hs1)
      have hnotin : key m ∉ ms.map key := by
        intro hmem
        obtain ⟨m1, hm1, e⟩ := List.mem_map.mp hmem
        exact F4 m1 hm1 e
      simp only
      rw [JSObject.set_of_get_eq_none o (key m) _ hget]
      refine ⟨?_, ?_, ?_, ?_⟩
      · rw [List.map_append, List.map_singleton]
        refine List.Nodup.append hn (List.nodup_singleton _) ?_
        intro a ha hb
        rw [List.mem_singleton] at hb
        have hb1 : a = key m := hb
        exact hnot (hb1 ▸ ha)
      · intro k v hkv
        rcases List.mem_append.mp hkv with hkv | hkv
        · refine hvalOld k v hkv ?_
          intro e
          exact hnot (e ▸ List.mem_map.mpr ⟨(k, v), hkv, rfl⟩)
        · rw [List.mem_singleton, Prod.mk.injEq] at hkv
          obtain ⟨rfl, rfl⟩ := hkv
          refine ⟨m, [], ?_, hs, rfl⟩
          have hnil : ms.filter (fun m1 => decide (key m1 = key m)) = [] := by
            rw [List.filter_eq_nil_iff]
            intro m1 hm1
            simpa using F4 m1 hm1
          simp [List.filter_append, hnil]
      · intro m1 hm1 hs1
        rw [List.map_append, List.map_singleton]
        rcases List.mem_append.mp hm1 with hm1 | hm1
        · exact List.mem_append_left _ (hcomp m1 hm1 hs1)
        · rw [List.mem_singleton] at hm1
          rw [hm1]
          exact List.mem_append_right _ (List.mem_singleton_self _)
      · have hkeys : List.map Prod.fst (o ++ [(key m, step (init m) m)]) =
            List.map Prod.fst o ++ [key m] := by simp
        rw [hkeys, List.pairwise_append]
        refine ⟨hord1, List.pairwise_singleton _ _, ?_⟩
        intro a ha b hb
        rw [List.mem_singleton] at hb
        subst hb
        have hlen : ((ms ++ [m]).map key).indexOf (key m) = (ms.map key).length := by
          rw [List.map_append, List.map_singleton, List.indexOf_append_of_not_mem hnotin]
          simp
        rw [F2 a (F1 a ha), hlen]
        exact List.indexOf_lt_length.mpr (F1 a ha)
    · -- an existing key
      have hmem0 : (key m, v0) ∈ o := JSObject.mem_of_get_eq_some o (key m) v0 hget
      have hkey : key m ∈ o.map Prod.fst := List.mem_map.mpr ⟨(key m, v0), hmem0, rfl⟩
      simp only
      have hkeys := JSObject.keys_set_of_mem o (key m) (step v0 m) hkey
      refine ⟨by rw [hkeys]; exact hn, ?_, ?_, by rw [hkeys]; exact hord1⟩
      · intro k v hkv
        rcases JSObject.mem_set o hn (key m) (step v0 m) k v hkv with ⟨rfl, rfl⟩ | ⟨hk, hkv1⟩
        · obtain ⟨m0, rest, hf, hs0, hv0⟩ := hval (key m) v0 hmem0
          refine ⟨m0, rest ++ [m], ?_, hs0, ?_⟩
          · simp [List.filter_append, hf]
          · rw [hv0, ← List.cons_append, List.foldl_append]
            rfl
        · exact hvalOld k v hkv1 hk
      · intro m1 hm1 hs1
        rw [hkeys]
        rcases List.mem_append.mp hm1 with hm1 | hm1
        · exact hcomp m1 hm1 hs1
        · rw [List.mem_singleton] at hm1
          rw [hm1]
          exact hkey

/-- A grouping `forEach`, run from the empty object, leaves a grouped object. -/
theorem Grouped.foldl {M α : Type} (key : M → PropertyKey) (skip : M → Bool) (init : M → α)
    (step : α → M → α) (hskip : ∀ m m1, key m = key m1 → skip m = skip m1)
    (f : JSObject α → M → JSObject α)
    (hf : ∀ o m, f o m =
      if skip m = true ∧ (JSObject.get o (key m)).isNone = true then o
      else JSObject.upsert o (key m) (init m) (fun v => step v m))
    (ms : List M) : Grouped key skip init step ms (ms.foldl f []) := by
  induction ms using List.reverseRecOn with
  | nil => exact Grouped.nil key skip init step
  | append_singleton ms m ih =>
    rw [List.foldl_append, List.foldl_cons, List.foldl_nil, hf]
    exact Grouped.step key skip init step hskip ms _ m ih

/-- Reading a key just assigned gives the assigned value. -/
theorem JSObject.get_set_self {α : Type} (o : JSObject α) (k : PropertyKey) (v : α) :
    JSObject.get (JSObject.set o k v) k = some v := by
  induction o with
  | nil => simp [JSObject.set, JSObject.get]
  | cons p o ih =>
    obtain ⟨k1, v1⟩ := p
    by_cases hk : k1 = k
    · simp [JSObject.set, JSObject.get, hk]
    · simp [JSObject.set, JSObject.get, hk, ih]

/-- A second assignment to the same key overwrites the first. -/
theorem JSObject.set_set {α : Type} (o : JSObject α) (k : PropertyKey) (v w : α) :
    JSObject.set (JSObject.set o k v) k w = JSObject.set o k w := by
  induction o with
  | nil => simp [JSObject.set]
  | cons p o ih =>
    obtain ⟨k1, v1⟩ := p
    by_cases hk : k1 = k
    · simp [JSObject.set, hk]
    · simp [JSObject.set, hk, ih]

/-- A string that denotes an array index is the numeral of that index. -/
theorem toString_of_arrayIndex (s : String) (n : Nat) (h : arrayIndex? s = some n) :
    toString n = s := by
  unfold arrayIndex? at h
  rcases hp : parseDigits s.data 0 with _ | n1
  · rw [hp] at h; cases h
  · rw [hp] at h
    by_cases hc : n1 < 4294967295 ∧ toString n1 = s
    · simp only [hc, and_self, if_true, Option.some.injEq] at h
      rw [← h]
      exact hc.2
    · simp only [hc, if_false] at h
      cases h

/-- Distinct strings denote distinct property keys. -/
theorem PropertyKey.ofString_injective (s1 s2 : String)
    (h : PropertyKey.ofString s1 = PropertyKey.ofString s2) : s1 = s2 := by
  unfold PropertyKey.ofString at h
  rcases h1 : arrayIndex? s1 with _ | n1 <;> rcases h2 : arrayIndex? s2 with _ | n2 <;>
    rw [h1, h2] at h
  · exact PropertyKey.name.inj h
  · cases h
  · cases h
  · have hn : n1 = n2 := PropertyKey.index.inj h
    rw [← toString_of_arrayIndex s1 n1 h1, ← toString_of_arrayIndex s2 n2 h2, hn]

/-- A string that denotes no array index is a key that is no array index. -/
theorem PropertyKey.isIndex_ofString (s : String) (h : arrayIndex? s = none) :
    (PropertyKey.ofString s).isIndex = false := by
  unfold PropertyKey.ofString
  rw [h]
  rfl

/-- One turn of the `forEach` of `getTopPerformingAgents`, as an update of the
group of the agent. -/
theorem recordAgentMetric_eq (inherited : String → Bool) (o : JSObject AgentStats)
    (m : Metric) :
    recordAgentMetric inherited o m =
      if inherited m.agent_id = true ∧
          (JSObject.get o (PropertyKey.ofString m.agent_id)).isNone = true then o
      else JSObject.upsert o (PropertyKey.ofString m.agent_id)
        { agent_id := m.agent_id, total_operations := 0, successful_operations := 0
          total_processing_time := 0 }
        (fun v => v.record m) := by
  unfold recordAgentMetric JSObject.upsert
  rcases hget : JSObject.get o (PropertyKey.ofString m.agent_id) with _ | st
  · by_cases hi : inherited m.agent_id = true
    · simp [hi, hget]
    · simp [hi, hget, JSObject.get_set_self, JSObject.set_set]
  · simp [hget]

/-- One turn of the `forEach` of `calculatePerformanceTrends`, as an update of
the group of the hour. -/
theorem recordHourMetric_eq (localOffset : Int → Int) (o : JSObject HourStats) (m : Metric) :
    recordHourMetric localOffset o m =
      if (fun _ : Metric => false) m = true ∧
          (JSObject.get o (PropertyKey.index (getHours localOffset m.created_at))).isNone
            = true then o
      else JSObject.upsert o (PropertyKey.index (getHours localOffset m.created_at))
        { total := 0, successful := 0 } (fun v => v.record m) := by
  unfold recordHourMetric JSObject.upsert
  rcases hget : JSObject.get o (PropertyKey.index (getHours localOffset m.created_at))
    with _ | st
  · simp [hget, JSObject.get_set_self, JSObject.set_set]
  · simp [hget]

/-- The statistics of an agent after the metrics of a list were recorded. -/
theorem foldl_agentStats_record (l : List Metric) (st : AgentStats) :
    l.foldl AgentStats.record st =
      { agent_id := st.agent_id
        total_operations := st.total_operations + l.length
        successful_operations :=
          st.successful_operations + (l.filter (fun m => m.success)).length
        total_processing_time :=
          st.total_processing_time + (l.map Metric.processing_time).sum } := by
  induction l generalizing st with
  | nil => simp
  | cons m l ih =>
    rw [List.foldl_cons, ih]
    cases hm : m.success <;>
      simp [AgentStats.record, hm, List.filter_cons, Nat.add_assoc, Nat.add_comm 1, add_assoc]

/-- The statistics of an hour after the metrics of a list were recorded. -/
theorem foldl_hourStats_record (l : List Metric) (st : HourStats) :
    l.foldl HourStats.record st =
      { total := st.total + l.length
        successful := st.successful + (l.filter (fun m => m.success)).length } := by
  induction l generalizing st with
  | nil => simp
  | cons m l ih =>
    rw [List.foldl_cons, ih]
    cases hm : m.success <;>
      simp [HourStats.record, hm, List.filter_cons, Nat.add_assoc, Nat.add_comm 1]

/-- `Object.entries` lists the own properties, each once. -/
theorem JSObject.entries_perm {α : Type} (o : JSObject α) : (JSObject.entries o).Perm o := by
  unfold JSObject.entries
  exact (List.Perm.append_right _ (List.perm_insertionSort _ _)).trans
    (List.filter_append_perm _ o)

/-- Without array index keys, `Object.entries` follows the order of creation. -/
theorem JSObject.entries_of_no_index {α : Type} (o : JSObject α)
    (h : ∀ p ∈ o, p.1.isIndex = false) : JSObject.entries o = o := by
  unfold JSObject.entries
  have h1 : List.filter (fun p : PropertyKey × α => p.1.isIndex) o = [] := by
    rw [List.filter_eq_nil_iff]
    intro p hp
    simp [h p hp]
  have h2 : List.filter (fun p : PropertyKey × α => !p.1.isIndex) o = o := by
    rw [List.filter_eq_self]
    intro p hp
    simp [h p hp]
  rw [h1, h2]
  rfl

/-! ## The fleet report: auxiliary facts -/

/-- A sort by `b.key - a.key` orders by descending key, when no key in the
list is `NaN`. -/
theorem jsSort_descending {α : Type} (key : α → JSNum) (l : List α)
    (h : ∀ s ∈ l, (key s).isNaN = false) :
    (jsSort (fun a b : α => (key b).sub (key a)) l).Pairwise
      (fun a b => (key b).le (key a) = true) := by
  have hsorted := pairwise_insertionSort_of_local
    (fun a b : α => ((key b).sub (key a)).gt (JSNum.fin 0) = false) l
    (fun a ha b hb => by
      show ((key b).sub (key a)).gt (JSNum.fin 0) = false ∨
        ((key a).sub (key b)).gt (JSNum.fin 0) = false
      rw [JSNum.sub_gt_zero_eq_false_iff _ _ (h a ha) (h b hb),
        JSNum.sub_gt_zero_eq_false_iff _ _ (h b hb) (h a ha)]
      exact JSNum.le_or_le _ _ (h b hb) (h a ha))
    (fun a ha b hb c hc hab hbc => by
      show ((key c).sub (key a)).gt (JSNum.fin 0) = false
      have hab1 : ((key b).sub (key a)).gt (JSNum.fin 0) = false := hab
      have hbc1 : ((key c).sub (key b)).gt (JSNum.fin 0) = false := hbc
      rw [JSNum.sub_gt_zero_eq_false_iff _ _ (h a ha) (h b hb)] at hab1
      rw [JSNum.sub_gt_zero_eq_false_iff _ _ (h b hb) (h c hc)] at hbc1
      rw [JSNum.sub_gt_zero_eq_false_iff _ _ (h a ha) (h c hc)]
      exact JSNum.le_transitive _ _ _ hbc1 hab1)
  refine List.Pairwise.imp_of_mem ?_ hsorted
  intro a b ha hb hab
  have ha1 : a ∈ l := (List.mem_insertionSort _).mp ha
  have hb1 : b ∈ l := (List.mem_insertionSort _).mp hb
  exact (JSNum.sub_gt_zero_eq_false_iff _ _ (h a ha1) (h b hb1)).mp hab

/-- The comparator `x - x` is never positive. -/
theorem JSNum.sub_self_not_gt (x : JSNum) : (x.sub x).gt (JSNum.fin 0) = false := by
  cases x <;> simp [JSNum.sub, JSNum.gt, JSNum.lt]

/-- Inserting an element that precedes, in the order `Q`, every element of a
list keeps ties in the order `Q`. -/
theorem pairwise_orderedInsert_ties {α : Type} (r : α → α → Prop) [DecidableRel r]
    (Q : α → α → Prop) (a : α) (s : List α)
    (hs : s.Pairwise (fun x y => r y x → Q x y)) (ha : ∀ y ∈ s, Q a y) :
    (s.orderedInsert r a).Pairwise (fun x y => r y x → Q x y) := by
  induction s with
  | nil => simp
  | cons b t ih =>
    rw [List.pairwise_cons] at hs
    by_cases hab : r a b
    · rw [List.orderedInsert, if_pos hab, List.pairwise_cons, List.pairwise_cons]
      exact ⟨fun y hy _ => ha y hy, hs⟩
    · rw [List.orderedInsert, if_neg hab, List.pairwise_cons]
      refine ⟨?_, ih hs.2 (fun y hy => ha y (List.mem_cons_of_mem _ hy))⟩
      intro y hy
      rcases (List.mem_orderedInsert r).mp hy with rfl | hy
      · exact fun h => absurd h hab
      · exact hs.1 y hy

/-- Insertion sort is stable: elements that tie keep the order `Q` in which
the input list was. -/
theorem pairwise_insertionSort_ties {α : Type} (r : α → α → Prop) [DecidableRel r]
    (Q : α → α → Prop) (l : List α) (h : l.Pairwise Q) :
    (l.insertionSort r).Pairwise (fun x y => r y x → Q x y) := by
  induction l with
  | nil => simp
  | cons a t ih =>
    rw [List.pairwise_cons] at h
    rw [List.insertionSort]
    exact pairwise_orderedInsert_ties r Q a _ (ih h.2)
      (fun y hy => h.1 y ((List.mem_insertionSort r).mp hy))

/-- In a list without repetition the elements are in the order of their
first occurrence. -/
theorem pairwise_indexOf_of_nodup {α : Type} [DecidableEq α] (l : List α) (h : l.Nodup) :
    l.Pairwise (fun a b => l.indexOf a < l.indexOf b) := by
  induction l with
  | nil => simp
  | cons x t ih =>
    rw [List.nodup_cons] at h
    rw [List.pairwise_cons]
    constructor
    · intro b hb
      have hne : x ≠ b := fun e => h.1 (e ▸ hb)
      rw [List.indexOf_cons_self, List.indexOf_cons_ne _ hne]
      exact Nat.succ_pos _
    · refine List.Pairwise.imp_of_mem ?_ (ih h.2)
      intro a b ha hb hab
      have hna : x ≠ a := fun e => h.1 (e ▸ ha)
      have hnb : x ≠ b := fun e => h.1 (e ▸ hb)
      rw [List.indexOf_cons_ne _ hna, List.indexOf_cons_ne _ hnb]
      exact Nat.succ_lt_succ hab

/-- The position of the key of a string among the keys of a list of strings
is the position of the string in the list. -/
theorem indexOf_map_ofString (ids : List String) (id : String) :
    (ids.map PropertyKey.ofString).indexOf (PropertyKey.ofString id) = ids.indexOf id := by
  induction ids with
  | nil => rfl
  | cons x t ih =>
    by_cases hx : x = id
    · rw [hx, List.map_cons, List.indexOf_cons_self, List.indexOf_cons_self]
    · have hk : PropertyKey.ofString x ≠ PropertyKey.ofString id :=
        fun e => hx (PropertyKey.ofString_injective x id e)
      rw [List.map_cons, List.indexOf_cons_ne _ hk, List.indexOf_cons_ne _ hx, ih]

/-- The object `agentStats` built by `getTopPerformingAgents` is grouped by
agent. -/
theorem agentStats_grouped (inherited : String → Bool) (metrics : List Metric) :
    Grouped (fun m : Metric => PropertyKey.ofString m.agent_id)
      (fun m => inherited m.agent_id)
      (fun m => ({ agent_id := m.agent_id, total_operations := 0, successful_operations := 0
                   total_processing_time := 0 } : AgentStats))
      AgentStats.record metrics (metrics.foldl (recordAgentMetric inherited) []) :=
  Grouped.foldl _ _ _ _
    (fun m m1 h => by
      show inherited m.agent_id = inherited m1.agent_id
      rw [PropertyKey.ofString_injective _ _ h])
    (recordAgentMetric inherited) (recordAgentMetric_eq inherited) metrics

/-- Every property of `agentStats` holds the statistics of the metrics of one
agent, under the key of its id. -/
theorem agentStats_entry (inherited : String → Bool) (metrics : List Metric)
    (k : PropertyKey) (st : AgentStats)
    (h : (k, st) ∈ metrics.foldl (recordAgentMetric inherited) []) :
    k = PropertyKey.ofString st.agent_id ∧
      st.agent_id ∈ metrics.map Metric.agent_id ∧
      0 < st.total_operations ∧
      st.total_operations =
        (metrics.filter (fun m => decide (m.agent_id = st.agent_id))).length ∧
      st.successful_operations =
        ((metrics.filter (fun m => decide (m.agent_id = st.agent_id))).filter
          (fun m => m.success)).length ∧
      st.total_processing_time =
        ((metrics.filter (fun m => decide (m.agent_id = st.agent_id))).map
          Metric.processing_time).sum := by
  obtain ⟨m0, rest, hf, _, hv⟩ := (agentStats_grouped inherited metrics).2.1 k st h
  rw [foldl_agentStats_record] at hv
  have hm0 : m0 ∈ metrics.filter (fun m => decide (PropertyKey.ofString m.agent_id = k)) := by
    rw [hf]; exact List.mem_cons_self _ _
  rw [List.mem_filter] at hm0
  have hk : PropertyKey.ofString m0.agent_id = k := by simpa using hm0.2
  have hid : st.agent_id = m0.agent_id := by rw [hv]
  have hfilter : metrics.filter (fun m => decide (m.agent_id = st.agent_id)) = m0 :: rest := by
    rw [← hf]
    apply List.filter_congr
    intro m _
    rw [hid, ← hk]
    by_cases hm : m.agent_id = m0.agent_id
    · simp [hm]
    · have : PropertyKey.ofString m.agent_id ≠ PropertyKey.ofString m0.agent_id :=
        fun e => hm (PropertyKey.ofString_injective _ _ e)
      simp [hm, this]
  rw [hfilter]
  refine ⟨by rw [hid, hk], ?_, ?_, ?_, ?_, ?_⟩
  · rw [hid]
    exact List.mem_map.mpr ⟨m0, hm0.1, rfl⟩
  · rw [hv]; simp
  · rw [hv]; simp
  · rw [hv]; simp
  · rw [hv]; simp

/-- Every element that `getTopPerformingAgents` sorts comes from a property of
`agentStats`. -/
theorem mem_topAgents_candidates (inherited : String → Bool) (metrics : List Metric)
    (agents : List Agent) (e : TopAgent)
    (h : e ∈ (JSObject.values (metrics.foldl (recordAgentMetric inherited) [])).map
      (toTopAgent agents)) :
    ∃ k st, (k, st) ∈ metrics.foldl (recordAgentMetric inherited) [] ∧
      e = toTopAgent agents st := by
  obtain ⟨st, hst, rfl⟩ := List.mem_map.mp h
  obtain ⟨⟨k, st1⟩, hp, rfl⟩ := List.mem_map.mp hst
  exact ⟨k, st1, (JSObject.entries_perm _).mem_iff.mp hp, rfl⟩

/-- The agent ids of the elements that `getTopPerformingAgents` sorts are
pairwise distinct. -/
theorem nodup_topAgents_candidates (inherited : String → Bool) (metrics : List Metric)
    (agents : List Agent) :
    (((JSObject.values (metrics.foldl (recordAgentMetric inherited) [])).map
      (toTopAgent agents)).map TopAgent.agent_id).Nodup := by
  have hperm := JSObject.entries_perm (metrics.foldl (recordAgentMetric inherited) [])
  have hkeys : ((JSObject.entries (metrics.foldl (recordAgentMetric inherited) [])).map
      Prod.fst).Nodup :=
    (hperm.map Prod.fst).nodup_iff.mpr (agentStats_grouped inherited metrics).1
  have hmap : (JSObject.entries (metrics.foldl (recordAgentMetric inherited) [])).map Prod.fst =
      (((JSObject.values (metrics.foldl (recordAgentMetric inherited) [])).map
        (toTopAgent agents)).map TopAgent.agent_id).map PropertyKey.ofString := by
    unfold JSObject.values
    rw [List.map_map, List.map_map, List.map_map]
    apply List.map_congr_left
    intro p hp
    obtain ⟨k, st⟩ := p
    exact (agentStats_entry inherited metrics k st (hperm.mem_iff.mp hp)).1
  rw [hmap] at hkeys
  exact List.Nodup.of_map _ hkeys

/-- The success rate of every element that `getTopPerformingAgents` sorts is a
finite number. -/
theorem success_rate_topAgents_candidates (inherited : String → Bool) (metrics : List Metric)
    (agents : List Agent) (e : TopAgent)
    (h : e ∈ (JSObject.values (metrics.foldl (recordAgentMetric inherited) [])).map
      (toTopAgent agents)) :
    e.success_rate =
      JSNum.fin ((e.successful_operations : ℚ) / (e.total_operations : ℚ)) ∧
    e.average_processing_time =
      JSNum.fin (e.total_processing_time / (e.total_operations : ℚ)) := by
  obtain ⟨k, st, hmem, rfl⟩ := mem_topAgents_candidates inherited metrics agents e h
  have hpos := (agentStats_entry inherited metrics k st hmem).2.2.1
  have hne : (st.total_operations : ℚ) ≠ 0 := by
    exact_mod_cast (Nat.pos_iff_ne_zero.mp hpos)
  simp [toTopAgent, JSNum.div, hne]

/-! ## The fleet report: top performing agents -/

/-- C21, as stated, fails: two agents with the ids `2` and `1`, first met in
this order and both with success rate 1, are returned in the order `1`, `2`. -/
theorem ties_of_index_like_ids_reordered :
    (getTopPerformingAgents (fun _ => false)
        [fleetMetric "2" true 0, fleetMetric "1" true 0] []).map
        (fun e => (e.agent_id, e.success_rate)) =
      [("1", JSNum.fin 1), ("2", JSNum.fin 1)] ∧
    ([fleetMetric "2" true 0, fleetMetric "1" true 0].map Metric.agent_id) = ["2", "1"] := by
  constructor
  · simp [getTopPerformingAgents, recordAgentMetric, JSObject.get, JSObject.set,
      JSObject.values, JSObject.entries, toTopAgent, jsSort, fleetMetric, AgentStats.record,
      JSNum.div, JSNum.sub, JSNum.gt, JSNum.lt, PropertyKey.isIndex, PropertyKey.indexValue,
      show PropertyKey.ofString "2" = PropertyKey.index 2 from by decide,
      show PropertyKey.ofString "1" = PropertyKey.index 1 from by decide]
  · rfl

/-- C21, amended: `getTopPerformingAgents` returns at most 5 entries, sorted
descending by success_rate; entries with equal success_rate appear in the
order in which `Object.values` lists the grouping object, and this is the
order in which their agent_id first occurs in the metrics when no agent_id is
the numeral of an array index. -/
theorem top_agents_sorted_stable (inherited : String → Bool) (metrics : List Metric)
    (agents : List Agent) :
    (getTopPerformingAgents inherited metrics agents).length ≤ 5 ∧
      (getTopPerformingAgents inherited metrics agents).Pairwise
        (fun a b => b.success_rate.le a.success_rate = true) ∧
      (getTopPerformingAgents inherited metrics agents).Pairwise
        (fun a b => a.success_rate = b.success_rate →
          ((JSObject.values (metrics.foldl (recordAgentMetric inherited) [])).map
              AgentStats.agent_id).indexOf a.agent_id <
            ((JSObject.values (metrics.foldl (recordAgentMetric inherited) [])).map
              AgentStats.agent_id).indexOf b.agent_id) ∧
      ((∀ m ∈ metrics, arrayIndex? m.agent_id = none) →
        (getTopPerformingAgents inherited metrics agents).Pairwise
          (fun a b => a.success_rate = b.success_rate →
            (metrics.map Metric.agent_id).indexOf a.agent_id <
              (metrics.map Metric.agent_id).indexOf b.agent_id)) := by
  have hfin : ∀ e ∈ (JSObject.values (metrics.foldl (recordAgentMetric inherited) [])).map
      (toTopAgent agents), e.success_rate.isNaN = false := by
    intro e he
    rw [(success_rate_topAgents_candidates inherited metrics agents e he).1]
    rfl
  have hties : ∀ Q : TopAgent → TopAgent → Prop,
      ((JSObject.values (metrics.foldl (recordAgentMetric inherited) [])).map
        (toTopAgent agents)).Pairwise Q →
      (getTopPerformingAgents inherited metrics agents).Pairwise
        (fun a b => a.success_rate = b.success_rate → Q a b) := by
    intro Q hQ
    have h1 := pairwise_insertionSort_ties
      (fun a b : TopAgent => (b.success_rate.sub a.success_rate).gt (JSNum.fin 0) = false)
      Q _ hQ
    have h2 : (jsSort (fun a b : TopAgent => b.success_rate.sub a.success_rate)
        ((JSObject.values (metrics.foldl (recordAgentMetric inherited) [])).map
          (toTopAgent agents))).Pairwise
        (fun a b => a.success_rate = b.success_rate → Q a b) := by
      refine List.Pairwise.imp_of_mem ?_ h1
      intro a b ha hb hab heq
      apply hab
      show (a.success_rate.sub b.success_rate).gt (JSNum.fin 0) = false
      rw [← heq]
      exact JSNum.sub_self_not_gt _
    exact List.Pairwise.sublist (List.take_sublist _ _) h2
  refine ⟨?_, ?_, ?_, ?_⟩
  · exact List.length_take_le _ _
  · exact List.Pairwise.sublist (List.take_sublist _ _)
      (jsSort_descending TopAgent.success_rate _ hfin)
  · apply hties
    have hnd := nodup_topAgents_candidates inherited metrics agents
    have hids : ((JSObject.values (metrics.foldl (recordAgentMetric inherited) [])).map
        (toTopAgent agents)).map TopAgent.agent_id =
        (JSObject.values (metrics.foldl (recordAgentMetric inherited) [])).map
          AgentStats.agent_id := by
      rw [List.map_map]
      rfl
    rw [hids] at hnd
    have hp := pairwise_indexOf_of_nodup _ hnd
    rw [← hids, List.pairwise_map] at hp
    rw [hids] at hp
    exact hp
  · intro hno
    apply hties
    have hG := agentStats_grouped inherited metrics
    have hnoidx : ∀ p ∈ metrics.foldl (recordAgentMetric inherited) [],
        p.1.isIndex = false := by
      intro p hp
      obtain ⟨k, st⟩ := p
      obtain ⟨hk, hid, _⟩ := agentStats_entry inherited metrics k st hp
      obtain ⟨m, hm, hmid⟩ := List.mem_map.mp hid
      show k.isIndex = false
      rw [hk, ← hmid]
      exact PropertyKey.isIndex_ofString _ (hno m hm)
    unfold JSObject.values
    rw [JSObject.entries_of_no_index _ hnoidx, List.map_map, List.pairwise_map]
    have hord := hG.2.2.2
    rw [List.pairwise_map] at hord
    refine List.Pairwise.imp_of_mem ?_ hord
    intro p q hp hq hpq
    obtain ⟨k1, st1⟩ := p
    obtain ⟨k2, st2⟩ := q
    have e1 := (agentStats_entry inherited metrics k1 st1 hp).1
    have e2 := (agentStats_entry inherited metrics k2 st2 hq).1
    have hmapkeys : metrics.map (fun m : Metric => PropertyKey.ofString m.agent_id) =
        (metrics.map Metric.agent_id).map PropertyKey.ofString := by
      rw [List.map_map]
      rfl
    simp only [hmapkeys] at hpq
    rw [e1, e2, indexOf_map_ofString, indexOf_map_ofString] at hpq
    exact hpq

/-- Witness of C21, amended: two agents with the ids `b` and `a`, which are
no numerals. -/
theorem top_agents_sorted_stable_witness :
    (getTopPerformingAgents (fun _ => false)
        [fleetMetric "b" true 0, fleetMetric "a" true 0] []).Pairwise
      (fun a b => a.success_rate = b.success_rate →
        ([fleetMetric "b" true 0, fleetMetric "a" true 0].map Metric.agent_id).indexOf
            a.agent_id <
          ([fleetMetric "b" true 0, fleetMetric "a" true 0].map Metric.agent_id).indexOf
            b.agent_id) :=
  (top_agents_sorted_stable (fun _ => false)
    [fleetMetric "b" true 0, fleetMetric "a" true 0] []).2.2.2 (by decide)

/-- The report of one agent with one successful metric and a named record. -/
theorem sample_top_agent :
    getTopPerformingAgents (fun _ => false) [fleetMetric "a1" true 0]
        [fleetAgent "a1" "Alpha"] =
      [{ agent_id := "a1", total_operations := 1, successful_operations := 1
         total_processing_time := 100, success_rate := JSNum.fin 1
         average_processing_time := JSNum.fin 100, agent_name := "Alpha" }] := by
  simp [getTopPerformingAgents, recordAgentMetric, JSObject.get, JSObject.set,
    JSObject.values, JSObject.entries, toTopAgent, jsSort, fleetMetric, fleetAgent,
    AgentStats.record, agentNameOf, JSNum.div, PropertyKey.isIndex,
    show PropertyKey.ofString "a1" = PropertyKey.name "a1" from by decide]

/-- C22, as stated, fails: the agent record with id `a1` exists and its name
is empty, and the entry of `a1` has the agent_name `Unknown`. -/
theorem existing_agent_reported_unknown :
    (getTopPerformingAgents (fun _ => false) [fleetMetric "a1" true 0]
        [fleetAgent "a1" ""]).map (fun e => (e.agent_id, e.agent_name)) =
      [("a1", "Unknown")] ∧
    fleetAgent "a1" "" ∈ [fleetAgent "a1" ""] ∧ (fleetAgent "a1" "").id = "a1" := by
  refine ⟨?_, List.mem_singleton_self _, rfl⟩
  simp [getTopPerformingAgents, recordAgentMetric, JSObject.get, JSObject.set,
    JSObject.values, JSObject.entries, toTopAgent, jsSort, fleetMetric, fleetAgent,
    AgentStats.record, agentNameOf, JSNum.div, PropertyKey.isIndex,
    show PropertyKey.ofString "a1" = PropertyKey.name "a1" from by decide]

/-- C22, amended: the entries returned by `getTopPerformingAgents` describe
pairwise distinct agent ids occurring in the metrics; each has as
total_operations the number of metrics of that agent, as
successful_operations the number of those with `success` set, as success_rate
their quotient, as average_processing_time the sum of their processing_time
divided by total_operations, and as agent_name the name of the first agent
record with that id when that name is not empty, and `Unknown` when the name
is empty or no agent record has that id. -/
theorem top_agents_describe_agents (inherited : String → Bool) (metrics : List Metric)
    (agents : List Agent) :
    ((getTopPerformingAgents inherited metrics agents).map TopAgent.agent_id).Nodup ∧
      ∀ e ∈ getTopPerformingAgents inherited metrics agents,
        e.agent_id ∈ metrics.map Metric.agent_id ∧
        e.total_operations =
          (metrics.filter (fun m => decide (m.agent_id = e.agent_id))).length ∧
        e.successful_operations =
          ((metrics.filter (fun m => decide (m.agent_id = e.agent_id))).filter
            (fun m => m.success)).length ∧
        e.success_rate =
          JSNum.fin ((e.successful_operations : ℚ) / (e.total_operations : ℚ)) ∧
        e.average_processing_time =
          JSNum.fin (((metrics.filter (fun m => decide (m.agent_id = e.agent_id))).map
            Metric.processing_time).sum / (e.total_operations : ℚ)) ∧
        ((∀ a ∈ agents, a.id ≠ e.agent_id) → e.agent_name = "Unknown") ∧
        (∀ a, agents.find? (fun a => a.id == e.agent_id) = some a →
          e.agent_name = if a.name = "" then "Unknown" else a.name) := by
  have hsub : ∀ e ∈ getTopPerformingAgents inherited metrics agents,
      e ∈ (JSObject.values (metrics.foldl (recordAgentMetric inherited) [])).map
        (toTopAgent agents) := by
    intro e he
    exact (List.mem_insertionSort _).mp (List.mem_of_mem_take he)
  constructor
  · have hnd := nodup_topAgents_candidates inherited metrics agents
    have hperm : (jsSort (fun a b : TopAgent => b.success_rate.sub a.success_rate)
        ((JSObject.values (metrics.foldl (recordAgentMetric inherited) [])).map
          (toTopAgent agents))).Perm
        ((JSObject.values (metrics.foldl (recordAgentMetric inherited) [])).map
          (toTopAgent agents)) := List.perm_insertionSort _ _
    have hnd2 := (hperm.map TopAgent.agent_id).nodup_iff.mpr hnd
    exact List.Nodup.sublist (List.Sublist.map _ (List.take_sublist _ _)) hnd2
  · intro e he
    have hmem := hsub e he
    obtain ⟨hrate, havg⟩ := success_rate_topAgents_candidates inherited metrics agents e hmem
    obtain ⟨k, st, hst, rfl⟩ := mem_topAgents_candidates inherited metrics agents e hmem
    obtain ⟨_, hid, _, htot, hsucc, htime⟩ := agentStats_entry inherited metrics k st hst
    refine ⟨hid, htot, hsucc, hrate, ?_, ?_, ?_⟩
    · rw [havg]
      show JSNum.fin (st.total_processing_time / _) = _
      rw [htime]
      rfl
    · intro hno
      show agentNameOf agents st.agent_id = "Unknown"
      unfold agentNameOf
      have hnone : agents.find? (fun a => a.id == st.agent_id) = none := by
        rw [List.find?_eq_none]
        intro a ha
        simpa using hno a ha
      rw [hnone]
    · intro a ha
      show agentNameOf agents st.agent_id = _
      unfold agentNameOf
      have ha1 : agents.find? (fun a => a.id == st.agent_id) = some a := ha
      rw [ha1]

/-- Witness of C22, amended: one agent with one successful metric and a
record named `Alpha`. -/
theorem top_agents_describe_agents_witness :
    "a1" ∈ [fleetMetric "a1" true 0].map Metric.agent_id ∧
      (1 : Nat) =
        ([fleetMetric "a1" true 0].filter (fun m => decide (m.agent_id = "a1"))).length ∧
      (1 : Nat) =
        (([fleetMetric "a1" true 0].filter (fun m => decide (m.agent_id = "a1"))).filter
          (fun m => m.success)).length ∧
      JSNum.fin 1 = JSNum.fin (((1 : Nat) : ℚ) / ((1 : Nat) : ℚ)) ∧
      JSNum.fin 100 =
        JSNum.fin ((([fleetMetric "a1" true 0].filter
          (fun m => decide (m.agent_id = "a1"))).map Metric.processing_time).sum /
            ((1 : Nat) : ℚ)) ∧
      ((∀ a ∈ [fleetAgent "a1" "Alpha"], a.id ≠ "a1") → "Alpha" = "Unknown") ∧
      (∀ a, [fleetAgent "a1" "Alpha"].find? (fun a => a.id == "a1") = some a →
        "Alpha" = if a.name = "" then "Unknown" else a.name) :=
  (top_agents_describe_agents (fun _ => false) [fleetMetric "a1" true 0]
    [fleetAgent "a1" "Alpha"]).2
    { agent_id := "a1", total_operations := 1, successful_operations := 1
      total_processing_time := 100, success_rate := JSNum.fin 1
      average_processing_time := JSNum.fin 100, agent_name := "Alpha" }
    (by rw [sample_top_agent]; exact List.mem_singleton_self _)

/-! ## The fleet report: performance trends -/

/-- The hour of the day is below 24. -/
theorem getHours_lt (localOffset : Int → Int) (t : Int) : getHours localOffset t < 24 := by
  unfold getHours
  have h1 := Int.emod_nonneg ((t + localOffset t) / 3600000) (by norm_num : (24 : Int) ≠ 0)
  have h2 := Int.emod_lt_of_pos ((t + localOffset t) / 3600000) (by norm_num : (0 : Int) < 24)
  omega

/-- The number of elements of a key is the number of occurrences of the key
among the keys. -/
theorem length_filter_key_eq_count {M : Type} (key : M → PropertyKey) (k : PropertyKey)
    (ms : List M) :
    (ms.filter (fun m => decide (key m = k))).length = (ms.map key).count k := by
  induction ms with
  | nil => rfl
  | cons m ms ih =>
    by_cases h : key m = k
    · simp [List.filter_cons, h, ih]
    · rw [List.map_cons, List.count_cons_of_ne (fun e => h e.symm), ← ih]
      simp [List.filter_cons, h]

/-- The object `hourlyMetrics` built by `calculatePerformanceTrends` is
grouped by hour. -/
theorem hourlyMetrics_grouped (localOffset : Int → Int) (metrics : List Metric) :
    Grouped (fun m : Metric => PropertyKey.index (getHours localOffset m.created_at))
      (fun _ => false) (fun _ => ({ total := 0, successful := 0 } : HourStats))
      HourStats.record metrics (metrics.foldl (recordHourMetric localOffset) []) :=
  Grouped.foldl (fun m : Metric => PropertyKey.index (getHours localOffset m.created_at))
    (fun _ => false) (fun _ => ({ total := 0, successful := 0 } : HourStats))
    HourStats.record (fun _ _ _ => rfl)
    (recordHourMetric localOffset) (recordHourMetric_eq localOffset) metrics

/-- Every property of `hourlyMetrics` holds the statistics of the metrics of
one hour, under the key of that hour. -/
theorem hourlyMetrics_entry (localOffset : Int → Int) (metrics : List Metric)
    (k : PropertyKey) (st : HourStats)
    (h : (k, st) ∈ metrics.foldl (recordHourMetric localOffset) []) :
    k = PropertyKey.index k.indexValue ∧ k.indexValue < 24 ∧
      (∃ m ∈ metrics, getHours localOffset m.created_at = k.indexValue) ∧
      0 < st.total ∧
      st.total =
        (metrics.filter
          (fun m => decide (getHours localOffset m.created_at = k.indexValue))).length ∧
      st.successful =
        ((metrics.filter
          (fun m => decide (getHours localOffset m.created_at = k.indexValue))).filter
            (fun m => m.success)).length := by
  obtain ⟨m0, rest, hf, _, hv⟩ := (hourlyMetrics_grouped localOffset metrics).2.1 k st h
  rw [foldl_hourStats_record] at hv
  have hm0 : m0 ∈ metrics.filter
      (fun m => decide (PropertyKey.index (getHours localOffset m.created_at) = k)) := by
    rw [hf]; exact List.mem_cons_self _ _
  rw [List.mem_filter] at hm0
  have hk : PropertyKey.index (getHours localOffset m0.created_at) = k := by simpa using hm0.2
  have hval : k.indexValue = getHours localOffset m0.created_at := by rw [← hk]; rfl
  have hfilter : metrics.filter
      (fun m => decide (getHours localOffset m.created_at = k.indexValue)) = m0 :: rest := by
    rw [← hf]
    apply List.filter_congr
    intro m _
    rw [hval, ← hk]
    simp
  rw [hfilter]
  refine ⟨by rw [hval, hk], by rw [hval]; exact getHours_lt _ _,
    ⟨m0, hm0.1, hval.symm⟩, ?_, ?_, ?_⟩
  · rw [hv]; simp
  · rw [hv]; simp
  · rw [hv]; simp

/-- C23: `calculatePerformanceTrends` returns exactly one entry per hour of
the day that has at least one metric and no entry for another hour; the hour
of an entry is below 24, its total_operations is the number of metrics in
that hour, its success_rate is the number of successful metrics in that hour
divided by total_operations, and the total_operations sum to the number of
metrics. -/
theorem trends_one_entry_per_hour (localOffset : Int → Int) (metrics : List Metric) :
    ((calculatePerformanceTrends localOffset metrics).map Trend.hour).Nodup ∧
      (∀ h, h ∈ (calculatePerformanceTrends localOffset metrics).map Trend.hour ↔
        ∃ m ∈ metrics, getHours localOffset m.created_at = h) ∧
      (∀ t ∈ calculatePerformanceTrends localOffset metrics,
        t.hour < 24 ∧ 0 < t.total_operations ∧
        t.total_operations =
          (metrics.filter
            (fun m => decide (getHours localOffset m.created_at = t.hour))).length ∧
        t.success_rate =
          JSNum.fin ((((metrics.filter
            (fun m => decide (getHours localOffset m.created_at = t.hour))).filter
              (fun m => m.success)).length : ℚ) / (t.total_operations : ℚ))) ∧
      ((calculatePerformanceTrends localOffset metrics).map Trend.total_operations).sum =
        metrics.length := by
  have hG := hourlyMetrics_grouped localOffset metrics
  have hperm := JSObject.entries_perm (metrics.foldl (recordHourMetric localOffset) [])
  have hentry := hourlyMetrics_entry localOffset metrics
  have hhours : (calculatePerformanceTrends localOffset metrics).map Trend.hour =
      ((JSObject.entries (metrics.foldl (recordHourMetric localOffset) [])).map
        Prod.fst).map PropertyKey.indexValue := by
    unfold calculatePerformanceTrends
    rw [List.map_map, List.map_map]
    rfl
  have hkeysnd : ((JSObject.entries (metrics.foldl (recordHourMetric localOffset) [])).map
      Prod.fst).Nodup := (hperm.map Prod.fst).nodup_iff.mpr hG.1
  have hkeyidx : ∀ k ∈ (JSObject.entries (metrics.foldl (recordHourMetric localOffset)
      [])).map Prod.fst, k = PropertyKey.index k.indexValue := by
    intro k hk
    obtain ⟨⟨k1, st⟩, hp, rfl⟩ := List.mem_map.mp hk
    exact (hentry k1 st (hperm.mem_iff.mp hp)).1
  refine ⟨?_, ?_, ?_, ?_⟩
  · rw [hhours]
    refine List.Nodup.map_on ?_ hkeysnd
    intro a ha b hb hab
    rw [hkeyidx a ha, hkeyidx b hb, hab]
  · intro h
    rw [hhours]
    constructor
    · intro hh
      obtain ⟨k, hk, rfl⟩ := List.mem_map.mp hh
      obtain ⟨⟨k1, st⟩, hp, rfl⟩ := List.mem_map.mp hk
      exact (hentry k1 st (hperm.mem_iff.mp hp)).2.2.1
    · rintro ⟨m, hm, rfl⟩
      have hkey := hG.2.2.1 m hm rfl
      have hkey2 : PropertyKey.index (getHours localOffset m.created_at) ∈
          (JSObject.entries (metrics.foldl (recordHourMetric localOffset) [])).map Prod.fst :=
        (hperm.map Prod.fst).mem_iff.mpr hkey
      exact List.mem_map.mpr ⟨_, hkey2, rfl⟩
  · intro t ht
    unfold calculatePerformanceTrends at ht
    obtain ⟨⟨k, st⟩, hp, rfl⟩ := List.mem_map.mp ht
    obtain ⟨_, hlt, _, hpos, htot, hsucc⟩ := hentry k st (hperm.mem_iff.mp hp)
    have hne : (st.total : ℚ) ≠ 0 := by exact_mod_cast (Nat.pos_iff_ne_zero.mp hpos)
    refine ⟨hlt, hpos, htot, ?_⟩
    show JSNum.div (st.successful : ℚ) (st.total : ℚ) = _
    rw [← hsucc]
    simp [JSNum.div, hne]
  · have htotals : (calculatePerformanceTrends localOffset metrics).map
        Trend.total_operations =
        ((JSObject.entries (metrics.foldl (recordHourMetric localOffset) [])).map
          Prod.fst).map (fun k => (metrics.map (fun m : Metric =>
            PropertyKey.index (getHours localOffset m.created_at))).count k) := by
      unfold calculatePerformanceTrends
      rw [List.map_map, List.map_map]
      apply List.map_congr_left
      intro p hp
      obtain ⟨k, st⟩ := p
      obtain ⟨hk, _, _, _, htot, _⟩ := hentry k st (hperm.mem_iff.mp hp)
      show st.total = (metrics.map (fun m : Metric =>
        PropertyKey.index (getHours localOffset m.created_at))).count k
      rw [htot, ← length_filter_key_eq_count]
      congr 1
      apply List.filter_congr
      intro m _
      rw [hk]
      simp [PropertyKey.indexValue]
    have hdedup : ((JSObject.entries (metrics.foldl (recordHourMetric localOffset) [])).map
        Prod.fst).Perm
        (metrics.map (fun m : Metric =>
          PropertyKey.index (getHours localOffset m.created_at))).dedup := by
      rw [List.perm_ext_iff_of_nodup hkeysnd (List.nodup_dedup _)]
      intro k
      rw [List.mem_dedup]
      constructor
      · intro hk
        obtain ⟨⟨k1, st⟩, hp, rfl⟩ := List.mem_map.mp hk
        obtain ⟨hk1, _, ⟨m, hm, hmh⟩, _⟩ := hentry k1 st (hperm.mem_iff.mp hp)
        refine List.mem_map.mpr ⟨m, hm, ?_⟩
        show PropertyKey.index (getHours localOffset m.created_at) = k1
        rw [hmh, ← hk1]
      · intro hk
        obtain ⟨m, hm, rfl⟩ := List.mem_map.mp hk
        exact (hperm.map Prod.fst).mem_iff.mpr (hG.2.2.1 m hm rfl)
    rw [htotals, (hdedup.map _).sum_eq, List.sum_map_count_dedup_eq_length, List.length_map]

/-- The trends of one successful metric created in the second hour of a day,
in an environment whose local time is UTC. -/
theorem sample_trends :
    calculatePerformanceTrends (fun _ => 0) [fleetMetric "a1" true 90000005] =
      [{ hour := 1, success_rate := JSNum.fin 1, total_operations := 1 }] := by
  have hh : getHours (fun _ => 0) 90000005 = 1 := by decide
  simp [calculatePerformanceTrends, recordHourMetric, JSObject.get, JSObject.set,
    JSObject.entries, fleetMetric, HourStats.record, JSNum.div, PropertyKey.isIndex,
    PropertyKey.indexValue, hh]

/-- Witness of C23: one successful metric created in the second hour of a
day. -/
theorem trends_one_entry_per_hour_witness :
    (1 : Nat) < 24 ∧ 0 < (1 : Nat) ∧
      (1 : Nat) =
        ([fleetMetric "a1" true 90000005].filter
          (fun m => decide (getHours (fun _ => 0) m.created_at = 1))).length ∧
      JSNum.fin 1 =
        JSNum.fin (((([fleetMetric "a1" true 90000005].filter
          (fun m => decide (getHours (fun _ => 0) m.created_at = 1))).filter
            (fun m => m.success)).length : ℚ) / ((1 : Nat) : ℚ)) :=
  (trends_one_entry_per_hour (fun _ => 0) [fleetMetric "a1" true 90000005]).2.2.1
    { hour := 1, success_rate := JSNum.fin 1, total_operations := 1 }
    (by rw [sample_trends]; exact List.mem_singleton_self _)

/-! ## The endpoint: who may read a report -/

/-- A GET request routed to the report is answered by `getMonitoringReport`
alone: neither the Authorization header nor the identity provider is
consulted. -/
theorem handler_report_route (env : MonitorEnv) (req : MonitorRequest)
    (hm : req.method = "GET") (hh : includes req.url "/health" = false)
    (hr : includes req.url "/report" = true) :
    handler env req = getMonitoringReport env req := by
  have hopt : ¬ req.method = "OPTIONS" := by rw [hm]; decide
  simp [handler, hopt, hm, hh, hr]

/-- C27, evaluated: a GET request for the report of `tenant-b` that carries no
credential, and one that carries the credential of a user of `tenant-a`, are
both answered with status 200 and the report of `tenant-b`; only the POST
request without credential is answered 401. -/
theorem report_served_across_tenants :
    (handler sampleEnv reportRequestWithoutCredential).status = 200 ∧
      (∃ data, handler sampleEnv reportRequestWithoutCredential =
          MonitorResponse.report data ∧
        data.tenant_id = "tenant-b" ∧ data.agents_count = 1 ∧
        data.system_health.total_operations = 1) ∧
      authenticateAndIsolate sampleEnv reportRequestOtherTenant = Except.ok "tenant-a" ∧
      reportRequestOtherTenant.query_tenantId = some "tenant-b" ∧
      (handler sampleEnv reportRequestOtherTenant).status = 200 ∧
      (∃ data, handler sampleEnv reportRequestOtherTenant = MonitorResponse.report data ∧
        data.tenant_id = "tenant-b" ∧ data.agents_count = 1) ∧
      (handler sampleEnv postRequestWithoutCredential).status = 401 := by
  have h1 : handler sampleEnv reportRequestWithoutCredential =
      getMonitoringReport sampleEnv reportRequestWithoutCredential :=
    handler_report_route _ _ rfl (by decide) (by decide)
  have h2 : handler sampleEnv reportRequestOtherTenant =
      getMonitoringReport sampleEnv reportRequestOtherTenant :=
    handler_report_route _ _ rfl (by decide) (by decide)
  have e1 : getMonitoringReport sampleEnv reportRequestWithoutCredential =
      MonitorResponse.report
        { tenant_id := "tenant-b"
          agents_count := 1
          active_agents := 1
          system_health := calculateSystemHealth [fleetMetric "b1" true 90000005]
          top_performing_agents :=
            getTopPerformingAgents (fun _ => false) [fleetMetric "b1" true 90000005]
              [fleetAgent "b1" "Beta"]
          performance_trends :=
            calculatePerformanceTrends (fun _ => 0) [fleetMetric "b1" true 90000005]
          generated_at := 172800000 } := by
    simp [getMonitoringReport, sampleEnv, reportRequestWithoutCredential, fleetAgent]
  have e2 : getMonitoringReport sampleEnv reportRequestOtherTenant =
      getMonitoringReport sampleEnv reportRequestWithoutCredential := rfl
  refine ⟨?_, ?_, ?_, rfl, ?_, ?_, ?_⟩
  · rw [h1, e1]; rfl
  · exact ⟨_, by rw [h1, e1], rfl, rfl, rfl⟩
  · simp [authenticateAndIsolate, sampleEnv, reportRequestOtherTenant]
  · rw [h2, e2, e1]; rfl
  · exact ⟨_, by rw [h2, e2, e1], rfl, rfl⟩
  · simp [handler, authenticateAndIsolate, postRequestWithoutCredential,
      MonitorResponse.status]

/-! ## Validation of the request body in the three task handlers -/

/-- C25: in each of the three task handlers a request body that lacks a
required field (absent, or an empty string where a string is expected) is
answered with status 400 and the run ends with no store write performed and
no store write call made: performMonitoring for agent_id,
processSentimentTask for agent_id or input_data, processRecommendationTask
for agent_id, input_data, input_data.query or input_data.items. -/
theorem missing_field_rejected_without_writes :
    (∀ run : MonitoringRun, (run.agent_id = none ∨ run.agent_id = some "") →
        (performMonitoring run).1.status = 400 ∧
          (performMonitoring run).2 = { writes := [], calls := 0 }) ∧
      (∀ run : SentimentRun,
        (run.agent_id = none ∨ run.agent_id = some "" ∨ run.input_data = none) →
        (processSentimentTask run).1.status = 400 ∧
          (processSentimentTask run).2 = { writes := [], calls := 0 }) ∧
      (∀ (E : Type) (run : RecommendationRun E),
        (run.agent_id = none ∨ run.agent_id = some "" ∨ run.input_data = none ∨
          ∃ input_data, run.input_data = some input_data ∧
            (input_data.query = none ∨ input_data.query = some "" ∨
              input_data.items = none)) →
        (processRecommendationTask run).1.status = 400 ∧
          (processRecommendationTask run).2 = { writes := [], calls := 0 }) := by
  refine ⟨?_, ?_, ?_⟩
  · intro run h
    rcases h with h | h <;>
      simp [performMonitoring, performMonitoringBody, h, Step.pure]
  · intro run h
    rcases h with h | h | h
    · simp [processSentimentTask, processSentimentTaskBody, h, Effect.pure]
    · rcases hd : run.input_data with _ | d <;>
        simp [processSentimentTask, processSentimentTaskBody, h, hd, Effect.pure]
    · rcases ha : run.agent_id with _ | a <;>
        simp [processSentimentTask, processSentimentTaskBody, h, ha, Effect.pure]
  · intro E run h
    rcases ha : run.agent_id with _ | a
    · simp [processRecommendationTask, processRecommendationTaskBody, ha, Effect.pure]
    rcases hd : run.input_data with _ | d
    · simp [processRecommendationTask, processRecommendationTaskBody, ha, hd, Effect.pure]
    by_cases hne : a = ""
    · simp [processRecommendationTask, processRecommendationTaskBody, ha, hd, hne,
        Effect.pure]
    rcases h with h | h | h | ⟨d1, h1, h⟩
    · rw [ha] at h; cases h
    · rw [ha] at h; exact absurd (Option.some.inj h) hne
    · rw [hd] at h; cases h
    · rw [hd] at h1
      cases Option.some.inj h1
      rcases h with h | h | h
      · simp [processRecommendationTask, processRecommendationTaskBody, ha, hd, hne, h,
          Effect.pure]
      · rcases hi : d.items with _ | items <;>
          simp [processRecommendationTask, processRecommendationTaskBody, ha, hd, hne, h, hi,
            Effect.pure]
      · rcases hq : d.query with _ | q <;>
          simp [processRecommendationTask, processRecommendationTaskBody, ha, hd, hne, h, hq,
            Effect.pure]

/-- Witness for C25: a monitoring request without agent_id, a sentiment
request without input_data and a recommendation request without items. -/
theorem missing_field_rejected_without_writes_witness :
    ((performMonitoring runMonitoringWithoutAgent).1.status = 400 ∧
        (performMonitoring runMonitoringWithoutAgent).2 = { writes := [], calls := 0 }) ∧
      ((processSentimentTask runSentimentWithoutInput).1.status = 400 ∧
        (processSentimentTask runSentimentWithoutInput).2 = { writes := [], calls := 0 }) ∧
      ((processRecommendationTask runRecommendationWithoutItems).1.status = 400 ∧
        (processRecommendationTask runRecommendationWithoutItems).2 =
          { writes := [], calls := 0 }) :=
  ⟨missing_field_rejected_without_writes.1 runMonitoringWithoutAgent (Or.inl rfl),
    missing_field_rejected_without_writes.2.1 runSentimentWithoutInput
      (Or.inr (Or.inr rfl)),
    missing_field_rejected_without_writes.2.2 (Option String) runRecommendationWithoutItems
      (Or.inr (Or.inr (Or.inr ⟨_, rfl, Or.inr (Or.inr rfl)⟩)))⟩

/-- C26, evaluated: the sentiment request with agent_id `a1` and an
input_data that has neither `text` nor `texts` is answered with status 500,
error `Failed to process sentiment analysis` and details message
`Invalid input data format`, after four store writes: a task is created, it is
marked failed, a failure metric is recorded and an error log is inserted.
The recommendation handler answers a request whose input_data lacks a field
with status 400 and no write. -/
theorem malformed_sentiment_input_leaves_records :
    processSentimentTask runMalformedSentiment =
        ({ status := 500, error := some "Failed to process sentiment analysis"
           details_message := some "Invalid input data format" },
         { writes :=
             [HandlerWrite.createTask "tenant" "a1" "processing",
              HandlerWrite.updateTask "task-1" "failed" (some "Invalid input data format"),
              HandlerWrite.recordMetrics "tenant" "a1" "sentiment_analysis_error" 0 false
                (some "Invalid input data format"),
              HandlerWrite.insertLog "tenant" "a1" "error"]
           calls := 4 }) ∧
      processRecommendationTask runRecommendationWithoutItems =
        ({ status := 400, error := some "query and items are required in input_data"
           details_message := none }, { writes := [], calls := 0 }) := by
  constructor
  · rfl
  · rfl

end PerformanceMonitor
